import Mathlib

/-! # TSSessions: access-control decode-and-render engine

A shallow embedding of `SecurityDescriptorUtils.cpp` (permission tables,
`GetPermsForType`, `OutputPermissions`, `AceType`, `GetAddressOfSidInHeader`,
`SidToText`, `OutputAcl`, `OutputSecurityDescriptor`) together with the parts of
`CSid.cpp` they call and the SID tests of `CSid.cpp`.

Conventions of the embedding:

* `DWORD`, `WORD` and `BYTE` values are natural numbers; arithmetic that can wrap in
  the C++ code is written with an explicit `% 2 ^ 32`.
* A sentinel-terminated C array (`{ 0, nullptr }` as last element) is a `List` of
  the elements before the sentinel.
* A function that writes to a `std::wostream` returns the list of `Chunk`s it
  writes, in order; one `Chunk` per `<<` operand.
* A nullable pointer is an `Option`.
* Constants that the code takes from the Windows SDK headers (`winnt.h`,
  `winsvc.h`, `winuser.h`, `winevt.h`, `Iads.h`, `objbase.h`, `memoryapi.h`) carry the
  values of those headers.
-/

namespace SecurityDescriptorUtils

/-! ## Windows SDK constants -/

-- standard and generic rights (winnt.h)
def DELETE : Nat := 0x00010000
def READ_CONTROL : Nat := 0x00020000
def WRITE_DAC : Nat := 0x00040000
def WRITE_OWNER : Nat := 0x00080000
def SYNCHRONIZE : Nat := 0x00100000
def STANDARD_RIGHTS_REQUIRED : Nat := 0x000F0000
def STANDARD_RIGHTS_READ : Nat := READ_CONTROL
def STANDARD_RIGHTS_WRITE : Nat := READ_CONTROL
def STANDARD_RIGHTS_EXECUTE : Nat := READ_CONTROL
def STANDARD_RIGHTS_ALL : Nat := 0x001F0000
def ACCESS_SYSTEM_SECURITY : Nat := 0x01000000
def MAXIMUM_ALLOWED : Nat := 0x02000000
def GENERIC_READ : Nat := 0x80000000
def GENERIC_WRITE : Nat := 0x40000000
def GENERIC_EXECUTE : Nat := 0x20000000
def GENERIC_ALL : Nat := 0x10000000

-- file, directory and pipe rights (winnt.h)
def FILE_READ_DATA : Nat := 0x0001
def FILE_LIST_DIRECTORY : Nat := 0x0001
def FILE_WRITE_DATA : Nat := 0x0002
def FILE_ADD_FILE : Nat := 0x0002
def FILE_APPEND_DATA : Nat := 0x0004
def FILE_ADD_SUBDIRECTORY : Nat := 0x0004
def FILE_CREATE_PIPE_INSTANCE : Nat := 0x0004
def FILE_READ_EA : Nat := 0x0008
def FILE_WRITE_EA : Nat := 0x0010
def FILE_EXECUTE : Nat := 0x0020
def FILE_TRAVERSE : Nat := 0x0020
def FILE_DELETE_CHILD : Nat := 0x0040
def FILE_READ_ATTRIBUTES : Nat := 0x0080
def FILE_WRITE_ATTRIBUTES : Nat := 0x0100
def FILE_ALL_ACCESS : Nat := STANDARD_RIGHTS_REQUIRED ||| SYNCHRONIZE ||| 0x1FF
def FILE_GENERIC_READ : Nat :=
  STANDARD_RIGHTS_READ ||| FILE_READ_DATA ||| FILE_READ_ATTRIBUTES ||| FILE_READ_EA ||| SYNCHRONIZE
def FILE_GENERIC_WRITE : Nat :=
  STANDARD_RIGHTS_WRITE ||| FILE_WRITE_DATA ||| FILE_WRITE_ATTRIBUTES ||| FILE_WRITE_EA |||
    FILE_APPEND_DATA ||| SYNCHRONIZE
def FILE_GENERIC_EXECUTE : Nat :=
  STANDARD_RIGHTS_EXECUTE ||| FILE_READ_ATTRIBUTES ||| FILE_EXECUTE ||| SYNCHRONIZE

-- registry key rights (winnt.h); `x &&& ~SYNCHRONIZE` on 32 bits is `x &&& 0xFFEFFFFF`
def KEY_QUERY_VALUE : Nat := 0x0001
def KEY_SET_VALUE : Nat := 0x0002
def KEY_CREATE_SUB_KEY : Nat := 0x0004
def KEY_ENUMERATE_SUB_KEYS : Nat := 0x0008
def KEY_NOTIFY : Nat := 0x0010
def KEY_CREATE_LINK : Nat := 0x0020
def KEY_WOW64_32KEY : Nat := 0x0200
def KEY_WOW64_64KEY : Nat := 0x0100
def KEY_READ : Nat :=
  (STANDARD_RIGHTS_READ ||| KEY_QUERY_VALUE ||| KEY_ENUMERATE_SUB_KEYS ||| KEY_NOTIFY) &&& 0xFFEFFFFF
def KEY_WRITE : Nat :=
  (STANDARD_RIGHTS_WRITE ||| KEY_SET_VALUE ||| KEY_CREATE_SUB_KEY) &&& 0xFFEFFFFF
def KEY_EXECUTE : Nat := KEY_READ &&& 0xFFEFFFFF
def KEY_ALL_ACCESS : Nat :=
  (STANDARD_RIGHTS_ALL ||| KEY_QUERY_VALUE ||| KEY_SET_VALUE ||| KEY_CREATE_SUB_KEY |||
    KEY_ENUMERATE_SUB_KEYS ||| KEY_NOTIFY ||| KEY_CREATE_LINK) &&& 0xFFEFFFFF

-- service and service control manager rights (winsvc.h)
def SERVICE_QUERY_CONFIG : Nat := 0x0001
def SERVICE_CHANGE_CONFIG : Nat := 0x0002
def SERVICE_QUERY_STATUS : Nat := 0x0004
def SERVICE_ENUMERATE_DEPENDENTS : Nat := 0x0008
def SERVICE_START : Nat := 0x0010
def SERVICE_STOP : Nat := 0x0020
def SERVICE_PAUSE_CONTINUE : Nat := 0x0040
def SERVICE_INTERROGATE : Nat := 0x0080
def SERVICE_USER_DEFINED_CONTROL : Nat := 0x0100
def SERVICE_ALL_ACCESS : Nat :=
  STANDARD_RIGHTS_REQUIRED ||| SERVICE_QUERY_CONFIG ||| SERVICE_CHANGE_CONFIG |||
    SERVICE_QUERY_STATUS ||| SERVICE_ENUMERATE_DEPENDENTS ||| SERVICE_START ||| SERVICE_STOP |||
    SERVICE_PAUSE_CONTINUE ||| SERVICE_INTERROGATE ||| SERVICE_USER_DEFINED_CONTROL
def SC_MANAGER_CONNECT : Nat := 0x0001
def SC_MANAGER_CREATE_SERVICE : Nat := 0x0002
def SC_MANAGER_ENUMERATE_SERVICE : Nat := 0x0004
def SC_MANAGER_LOCK : Nat := 0x0008
def SC_MANAGER_QUERY_LOCK_STATUS : Nat := 0x0010
def SC_MANAGER_MODIFY_BOOT_CONFIG : Nat := 0x0020
def SC_MANAGER_ALL_ACCESS : Nat :=
  STANDARD_RIGHTS_REQUIRED ||| SC_MANAGER_CONNECT ||| SC_MANAGER_CREATE_SERVICE |||
    SC_MANAGER_ENUMERATE_SERVICE ||| SC_MANAGER_LOCK ||| SC_MANAGER_QUERY_LOCK_STATUS |||
    SC_MANAGER_MODIFY_BOOT_CONFIG

-- process and thread rights (winnt.h, Windows Vista and later)
def PROCESS_TERMINATE : Nat := 0x0001
def PROCESS_CREATE_THREAD : Nat := 0x0002
def PROCESS_SET_SESSIONID : Nat := 0x0004
def PROCESS_VM_OPERATION : Nat := 0x0008
def PROCESS_VM_READ : Nat := 0x0010
def PROCESS_VM_WRITE : Nat := 0x0020
def PROCESS_DUP_HANDLE : Nat := 0x0040
def PROCESS_CREATE_PROCESS : Nat := 0x0080
def PROCESS_SET_QUOTA : Nat := 0x0100
def PROCESS_SET_INFORMATION : Nat := 0x0200
def PROCESS_QUERY_INFORMATION : Nat := 0x0400
def PROCESS_SUSPEND_RESUME : Nat := 0x0800
def PROCESS_QUERY_LIMITED_INFORMATION : Nat := 0x1000
def PROCESS_SET_LIMITED_INFORMATION : Nat := 0x2000
def PROCESS_ALL_ACCESS : Nat := STANDARD_RIGHTS_REQUIRED ||| SYNCHRONIZE ||| 0xFFFF
def THREAD_TERMINATE : Nat := 0x0001
def THREAD_SUSPEND_RESUME : Nat := 0x0002
def THREAD_GET_CONTEXT : Nat := 0x0008
def THREAD_SET_CONTEXT : Nat := 0x0010
def THREAD_QUERY_INFORMATION : Nat := 0x0040
def THREAD_SET_INFORMATION : Nat := 0x0020
def THREAD_SET_THREAD_TOKEN : Nat := 0x0080
def THREAD_IMPERSONATE : Nat := 0x0100
def THREAD_DIRECT_IMPERSONATION : Nat := 0x0200
def THREAD_SET_LIMITED_INFORMATION : Nat := 0x0400
def THREAD_QUERY_LIMITED_INFORMATION : Nat := 0x0800
def THREAD_RESUME : Nat := 0x1000
def THREAD_ALL_ACCESS : Nat := STANDARD_RIGHTS_REQUIRED ||| SYNCHRONIZE ||| 0xFFFF

-- share rights, defined in SecurityDescriptorUtils.cpp itself
def SRVSVC_SHARE_CONNECT : Nat := 0x0001
def SRVSVC_PAUSED_SHARE_CONNECT : Nat := 0x0002
def SRVSVC_SHARE_CONNECT_ALL_ACCESS : Nat :=
  STANDARD_RIGHTS_REQUIRED ||| SRVSVC_SHARE_CONNECT ||| SRVSVC_PAUSED_SHARE_CONNECT

-- COM rights (objbase.h)
def COM_RIGHTS_EXECUTE : Nat := 1
def COM_RIGHTS_EXECUTE_LOCAL : Nat := 2
def COM_RIGHTS_EXECUTE_REMOTE : Nat := 4
def COM_RIGHTS_ACTIVATE_LOCAL : Nat := 8
def COM_RIGHTS_ACTIVATE_REMOTE : Nat := 16

-- window station and desktop rights (winuser.h)
def WINSTA_ENUMDESKTOPS : Nat := 0x0001
def WINSTA_READATTRIBUTES : Nat := 0x0002
def WINSTA_ACCESSCLIPBOARD : Nat := 0x0004
def WINSTA_CREATEDESKTOP : Nat := 0x0008
def WINSTA_WRITEATTRIBUTES : Nat := 0x0010
def WINSTA_ACCESSGLOBALATOMS : Nat := 0x0020
def WINSTA_EXITWINDOWS : Nat := 0x0040
def WINSTA_ENUMERATE : Nat := 0x0100
def WINSTA_READSCREEN : Nat := 0x0200
def WINSTA_ALL_ACCESS : Nat :=
  WINSTA_ENUMDESKTOPS ||| WINSTA_READATTRIBUTES ||| WINSTA_ACCESSCLIPBOARD |||
    WINSTA_CREATEDESKTOP ||| WINSTA_WRITEATTRIBUTES ||| WINSTA_ACCESSGLOBALATOMS |||
    WINSTA_EXITWINDOWS ||| WINSTA_ENUMERATE ||| WINSTA_READSCREEN
def DESKTOP_READOBJECTS : Nat := 0x0001
def DESKTOP_CREATEWINDOW : Nat := 0x0002
def DESKTOP_CREATEMENU : Nat := 0x0004
def DESKTOP_HOOKCONTROL : Nat := 0x0008
def DESKTOP_JOURNALRECORD : Nat := 0x0010
def DESKTOP_JOURNALPLAYBACK : Nat := 0x0020
def DESKTOP_ENUMERATE : Nat := 0x0040
def DESKTOP_WRITEOBJECTS : Nat := 0x0080
def DESKTOP_SWITCHDESKTOP : Nat := 0x0100

-- section and file-mapping rights (winnt.h, memoryapi.h)
def SECTION_QUERY : Nat := 0x0001
def SECTION_MAP_WRITE : Nat := 0x0002
def SECTION_MAP_READ : Nat := 0x0004
def SECTION_MAP_EXECUTE : Nat := 0x0008
def SECTION_EXTEND_SIZE : Nat := 0x0010
def SECTION_MAP_EXECUTE_EXPLICIT : Nat := 0x0020
def SECTION_ALL_ACCESS : Nat :=
  STANDARD_RIGHTS_REQUIRED ||| SECTION_QUERY ||| SECTION_MAP_WRITE ||| SECTION_MAP_READ |||
    SECTION_MAP_EXECUTE ||| SECTION_EXTEND_SIZE
def FILE_MAP_WRITE : Nat := SECTION_MAP_WRITE
def FILE_MAP_READ : Nat := SECTION_MAP_READ
def FILE_MAP_ALL_ACCESS : Nat := SECTION_ALL_ACCESS
def FILE_MAP_EXECUTE : Nat := SECTION_MAP_EXECUTE_EXPLICIT
def FILE_MAP_COPY : Nat := 0x00000001
def FILE_MAP_RESERVE : Nat := 0x80000000
def FILE_MAP_TARGETS_INVALID : Nat := 0x40000000
def FILE_MAP_LARGE_PAGES : Nat := 0x20000000

-- event log rights (winevt.h)
def EVT_READ_ACCESS : Nat := 0x1
def EVT_WRITE_ACCESS : Nat := 0x2
def EVT_CLEAR_ACCESS : Nat := 0x4
def EVT_ALL_ACCESS : Nat := 0x7

-- token rights (winnt.h)
def TOKEN_ASSIGN_PRIMARY : Nat := 0x0001
def TOKEN_DUPLICATE : Nat := 0x0002
def TOKEN_IMPERSONATE : Nat := 0x0004
def TOKEN_QUERY : Nat := 0x0008
def TOKEN_QUERY_SOURCE : Nat := 0x0010
def TOKEN_ADJUST_PRIVILEGES : Nat := 0x0020
def TOKEN_ADJUST_GROUPS : Nat := 0x0040
def TOKEN_ADJUST_DEFAULT : Nat := 0x0080
def TOKEN_ADJUST_SESSIONID : Nat := 0x0100
def TOKEN_ALL_ACCESS_P : Nat :=
  STANDARD_RIGHTS_REQUIRED ||| TOKEN_ASSIGN_PRIMARY ||| TOKEN_DUPLICATE ||| TOKEN_IMPERSONATE |||
    TOKEN_QUERY ||| TOKEN_QUERY_SOURCE ||| TOKEN_ADJUST_PRIVILEGES ||| TOKEN_ADJUST_GROUPS |||
    TOKEN_ADJUST_DEFAULT
def TOKEN_ALL_ACCESS : Nat := TOKEN_ALL_ACCESS_P ||| TOKEN_ADJUST_SESSIONID
def TOKEN_READ : Nat := STANDARD_RIGHTS_READ ||| TOKEN_QUERY
def TOKEN_WRITE : Nat :=
  STANDARD_RIGHTS_WRITE ||| TOKEN_ADJUST_PRIVILEGES ||| TOKEN_ADJUST_GROUPS ||| TOKEN_ADJUST_DEFAULT
def TOKEN_EXECUTE : Nat := STANDARD_RIGHTS_EXECUTE
def TOKEN_TRUST_CONSTRAINT_MASK : Nat := STANDARD_RIGHTS_READ ||| TOKEN_QUERY ||| TOKEN_QUERY_SOURCE
def TOKEN_ACCESS_PSEUDO_HANDLE_WIN8 : Nat := TOKEN_QUERY ||| TOKEN_QUERY_SOURCE

-- Active Directory rights (Iads.h, enum ADS_RIGHTS_ENUM)
def ADS_RIGHT_DELETE : Nat := 0x10000
def ADS_RIGHT_READ_CONTROL : Nat := 0x20000
def ADS_RIGHT_WRITE_DAC : Nat := 0x40000
def ADS_RIGHT_WRITE_OWNER : Nat := 0x80000
def ADS_RIGHT_SYNCHRONIZE : Nat := 0x100000
def ADS_RIGHT_ACCESS_SYSTEM_SECURITY : Nat := 0x1000000
def ADS_RIGHT_GENERIC_READ : Nat := 0x80000000
def ADS_RIGHT_GENERIC_WRITE : Nat := 0x40000000
def ADS_RIGHT_GENERIC_EXECUTE : Nat := 0x20000000
def ADS_RIGHT_GENERIC_ALL : Nat := 0x10000000
def ADS_RIGHT_DS_CREATE_CHILD : Nat := 0x1
def ADS_RIGHT_DS_DELETE_CHILD : Nat := 0x2
def ADS_RIGHT_ACTRL_DS_LIST : Nat := 0x4
def ADS_RIGHT_DS_SELF : Nat := 0x8
def ADS_RIGHT_DS_READ_PROP : Nat := 0x10
def ADS_RIGHT_DS_WRITE_PROP : Nat := 0x20
def ADS_RIGHT_DS_DELETE_TREE : Nat := 0x40
def ADS_RIGHT_DS_LIST_OBJECT : Nat := 0x80
def ADS_RIGHT_DS_CONTROL_ACCESS : Nat := 0x100

-- ACE types (winnt.h)
def ACCESS_ALLOWED_ACE_TYPE : Nat := 0x0
def ACCESS_DENIED_ACE_TYPE : Nat := 0x1
def SYSTEM_AUDIT_ACE_TYPE : Nat := 0x2
def SYSTEM_ALARM_ACE_TYPE : Nat := 0x3
def ACCESS_ALLOWED_COMPOUND_ACE_TYPE : Nat := 0x4
def ACCESS_ALLOWED_OBJECT_ACE_TYPE : Nat := 0x5
def ACCESS_DENIED_OBJECT_ACE_TYPE : Nat := 0x6
def SYSTEM_AUDIT_OBJECT_ACE_TYPE : Nat := 0x7
def SYSTEM_ALARM_OBJECT_ACE_TYPE : Nat := 0x8
def ACCESS_ALLOWED_CALLBACK_ACE_TYPE : Nat := 0x9
def ACCESS_DENIED_CALLBACK_ACE_TYPE : Nat := 0xA
def ACCESS_ALLOWED_CALLBACK_OBJECT_ACE_TYPE : Nat := 0xB
def ACCESS_DENIED_CALLBACK_OBJECT_ACE_TYPE : Nat := 0xC
def SYSTEM_AUDIT_CALLBACK_ACE_TYPE : Nat := 0xD
def SYSTEM_ALARM_CALLBACK_ACE_TYPE : Nat := 0xE
def SYSTEM_AUDIT_CALLBACK_OBJECT_ACE_TYPE : Nat := 0xF
def SYSTEM_ALARM_CALLBACK_OBJECT_ACE_TYPE : Nat := 0x10
def SYSTEM_MANDATORY_LABEL_ACE_TYPE : Nat := 0x11

-- presence flags of an object ACE (winnt.h)
def ACE_OBJECT_TYPE_PRESENT : Nat := 0x1
def ACE_INHERITED_OBJECT_TYPE_PRESENT : Nat := 0x2

-- ACE header flags (winnt.h)
def OBJECT_INHERIT_ACE : Nat := 0x1
def CONTAINER_INHERIT_ACE : Nat := 0x2
def NO_PROPAGATE_INHERIT_ACE : Nat := 0x4
def INHERIT_ONLY_ACE : Nat := 0x8
def INHERITED_ACE : Nat := 0x10
def SUCCESSFUL_ACCESS_ACE_FLAG : Nat := 0x40
def FAILED_ACCESS_ACE_FLAG : Nat := 0x80

-- security descriptor control bits (winnt.h)
def SE_OWNER_DEFAULTED : Nat := 0x0001
def SE_GROUP_DEFAULTED : Nat := 0x0002
def SE_DACL_PRESENT : Nat := 0x0004
def SE_DACL_DEFAULTED : Nat := 0x0008
def SE_SACL_PRESENT : Nat := 0x0010
def SE_SACL_DEFAULTED : Nat := 0x0020
def SE_DACL_AUTO_INHERIT_REQ : Nat := 0x0100
def SE_SACL_AUTO_INHERIT_REQ : Nat := 0x0200
def SE_DACL_AUTO_INHERITED : Nat := 0x0400
def SE_SACL_AUTO_INHERITED : Nat := 0x0800
def SE_DACL_PROTECTED : Nat := 0x1000
def SE_SACL_PROTECTED : Nat := 0x2000
def SE_RM_CONTROL_VALID : Nat := 0x4000
def SE_SELF_RELATIVE : Nat := 0x8000

/-! ## Output stream -/

/-- One row of a permission table: `struct perm_t { DWORD mask; const wchar_t * szName; }`. -/
structure perm_t where
  mask : Nat
  szName : String
deriving DecidableEq, Repr

/-- One operand written to the output stream with `<<`. A permission name records the
table row it is taken from; `HEX(v)`, `SysErrorMessage(code)` and
`SysErrorMessageWithCode(code)` are formatting helpers of headers outside this source tree
and are kept as operands of their own. -/
inductive Chunk where
  | text (s : String)
  | perm (p : perm_t)
  | hex (v : Nat)
  | dec (n : Nat)
  | sysErr (code : Nat)
  | sysErrWithCode (code : Nat)
  | endl
deriving DecidableEq, Repr

/-- The table rows whose names were written, in the order they were written. -/
def emittedPerms : List Chunk → List perm_t
  | [] => []
  | Chunk.perm p :: cs => p :: emittedPerms cs
  | _ :: cs => emittedPerms cs

/-- The names of the table rows that were written, in order. -/
def emittedNames (out : List Chunk) : List String :=
  (emittedPerms out).map (fun p => p.szName)

/-- The values written through `HEX(...)`, in order. -/
def printedHex : List Chunk → List Nat
  | [] => []
  | Chunk.hex v :: cs => v :: printedHex cs
  | _ :: cs => printedHex cs

/-- Bitwise OR of the masks of a list of table rows. -/
def unionMasks : List perm_t → Nat
  | [] => 0
  | p :: ps => p.mask ||| unionMasks ps

/-! ## Common utility function -/

/-- Returns true if the bit(s) in `dwBits` are all set in `dwValue`. -/
def BitPresent (dwBits dwValue : Nat) : Bool :=
  dwBits == (dwBits &&& dwValue)

/-! ## ACE types -/

/-- For mapping ACE type to corresponding name. -/
structure ace_t where
  aceType : Nat
  szName : String
deriving DecidableEq, Repr

def aceTypes : List ace_t := [
  ⟨ACCESS_ALLOWED_ACE_TYPE, "ACCESS_ALLOWED_ACE_TYPE"⟩,
  ⟨ACCESS_DENIED_ACE_TYPE, "ACCESS_DENIED_ACE_TYPE"⟩,
  ⟨SYSTEM_AUDIT_ACE_TYPE, "SYSTEM_AUDIT_ACE_TYPE"⟩,
  ⟨SYSTEM_ALARM_ACE_TYPE, "SYSTEM_ALARM_ACE_TYPE"⟩,
  ⟨ACCESS_ALLOWED_COMPOUND_ACE_TYPE, "ACCESS_ALLOWED_COMPOUND_ACE_TYPE"⟩,
  ⟨ACCESS_ALLOWED_OBJECT_ACE_TYPE, "ACCESS_ALLOWED_OBJECT_ACE_TYPE"⟩,
  ⟨ACCESS_DENIED_OBJECT_ACE_TYPE, "ACCESS_DENIED_OBJECT_ACE_TYPE"⟩,
  ⟨SYSTEM_AUDIT_OBJECT_ACE_TYPE, "SYSTEM_AUDIT_OBJECT_ACE_TYPE"⟩,
  ⟨SYSTEM_ALARM_OBJECT_ACE_TYPE, "SYSTEM_ALARM_OBJECT_ACE_TYPE"⟩,
  ⟨ACCESS_ALLOWED_CALLBACK_ACE_TYPE, "ACCESS_ALLOWED_CALLBACK_ACE_TYPE"⟩,
  ⟨ACCESS_DENIED_CALLBACK_ACE_TYPE, "ACCESS_DENIED_CALLBACK_ACE_TYPE"⟩,
  ⟨ACCESS_ALLOWED_CALLBACK_OBJECT_ACE_TYPE, "ACCESS_ALLOWED_CALLBACK_OBJECT_ACE_TYPE"⟩,
  ⟨ACCESS_DENIED_CALLBACK_OBJECT_ACE_TYPE, "ACCESS_DENIED_CALLBACK_OBJECT_ACE_TYPE"⟩,
  ⟨SYSTEM_AUDIT_CALLBACK_ACE_TYPE, "SYSTEM_AUDIT_CALLBACK_ACE_TYPE"⟩,
  ⟨SYSTEM_ALARM_CALLBACK_ACE_TYPE, "SYSTEM_ALARM_CALLBACK_ACE_TYPE"⟩,
  ⟨SYSTEM_AUDIT_CALLBACK_OBJECT_ACE_TYPE, "SYSTEM_AUDIT_CALLBACK_OBJECT_ACE_TYPE"⟩,
  ⟨SYSTEM_ALARM_CALLBACK_OBJECT_ACE_TYPE, "SYSTEM_ALARM_CALLBACK_OBJECT_ACE_TYPE"⟩,
  ⟨SYSTEM_MANDATORY_LABEL_ACE_TYPE, "SYSTEM_MANDATORY_LABEL_ACE_TYPE"⟩]

/-- The loop of `AceType` over a table: the name of the first row whose type equals
`dwAceType`, `none` (the C++ `nullptr`) when the table is exhausted. -/
def AceType.loop (dwAceType : Nat) : List ace_t → Option String
  | [] => none
  | pAce :: rest => if dwAceType = pAce.aceType then some pAce.szName else AceType.loop dwAceType rest

/-- Returns text corresponding to a valid ACE type value; `none` if the ACE type value is
not recognized. -/
def AceType (dwAceType : Nat) : Option String :=
  AceType.loop dwAceType aceTypes

/-! ## Flag tables -/

structure flags_t where
  flag : Nat
  szName : String
deriving DecidableEq, Repr

def controlFlags : List flags_t := [
  ⟨SE_OWNER_DEFAULTED, "SE_OWNER_DEFAULTED"⟩,
  ⟨SE_GROUP_DEFAULTED, "SE_GROUP_DEFAULTED"⟩,
  ⟨SE_DACL_PRESENT, "SE_DACL_PRESENT"⟩,
  ⟨SE_DACL_DEFAULTED, "SE_DACL_DEFAULTED"⟩,
  ⟨SE_SACL_PRESENT, "SE_SACL_PRESENT"⟩,
  ⟨SE_SACL_DEFAULTED, "SE_SACL_DEFAULTED"⟩,
  ⟨SE_DACL_AUTO_INHERIT_REQ, "SE_DACL_AUTO_INHERIT_REQ"⟩,
  ⟨SE_SACL_AUTO_INHERIT_REQ, "SE_SACL_AUTO_INHERIT_REQ"⟩,
  ⟨SE_DACL_AUTO_INHERITED, "SE_DACL_AUTO_INHERITED"⟩,
  ⟨SE_SACL_AUTO_INHERITED, "SE_SACL_AUTO_INHERITED"⟩,
  ⟨SE_DACL_PROTECTED, "SE_DACL_PROTECTED"⟩,
  ⟨SE_SACL_PROTECTED, "SE_SACL_PROTECTED"⟩,
  ⟨SE_RM_CONTROL_VALID, "SE_RM_CONTROL_VALID"⟩,
  ⟨SE_SELF_RELATIVE, "SE_SELF_RELATIVE"⟩]

def aceFlags : List flags_t := [
  ⟨CONTAINER_INHERIT_ACE, "CONTAINER_INHERIT_ACE"⟩,
  ⟨FAILED_ACCESS_ACE_FLAG, "FAILED_ACCESS_ACE_FLAG"⟩,
  ⟨INHERIT_ONLY_ACE, "INHERIT_ONLY_ACE"⟩,
  ⟨INHERITED_ACE, "INHERITED_ACE"⟩,
  ⟨NO_PROPAGATE_INHERIT_ACE, "NO_PROPAGATE_INHERIT_ACE"⟩,
  ⟨OBJECT_INHERIT_ACE, "OBJECT_INHERIT_ACE"⟩,
  ⟨SUCCESSFUL_ACCESS_ACE_FLAG, "SUCCESSFUL_ACCESS_ACE_FLAG"⟩]

/-- Writes the name of every row of `pFlags` whose bits are all set in `dwFlags`, each
followed by a blank. -/
def OutputFlagsOnOneLine : List flags_t → Nat → List Chunk
  | [], _ => []
  | pFlags :: rest, dwFlags =>
    if BitPresent pFlags.flag dwFlags then
      Chunk.text pFlags.szName :: Chunk.text " " :: OutputFlagsOnOneLine rest dwFlags
    else
      OutputFlagsOnOneLine rest dwFlags

/-! ## Permission tables

The `xSpecific` tables are object-specific bitmasks, the `xMask` tables are
standard/generic bitmasks and the `xMatch` tables are aggregated sets of permissions. -/

def standardMask : List perm_t := [
  ⟨DELETE, "DELETE"⟩,
  ⟨READ_CONTROL, "READ_CONTROL"⟩,
  ⟨WRITE_DAC, "WRITE_DAC"⟩,
  ⟨WRITE_OWNER, "WRITE_OWNER"⟩,
  ⟨SYNCHRONIZE, "SYNCHRONIZE"⟩,
  ⟨ACCESS_SYSTEM_SECURITY, "ACCESS_SYSTEM_SECURITY"⟩,
  ⟨MAXIMUM_ALLOWED, "MAXIMUM_ALLOWED"⟩]

def genericMask : List perm_t := [
  ⟨GENERIC_READ, "GENERIC_READ"⟩,
  ⟨GENERIC_WRITE, "GENERIC_WRITE"⟩,
  ⟨GENERIC_EXECUTE, "GENERIC_EXECUTE"⟩,
  ⟨GENERIC_ALL, "GENERIC_ALL"⟩]

def standardAndGenericMask : List perm_t := [
  ⟨DELETE, "DELETE"⟩,
  ⟨READ_CONTROL, "READ_CONTROL"⟩,
  ⟨WRITE_DAC, "WRITE_DAC"⟩,
  ⟨WRITE_OWNER, "WRITE_OWNER"⟩,
  ⟨SYNCHRONIZE, "SYNCHRONIZE"⟩,
  ⟨STANDARD_RIGHTS_REQUIRED, "STANDARD_RIGHTS_REQUIRED"⟩,
  ⟨ACCESS_SYSTEM_SECURITY, "ACCESS_SYSTEM_SECURITY"⟩,
  ⟨MAXIMUM_ALLOWED, "MAXIMUM_ALLOWED"⟩,
  ⟨GENERIC_READ, "GENERIC_READ"⟩,
  ⟨GENERIC_WRITE, "GENERIC_WRITE"⟩,
  ⟨GENERIC_EXECUTE, "GENERIC_EXECUTE"⟩,
  ⟨GENERIC_ALL, "GENERIC_ALL"⟩]

def fileSpecific : List perm_t := [
  ⟨FILE_READ_DATA, "FILE_READ_DATA"⟩,
  ⟨FILE_WRITE_DATA, "FILE_WRITE_DATA"⟩,
  ⟨FILE_APPEND_DATA, "FILE_APPEND_DATA"⟩,
  ⟨FILE_READ_EA, "FILE_READ_EA"⟩,
  ⟨FILE_WRITE_EA, "FILE_WRITE_EA"⟩,
  ⟨FILE_EXECUTE, "FILE_EXECUTE"⟩,
  ⟨FILE_READ_ATTRIBUTES, "FILE_READ_ATTRIBUTES"⟩,
  ⟨FILE_WRITE_ATTRIBUTES, "FILE_WRITE_ATTRIBUTES"⟩]

def dirSpecific : List perm_t := [
  ⟨FILE_LIST_DIRECTORY, "FILE_LIST_DIRECTORY"⟩,
  ⟨FILE_ADD_FILE, "FILE_ADD_FILE"⟩,
  ⟨FILE_ADD_SUBDIRECTORY, "FILE_ADD_SUBDIRECTORY"⟩,
  ⟨FILE_READ_EA, "FILE_READ_EA"⟩,
  ⟨FILE_WRITE_EA, "FILE_WRITE_EA"⟩,
  ⟨FILE_TRAVERSE, "FILE_TRAVERSE"⟩,
  ⟨FILE_DELETE_CHILD, "FILE_DELETE_CHILD"⟩,
  ⟨FILE_READ_ATTRIBUTES, "FILE_READ_ATTRIBUTES"⟩,
  ⟨FILE_WRITE_ATTRIBUTES, "FILE_WRITE_ATTRIBUTES"⟩]

def pipeSpecific : List perm_t := [
  ⟨FILE_READ_DATA, "FILE_READ_DATA"⟩,
  ⟨FILE_WRITE_DATA, "FILE_WRITE_DATA"⟩,
  ⟨FILE_CREATE_PIPE_INSTANCE, "FILE_CREATE_PIPE_INSTANCE"⟩,
  ⟨FILE_READ_ATTRIBUTES, "FILE_READ_ATTRIBUTES"⟩,
  ⟨FILE_WRITE_ATTRIBUTES, "FILE_WRITE_ATTRIBUTES"⟩]

def fileMatch : List perm_t := [
  ⟨FILE_ALL_ACCESS, "FILE_ALL_ACCESS"⟩,
  ⟨FILE_GENERIC_READ, "FILE_GENERIC_READ"⟩,
  ⟨FILE_GENERIC_WRITE, "FILE_GENERIC_WRITE"⟩,
  ⟨FILE_GENERIC_EXECUTE, "FILE_GENERIC_EXECUTE"⟩]

def keySpecific : List perm_t := [
  ⟨KEY_QUERY_VALUE, "KEY_QUERY_VALUE"⟩,
  ⟨KEY_SET_VALUE, "KEY_SET_VALUE"⟩,
  ⟨KEY_CREATE_SUB_KEY, "KEY_CREATE_SUB_KEY"⟩,
  ⟨KEY_ENUMERATE_SUB_KEYS, "KEY_ENUMERATE_SUB_KEYS"⟩,
  ⟨KEY_NOTIFY, "KEY_NOTIFY"⟩,
  ⟨KEY_CREATE_LINK, "KEY_CREATE_LINK"⟩,
  ⟨KEY_WOW64_32KEY, "KEY_WOW64_32KEY"⟩,
  ⟨KEY_WOW64_64KEY, "KEY_WOW64_64KEY"⟩]

def keyMatch : List perm_t := [
  ⟨KEY_READ, "KEY_READ"⟩,
  ⟨KEY_WRITE, "KEY_WRITE"⟩,
  ⟨KEY_EXECUTE, "KEY_EXECUTE"⟩,
  ⟨KEY_ALL_ACCESS, "KEY_ALL_ACCESS"⟩]

def serviceSpecific : List perm_t := [
  ⟨SERVICE_QUERY_CONFIG, "SERVICE_QUERY_CONFIG"⟩,
  ⟨SERVICE_CHANGE_CONFIG, "SERVICE_CHANGE_CONFIG"⟩,
  ⟨SERVICE_QUERY_STATUS, "SERVICE_QUERY_STATUS"⟩,
  ⟨SERVICE_ENUMERATE_DEPENDENTS, "SERVICE_ENUMERATE_DEPENDENTS"⟩,
  ⟨SERVICE_START, "SERVICE_START"⟩,
  ⟨SERVICE_STOP, "SERVICE_STOP"⟩,
  ⟨SERVICE_PAUSE_CONTINUE, "SERVICE_PAUSE_CONTINUE"⟩,
  ⟨SERVICE_INTERROGATE, "SERVICE_INTERROGATE"⟩,
  ⟨SERVICE_USER_DEFINED_CONTROL, "SERVICE_USER_DEFINED_CONTROL"⟩]

def serviceMatch : List perm_t := [
  ⟨SERVICE_ALL_ACCESS, "SERVICE_ALL_ACCESS"⟩]

def scmSpecific : List perm_t := [
  ⟨SC_MANAGER_CONNECT, "SC_MANAGER_CONNECT"⟩,
  ⟨SC_MANAGER_CREATE_SERVICE, "SC_MANAGER_CREATE_SERVICE"⟩,
  ⟨SC_MANAGER_ENUMERATE_SERVICE, "SC_MANAGER_ENUMERATE_SERVICE"⟩,
  ⟨SC_MANAGER_LOCK, "SC_MANAGER_LOCK"⟩,
  ⟨SC_MANAGER_QUERY_LOCK_STATUS, "SC_MANAGER_QUERY_LOCK_STATUS"⟩,
  ⟨SC_MANAGER_MODIFY_BOOT_CONFIG, "SC_MANAGER_MODIFY_BOOT_CONFIG"⟩]

def scmMatch : List perm_t := [
  ⟨SC_MANAGER_ALL_ACCESS, "SC_MANAGER_ALL_ACCESS"⟩]

def processSpecific : List perm_t := [
  ⟨PROCESS_TERMINATE, "PROCESS_TERMINATE"⟩,
  ⟨PROCESS_CREATE_THREAD, "PROCESS_CREATE_THREAD"⟩,
  ⟨PROCESS_SET_SESSIONID, "PROCESS_SET_SESSIONID"⟩,
  ⟨PROCESS_VM_OPERATION, "PROCESS_VM_OPERATION"⟩,
  ⟨PROCESS_VM_READ, "PROCESS_VM_READ"⟩,
  ⟨PROCESS_VM_WRITE, "PROCESS_VM_WRITE"⟩,
  ⟨PROCESS_DUP_HANDLE, "PROCESS_DUP_HANDLE"⟩,
  ⟨PROCESS_CREATE_PROCESS, "PROCESS_CREATE_PROCESS"⟩,
  ⟨PROCESS_SET_QUOTA, "PROCESS_SET_QUOTA"⟩,
  ⟨PROCESS_SET_INFORMATION, "PROCESS_SET_INFORMATION"⟩,
  ⟨PROCESS_QUERY_INFORMATION, "PROCESS_QUERY_INFORMATION"⟩,
  ⟨PROCESS_SUSPEND_RESUME, "PROCESS_SUSPEND_RESUME"⟩,
  ⟨PROCESS_QUERY_LIMITED_INFORMATION, "PROCESS_QUERY_LIMITED_INFORMATION"⟩,
  ⟨PROCESS_SET_LIMITED_INFORMATION, "PROCESS_SET_LIMITED_INFORMATION"⟩]

def processMatch : List perm_t := [
  ⟨PROCESS_ALL_ACCESS, "PROCESS_ALL_ACCESS"⟩]

def threadSpecific : List perm_t := [
  ⟨THREAD_TERMINATE, "THREAD_TERMINATE"⟩,
  ⟨THREAD_SUSPEND_RESUME, "THREAD_SUSPEND_RESUME"⟩,
  ⟨THREAD_GET_CONTEXT, "THREAD_GET_CONTEXT"⟩,
  ⟨THREAD_SET_CONTEXT, "THREAD_SET_CONTEXT"⟩,
  ⟨THREAD_QUERY_INFORMATION, "THREAD_QUERY_INFORMATION"⟩,
  ⟨THREAD_SET_INFORMATION, "THREAD_SET_INFORMATION"⟩,
  ⟨THREAD_SET_THREAD_TOKEN, "THREAD_SET_THREAD_TOKEN"⟩,
  ⟨THREAD_IMPERSONATE, "THREAD_IMPERSONATE"⟩,
  ⟨THREAD_DIRECT_IMPERSONATION, "THREAD_DIRECT_IMPERSONATION"⟩,
  ⟨THREAD_SET_LIMITED_INFORMATION, "THREAD_SET_LIMITED_INFORMATION"⟩,
  ⟨THREAD_QUERY_LIMITED_INFORMATION, "THREAD_QUERY_LIMITED_INFORMATION"⟩,
  ⟨THREAD_RESUME, "THREAD_RESUME"⟩]

def threadMatch : List perm_t := [
  ⟨THREAD_ALL_ACCESS, "THREAD_ALL_ACCESS"⟩]

def shareSpecific : List perm_t := [
  ⟨SRVSVC_SHARE_CONNECT, "SRVSVC_SHARE_CONNECT"⟩,
  ⟨SRVSVC_PAUSED_SHARE_CONNECT, "SRVSVC_PAUSED_SHARE_CONNECT"⟩]

def shareMatch : List perm_t := [
  ⟨SRVSVC_SHARE_CONNECT_ALL_ACCESS, "SRVSVC_SHARE_CONNECT_ALL_ACCESS"⟩]

def ComSpecific : List perm_t := [
  ⟨COM_RIGHTS_EXECUTE, "COM_RIGHTS_EXECUTE"⟩,
  ⟨COM_RIGHTS_EXECUTE_LOCAL, "COM_RIGHTS_EXECUTE_LOCAL"⟩,
  ⟨COM_RIGHTS_EXECUTE_REMOTE, "COM_RIGHTS_EXECUTE_REMOTE"⟩,
  ⟨COM_RIGHTS_ACTIVATE_LOCAL, "COM_RIGHTS_ACTIVATE_LOCAL"⟩,
  ⟨COM_RIGHTS_ACTIVATE_REMOTE, "COM_RIGHTS_ACTIVATE_REMOTE"⟩]

def winstaSpecific : List perm_t := [
  ⟨WINSTA_ENUMDESKTOPS, "WINSTA_ENUMDESKTOPS"⟩,
  ⟨WINSTA_READATTRIBUTES, "WINSTA_READATTRIBUTES"⟩,
  ⟨WINSTA_ACCESSCLIPBOARD, "WINSTA_ACCESSCLIPBOARD"⟩,
  ⟨WINSTA_CREATEDESKTOP, "WINSTA_CREATEDESKTOP"⟩,
  ⟨WINSTA_WRITEATTRIBUTES, "WINSTA_WRITEATTRIBUTES"⟩,
  ⟨WINSTA_ACCESSGLOBALATOMS, "WINSTA_ACCESSGLOBALATOMS"⟩,
  ⟨WINSTA_EXITWINDOWS, "WINSTA_EXITWINDOWS"⟩,
  ⟨WINSTA_ENUMERATE, "WINSTA_ENUMERATE"⟩,
  ⟨WINSTA_READSCREEN, "WINSTA_READSCREEN"⟩]

def winstaMatch : List perm_t := [
  ⟨WINSTA_ALL_ACCESS, "WINSTA_ALL_ACCESS"⟩]

def desktopSpecific : List perm_t := [
  ⟨DESKTOP_READOBJECTS, "DESKTOP_READOBJECTS"⟩,
  ⟨DESKTOP_CREATEWINDOW, "DESKTOP_CREATEWINDOW"⟩,
  ⟨DESKTOP_CREATEMENU, "DESKTOP_CREATEMENU"⟩,
  ⟨DESKTOP_HOOKCONTROL, "DESKTOP_HOOKCONTROL"⟩,
  ⟨DESKTOP_JOURNALRECORD, "DESKTOP_JOURNALRECORD"⟩,
  ⟨DESKTOP_JOURNALPLAYBACK, "DESKTOP_JOURNALPLAYBACK"⟩,
  ⟨DESKTOP_ENUMERATE, "DESKTOP_ENUMERATE"⟩,
  ⟨DESKTOP_WRITEOBJECTS, "DESKTOP_WRITEOBJECTS"⟩,
  ⟨DESKTOP_SWITCHDESKTOP, "DESKTOP_SWITCHDESKTOP"⟩]

def desktopMatch : List perm_t := []

def sectionSpecific : List perm_t := [
  ⟨SECTION_QUERY, "SECTION_QUERY"⟩,
  ⟨SECTION_MAP_WRITE, "SECTION_MAP_WRITE"⟩,
  ⟨SECTION_MAP_READ, "SECTION_MAP_READ"⟩,
  ⟨SECTION_MAP_EXECUTE, "SECTION_MAP_EXECUTE"⟩,
  ⟨SECTION_EXTEND_SIZE, "SECTION_EXTEND_SIZE"⟩,
  ⟨SECTION_MAP_EXECUTE_EXPLICIT, "SECTION_MAP_EXECUTE_EXPLICIT"⟩]

def sectionMatch : List perm_t := [
  ⟨SECTION_ALL_ACCESS, "SECTION_ALL_ACCESS"⟩]

def filemapSpecific : List perm_t := [
  ⟨FILE_MAP_WRITE, "FILE_MAP_WRITE"⟩,
  ⟨FILE_MAP_READ, "FILE_MAP_READ"⟩,
  ⟨FILE_MAP_EXECUTE, "FILE_MAP_EXECUTE"⟩,
  ⟨FILE_MAP_COPY, "FILE_MAP_COPY"⟩,
  ⟨FILE_MAP_RESERVE, "FILE_MAP_RESERVE"⟩,
  ⟨FILE_MAP_TARGETS_INVALID, "FILE_MAP_TARGETS_INVALID"⟩,
  ⟨FILE_MAP_LARGE_PAGES, "FILE_MAP_LARGE_PAGES"⟩]

def filemapMatch : List perm_t := [
  ⟨FILE_MAP_ALL_ACCESS, "FILE_MAP_ALL_ACCESS"⟩]

def evtSpecific : List perm_t := [
  ⟨EVT_READ_ACCESS, "EVT_READ_ACCESS"⟩,
  ⟨EVT_WRITE_ACCESS, "EVT_WRITE_ACCESS"⟩,
  ⟨EVT_CLEAR_ACCESS, "EVT_CLEAR_ACCESS"⟩]

def evtMatch : List perm_t := [
  ⟨EVT_ALL_ACCESS, "EVT_ALL_ACCESS"⟩]

def tokenSpecific : List perm_t := [
  ⟨TOKEN_ASSIGN_PRIMARY, "TOKEN_ASSIGN_PRIMARY"⟩,
  ⟨TOKEN_DUPLICATE, "TOKEN_DUPLICATE"⟩,
  ⟨TOKEN_IMPERSONATE, "TOKEN_IMPERSONATE"⟩,
  ⟨TOKEN_QUERY, "TOKEN_QUERY"⟩,
  ⟨TOKEN_QUERY_SOURCE, "TOKEN_QUERY_SOURCE"⟩,
  ⟨TOKEN_ADJUST_PRIVILEGES, "TOKEN_ADJUST_PRIVILEGES"⟩,
  ⟨TOKEN_ADJUST_GROUPS, "TOKEN_ADJUST_GROUPS"⟩,
  ⟨TOKEN_ADJUST_DEFAULT, "TOKEN_ADJUST_DEFAULT"⟩,
  ⟨TOKEN_ADJUST_SESSIONID, "TOKEN_ADJUST_SESSIONID"⟩]

def tokenMatch : List perm_t := [
  ⟨TOKEN_ALL_ACCESS, "TOKEN_ALL_ACCESS"⟩,
  ⟨TOKEN_READ, "TOKEN_READ"⟩,
  ⟨TOKEN_WRITE, "TOKEN_WRITE"⟩,
  ⟨TOKEN_EXECUTE, "TOKEN_EXECUTE"⟩,
  ⟨TOKEN_TRUST_CONSTRAINT_MASK, "TOKEN_TRUST_CONSTRAINT_MASK"⟩,
  ⟨TOKEN_ACCESS_PSEUDO_HANDLE_WIN8, "TOKEN_ACCESS_PSEUDO_HANDLE_WIN8"⟩]

def NtdsSpecific : List perm_t := [
  ⟨ADS_RIGHT_DS_CREATE_CHILD, "ADS_RIGHT_DS_CREATE_CHILD"⟩,
  ⟨ADS_RIGHT_DS_DELETE_CHILD, "ADS_RIGHT_DS_DELETE_CHILD"⟩,
  ⟨ADS_RIGHT_ACTRL_DS_LIST, "ADS_RIGHT_ACTRL_DS_LIST"⟩,
  ⟨ADS_RIGHT_DS_SELF, "ADS_RIGHT_DS_SELF"⟩,
  ⟨ADS_RIGHT_DS_READ_PROP, "ADS_RIGHT_DS_READ_PROP"⟩,
  ⟨ADS_RIGHT_DS_WRITE_PROP, "ADS_RIGHT_DS_WRITE_PROP"⟩,
  ⟨ADS_RIGHT_DS_DELETE_TREE, "ADS_RIGHT_DS_DELETE_TREE"⟩,
  ⟨ADS_RIGHT_DS_LIST_OBJECT, "ADS_RIGHT_DS_LIST_OBJECT"⟩,
  ⟨ADS_RIGHT_DS_CONTROL_ACCESS, "ADS_RIGHT_DS_CONTROL_ACCESS"⟩,
  ⟨ADS_RIGHT_DELETE, "ADS_RIGHT_DELETE"⟩,
  ⟨ADS_RIGHT_READ_CONTROL, "ADS_RIGHT_READ_CONTROL"⟩,
  ⟨ADS_RIGHT_WRITE_DAC, "ADS_RIGHT_WRITE_DAC"⟩,
  ⟨ADS_RIGHT_WRITE_OWNER, "ADS_RIGHT_WRITE_OWNER"⟩,
  ⟨ADS_RIGHT_SYNCHRONIZE, "ADS_RIGHT_SYNCHRONIZE"⟩,
  ⟨ADS_RIGHT_ACCESS_SYSTEM_SECURITY, "ADS_RIGHT_ACCESS_SYSTEM_SECURITY"⟩,
  ⟨ADS_RIGHT_GENERIC_READ, "ADS_RIGHT_GENERIC_READ"⟩,
  ⟨ADS_RIGHT_GENERIC_WRITE, "ADS_RIGHT_GENERIC_WRITE"⟩,
  ⟨ADS_RIGHT_GENERIC_EXECUTE, "ADS_RIGHT_GENERIC_EXECUTE"⟩,
  ⟨ADS_RIGHT_GENERIC_ALL, "ADS_RIGHT_GENERIC_ALL"⟩]

/-! ## Lookup of the tables of an object type -/

/-- The C runtime's `towlower` in the "C" locale: `A`..`Z` go to `a`..`z`, every other
character is unchanged. -/
def towlower (c : Char) : Char :=
  if 65 ≤ c.toNat ∧ c.toNat ≤ 90 then Char.ofNat (c.toNat + 32) else c

/-- The comparison loop of `_wcsicmp` over the characters of the two strings. -/
def _wcsicmp.loop : List Char → List Char → Int
  | [], [] => 0
  | [], _ :: _ => -1
  | _ :: _, [] => 1
  | a :: as, b :: bs =>
    if (towlower a).toNat = (towlower b).toNat then _wcsicmp.loop as bs
    else if (towlower a).toNat < (towlower b).toNat then -1 else 1

/-- The C runtime's case-insensitive comparison: the strings are compared character by
character after lower-casing; the result is `0` exactly when they are equal ignoring case. -/
def _wcsicmp (a b : String) : Int :=
  _wcsicmp.loop a.data b.data

/-- Returns the object-specific `xSpecific` and `xMatch` tables for an object type:
`none` when the object type is not recognized (the C++ function returns `false`), otherwise
the two output pointers `(pPermsSpecific, pPermsMatch)`, each of which may be null. -/
def GetPermsForType (szObjType : String) : Option (Option (List perm_t) × Option (List perm_t)) :=
  if 0 = _wcsicmp szObjType "file" then some (some fileSpecific, some fileMatch)
  else if 0 = _wcsicmp szObjType "dir" then some (some dirSpecific, some fileMatch)
  else if 0 = _wcsicmp szObjType "pipe" then some (some pipeSpecific, some fileMatch)
  else if 0 = _wcsicmp szObjType "key" then some (some keySpecific, some keyMatch)
  else if 0 = _wcsicmp szObjType "share" then some (some shareSpecific, some shareMatch)
  else if 0 = _wcsicmp szObjType "process" then some (some processSpecific, some processMatch)
  else if 0 = _wcsicmp szObjType "thread" then some (some threadSpecific, some threadMatch)
  else if 0 = _wcsicmp szObjType "service" then some (some serviceSpecific, some serviceMatch)
  else if 0 = _wcsicmp szObjType "scm" then some (some scmSpecific, some scmMatch)
  else if 0 = _wcsicmp szObjType "com" then some (some ComSpecific, none)
  else if 0 = _wcsicmp szObjType "winsta" then some (some winstaSpecific, some winstaMatch)
  else if 0 = _wcsicmp szObjType "desktop" then some (some desktopSpecific, none)
  else if 0 = _wcsicmp szObjType "section" then some (some sectionSpecific, some sectionMatch)
  else if 0 = _wcsicmp szObjType "filemap" then some (some filemapSpecific, some filemapMatch)
  else if 0 = _wcsicmp szObjType "evt" then some (some evtSpecific, some evtMatch)
  else if 0 = _wcsicmp szObjType "token" then some (some tokenSpecific, some tokenMatch)
  else if 0 = _wcsicmp szObjType "ntds" then some (some NtdsSpecific, none)
  else if 0 = _wcsicmp szObjType "standard" then some (some standardAndGenericMask, none)
  else none

/-! ## Rendering of a permission mask -/

/-- The exact-match loop of `OutputPermissions` over a `xMatch` table: the first row whose
mask equals `dwPermissions`, if any. -/
def OutputPermissions.exactMatch (dwPermissions : Nat) : List perm_t → Option perm_t
  | [] => none
  | pPerm :: rest =>
    if dwPermissions = pPerm.mask then some pPerm
    else OutputPermissions.exactMatch dwPermissions rest

/-- One bit-match loop of `OutputPermissions` over a table. The state is the remaining
`dwPermissions` and the chunks written so far: a row whose bits are all present is written
between `sPrecedingWS` and `sFollowingWS`, and `dwPermissions -= pPerm->mask` (on `DWORD`). -/
def OutputPermissions.bitLoop (sPrecedingWS sFollowingWS : String) :
    List perm_t → Nat × List Chunk → Nat × List Chunk
  | [], st => st
  | pPerm :: rest, (dwPermissions, sOut) =>
    if BitPresent pPerm.mask dwPermissions then
      OutputPermissions.bitLoop sPrecedingWS sFollowingWS rest
        ((dwPermissions + 2 ^ 32 - pPerm.mask) % 2 ^ 32,
          sOut ++ [Chunk.text sPrecedingWS, Chunk.perm pPerm, Chunk.text sFollowingWS])
    else
      OutputPermissions.bitLoop sPrecedingWS sFollowingWS rest (dwPermissions, sOut)

/-- The part of `OutputPermissions` after the exact-match pass: the three bit-match loops
(generic, object-specific when the pointer is not null, standard), then the unmatched bits
in hex when there are any, then `sFinal`. Returns the chunks written. -/
def OutputPermissions.decompose (dwPermissions : Nat) (pPermsSpecific : Option (List perm_t))
    (sPrecedingWS sFollowingWS sFinal : String) : List Chunk :=
  let st1 := OutputPermissions.bitLoop sPrecedingWS sFollowingWS genericMask (dwPermissions, [])
  let st2 := match pPermsSpecific with
    | some tbl => OutputPermissions.bitLoop sPrecedingWS sFollowingWS tbl st1
    | none => st1
  let st3 := OutputPermissions.bitLoop sPrecedingWS sFollowingWS standardMask st2
  let sOut := if st3.1 ≠ 0 then
      st3.2 ++ [Chunk.text sPrecedingWS, Chunk.hex st3.1, Chunk.text sFollowingWS]
    else st3.2
  sOut ++ [Chunk.text sFinal]

/-- Output an object-specific textual representation of the input permissions bits.
Returns the chunks written to `sOut`. -/
def OutputPermissions (dwPermissions : Nat) (szObjType : String) (bOnePermPerLine : Bool)
    (sIndent : String) : List Chunk :=
  let szWhitespace := "           "
  let sPrecedingWS := if bOnePermPerLine then sIndent ++ szWhitespace else ""
  let sFollowingWS := if bOnePermPerLine then "\n" else " "
  let sFinal := if bOnePermPerLine then "" else "\n"
  match GetPermsForType szObjType with
  | none =>
    [Chunk.text szWhitespace, Chunk.text "Unrecognized object type: ", Chunk.text szObjType,
      Chunk.endl]
  | some (pPermsSpecific, pPermsMatch) =>
    match pPermsMatch.bind (OutputPermissions.exactMatch dwPermissions) with
    | some pPerm => [Chunk.text szWhitespace, Chunk.perm pPerm, Chunk.endl]
    | none =>
      OutputPermissions.decompose dwPermissions pPermsSpecific sPrecedingWS sFollowingWS sFinal

/-! ## ACE records

An ACE is the sequence of the bytes of its record. The field offsets are those of the
Windows SDK structures (`winnt.h`), all fields little-endian:

* `ACE_HEADER`: `BYTE AceType` at 0, `BYTE AceFlags` at 1, `WORD AceSize` at 2;
* `ACCESS_ALLOWED_ACE`: `ACE_HEADER Header` at 0, `ACCESS_MASK Mask` at 4,
  `DWORD SidStart` at 8;
* `ACCESS_ALLOWED_OBJECT_ACE`: `ACE_HEADER Header` at 0, `ACCESS_MASK Mask` at 4,
  `DWORD Flags` at 8, `GUID ObjectType` at 12, `GUID InheritedObjectType` at 28,
  `DWORD SidStart` at 44.
-/

/-- The byte at offset `off` of a record (bytes past the end of the list read as `0`). -/
def byteAt (rec : List Nat) (off : Nat) : Nat :=
  rec.getD off 0 % 256

/-- The little-endian `DWORD` at offset `off` of a record. -/
def dwordAt (rec : List Nat) (off : Nat) : Nat :=
  byteAt rec off + 256 * byteAt rec (off + 1) + 65536 * byteAt rec (off + 2) +
    16777216 * byteAt rec (off + 3)

/-- Field `AceType` of `ACE_HEADER`. -/
def ACE_HEADER.AceType (rec : List Nat) : Nat := byteAt rec 0

/-- Field `AceFlags` of `ACE_HEADER`. -/
def ACE_HEADER.AceFlags (rec : List Nat) : Nat := byteAt rec 1

/-- Field `Mask` of `ACCESS_ALLOWED_ACE` (and of every other ACE structure). -/
def ACCESS_ALLOWED_ACE.Mask (rec : List Nat) : Nat := dwordAt rec 4

/-- Offset of field `SidStart` of `ACCESS_ALLOWED_ACE`. -/
def ACCESS_ALLOWED_ACE.SidStart : Nat := 8

/-- Field `Flags` of `ACCESS_ALLOWED_OBJECT_ACE`. -/
def ACCESS_ALLOWED_OBJECT_ACE.Flags (rec : List Nat) : Nat := dwordAt rec 8

/-- Offset of field `ObjectType` of `ACCESS_ALLOWED_OBJECT_ACE`. -/
def ACCESS_ALLOWED_OBJECT_ACE.ObjectType : Nat := 12

/-- Offset of field `InheritedObjectType` of `ACCESS_ALLOWED_OBJECT_ACE`. -/
def ACCESS_ALLOWED_OBJECT_ACE.InheritedObjectType : Nat := 28

/-- Offset of field `SidStart` of `ACCESS_ALLOWED_OBJECT_ACE`. -/
def ACCESS_ALLOWED_OBJECT_ACE.SidStart : Nat := 44

/-- Returns the address of the SID in an ACE (which depends on the ACE type), as the byte
offset from the start of the record; `none` (the C++ `nullptr`) if the header contains
unexpected data. The two `switch` statements are written as chains of tests on their
(pairwise different) `case` labels. -/
def GetAddressOfSidInHeader (pAceHeader : List Nat) : Option Nat :=
  let aceType := ACE_HEADER.AceType pAceHeader
  -- All of these are ACE_HEADER, ACCESS_MASK, DWORD SidStart:
  if aceType = ACCESS_ALLOWED_ACE_TYPE ∨ aceType = ACCESS_DENIED_ACE_TYPE ∨
      aceType = SYSTEM_AUDIT_ACE_TYPE ∨ aceType = SYSTEM_ALARM_ACE_TYPE ∨
      aceType = ACCESS_ALLOWED_CALLBACK_ACE_TYPE ∨ aceType = ACCESS_DENIED_CALLBACK_ACE_TYPE ∨
      aceType = SYSTEM_AUDIT_CALLBACK_ACE_TYPE ∨ aceType = SYSTEM_ALARM_CALLBACK_ACE_TYPE ∨
      aceType = SYSTEM_MANDATORY_LABEL_ACE_TYPE then
    some ACCESS_ALLOWED_ACE.SidStart
  -- All of these are ACE_HEADER, ACCESS_MASK, DWORD, GUID, GUID, DWORD SidStart:
  else if aceType = ACCESS_ALLOWED_OBJECT_ACE_TYPE ∨ aceType = ACCESS_DENIED_OBJECT_ACE_TYPE ∨
      aceType = SYSTEM_AUDIT_OBJECT_ACE_TYPE ∨ aceType = SYSTEM_ALARM_OBJECT_ACE_TYPE ∨
      aceType = ACCESS_ALLOWED_CALLBACK_OBJECT_ACE_TYPE ∨
      aceType = ACCESS_DENIED_CALLBACK_OBJECT_ACE_TYPE ∨
      aceType = SYSTEM_AUDIT_CALLBACK_OBJECT_ACE_TYPE ∨
      aceType = SYSTEM_ALARM_CALLBACK_OBJECT_ACE_TYPE then
    let flags := ACCESS_ALLOWED_OBJECT_ACE.Flags pAceHeader
    if flags = 0 then
      some ACCESS_ALLOWED_OBJECT_ACE.ObjectType
    else if flags = ACE_OBJECT_TYPE_PRESENT ∨ flags = ACE_INHERITED_OBJECT_TYPE_PRESENT then
      some ACCESS_ALLOWED_OBJECT_ACE.InheritedObjectType
    else if flags = ACE_OBJECT_TYPE_PRESENT ||| ACE_INHERITED_OBJECT_TYPE_PRESENT then
      some ACCESS_ALLOWED_OBJECT_ACE.SidStart
    else
      none
  else
    none

/-- The nine ACE types of the first `case` group of `GetAddressOfSidInHeader`. -/
def simpleAceTypes : List Nat := [
  ACCESS_ALLOWED_ACE_TYPE, ACCESS_DENIED_ACE_TYPE, SYSTEM_AUDIT_ACE_TYPE, SYSTEM_ALARM_ACE_TYPE,
  ACCESS_ALLOWED_CALLBACK_ACE_TYPE, ACCESS_DENIED_CALLBACK_ACE_TYPE,
  SYSTEM_AUDIT_CALLBACK_ACE_TYPE, SYSTEM_ALARM_CALLBACK_ACE_TYPE, SYSTEM_MANDATORY_LABEL_ACE_TYPE]

/-- The eight ACE types of the second `case` group of `GetAddressOfSidInHeader`. -/
def objectAceTypes : List Nat := [
  ACCESS_ALLOWED_OBJECT_ACE_TYPE, ACCESS_DENIED_OBJECT_ACE_TYPE, SYSTEM_AUDIT_OBJECT_ACE_TYPE,
  SYSTEM_ALARM_OBJECT_ACE_TYPE, ACCESS_ALLOWED_CALLBACK_OBJECT_ACE_TYPE,
  ACCESS_DENIED_CALLBACK_OBJECT_ACE_TYPE, SYSTEM_AUDIT_CALLBACK_OBJECT_ACE_TYPE,
  SYSTEM_ALARM_CALLBACK_OBJECT_ACE_TYPE]

/-! ## SIDs (`CSid.cpp`)

A `PSID` is an `Option`: `none` for the null pointer, otherwise the bytes found at the
address. The Windows services that `CSid` calls are the fields of `WinApi`. -/

/-- The Windows services used by `CSid`. `LookupAccountSidW` yields the pair
`(DomainName, UserName)` when it succeeds, `ConvertSidToStringSidW` the SID string. -/
structure WinApi where
  IsValidSid : List Nat → Bool
  GetLengthSid : List Nat → Nat
  LookupAccountSidW : List Nat → Option (String × String)
  ConvertSidToStringSidW : List Nat → Option String

/-- Class to represent a SID and manage its memory: the buffer `m_pBuf`, null or a copy
of the SID. -/
structure CSid where
  m_pBuf : Option (List Nat)

/-- The constructor `CSid(PSID pSid)`: `m_pBuf` starts null and `SetBuffer` copies the
`GetLengthSid` bytes of the SID when `IsValidSid` accepts it (`IsValidSid` rejects the null
pointer). -/
def CSid.ofPSID (os : WinApi) (pSid : Option (List Nat)) : CSid :=
  match pSid with
  | some sid => if os.IsValidSid sid then ⟨some (sid.take (os.GetLengthSid sid))⟩ else ⟨none⟩
  | none => ⟨none⟩

/-- Conversion to the string representation of the SID. -/
def CSid.toSidString (os : WinApi) (self : CSid) : String :=
  match self.m_pBuf with
  | some sid =>
    match os.ConvertSidToStringSidW sid with
    | some szSid => szSid
    | none => ""
  | none => ""

/-- Conversion to domain and user name: `none` when the C++ function returns `false`,
otherwise the pair `(sDomainName, sUserName)`. -/
def CSid.Lookup (os : WinApi) (self : CSid) : Option (String × String) :=
  match self.m_pBuf with
  | some sid => os.LookupAccountSidW sid
  | none => none

/-- Lookup and conversion to "DOMAIN\USERNAME", if possible, with option to return the
string SID on failure. -/
def CSid.toDomainAndUsername (os : WinApi) (self : CSid) (bReturnSidOnFailure : Bool) : String :=
  match self.Lookup os with
  | some (sDomainName, sUserName) =>
    if sDomainName.isEmpty then sUserName else sDomainName ++ "\\" ++ sUserName
  | none => if bReturnSidOnFailure then self.toSidString os else ""

/-- Given a SID, returns "domain\username (SID)", or "SID" if name conversion fails, or
the empty string if the PSID is null. -/
def SidToText (os : WinApi) (psid : Option (List Nat)) : String :=
  match psid with
  | none => ""
  | some p =>
    let sid := CSid.ofPSID os (some p)
    let sDomainUsername := sid.toDomainAndUsername os false
    if sDomainUsername.isEmpty then sid.toSidString os
    else sid.toDomainAndUsername os true ++ " (" ++ sid.toSidString os ++ ")"

/-! ## ACLs and security descriptors

An ACL and a security descriptor are what the Windows access functions report about
them; a failing call carries the `GetLastError` code. -/

/-- A non-null `PACL`: the results of `IsValidAcl`, of `GetAclInformation` (the `AceCount`
of `ACL_SIZE_INFORMATION`) and of `GetAce` for each index. -/
structure ACL where
  IsValidAcl : Bool
  GetAclInformation : Except Nat Nat
  GetAce : Nat → Except Nat (List Nat)

/-- A `PSECURITY_DESCRIPTOR`: the results of the access functions. The DACL and SACL
calls yield `(bPresent, pAcl)`; the conversion to SDDL yields the string `pszSDDL`. -/
structure SECURITY_DESCRIPTOR where
  IsValidSecurityDescriptor : Bool
  GetSecurityDescriptorControl : Option Nat
  GetSecurityDescriptorOwner : Except Nat (Option (List Nat))
  GetSecurityDescriptorGroup : Except Nat (Option (List Nat))
  GetSecurityDescriptorDacl : Except Nat (Bool × Option ACL)
  GetSecurityDescriptorSacl : Except Nat (Bool × Option ACL)
  ConvertSecurityDescriptorToStringSecurityDescriptorW : Except Nat String

/-- The `else` branch of the loop body of `OutputAcl`: what is written for the ACE `pACE`
fetched at index `ix`. -/
def OutputAcl.aceBlock (os : WinApi) (szObjType : Option String) (bOnePermPerLine : Bool)
    (sIndent : String) (ix : Nat) (pACE : List Nat) : List Chunk :=
  [Chunk.text sIndent, Chunk.text "ACE ", Chunk.dec ix, Chunk.text ".", Chunk.endl,
    Chunk.text sIndent, Chunk.text "    "] ++
  -- Output ACE type
  (match AceType (ACE_HEADER.AceType pACE) with
    | some szAceType => [Chunk.text szAceType]
    | none =>
      [Chunk.text "[Unknown ACE type: ", Chunk.hex (ACE_HEADER.AceType pACE), Chunk.text "]"]) ++
  [Chunk.endl] ++
  -- Find the SID in the ACE and output it
  [Chunk.text sIndent, Chunk.text "    SID:   ",
    Chunk.text (SidToText os ((GetAddressOfSidInHeader pACE).map (fun off => pACE.drop off))),
    Chunk.endl] ++
  -- Output ACE flags
  [Chunk.text sIndent, Chunk.text "    Flags: "] ++
  (if 0 = ACE_HEADER.AceFlags pACE then [Chunk.text "None"]
    else
      [Chunk.text "[", Chunk.hex (ACE_HEADER.AceFlags pACE), Chunk.text "] "] ++
        OutputFlagsOnOneLine aceFlags (ACE_HEADER.AceFlags pACE)) ++
  [Chunk.endl] ++
  -- Output permissions
  [Chunk.text sIndent, Chunk.text "    Perms: [", Chunk.hex (ACCESS_ALLOWED_ACE.Mask pACE),
    Chunk.text "] "] ++
  (if bOnePermPerLine then [Chunk.endl] else []) ++
  (match szObjType with
    | some objType =>
      OutputPermissions (ACCESS_ALLOWED_ACE.Mask pACE) objType bOnePermPerLine sIndent
    | none => [])

/-- What one iteration of the loop of `OutputAcl` writes for index `ix`, given the result
of `GetAce`. -/
def OutputAcl.entryBlock (os : WinApi) (szObjType : Option String) (bOnePermPerLine : Bool)
    (sIndent : String) (ix : Nat) : Except Nat (List Nat) → List Chunk
  | Except.error dwLastErr =>
    [Chunk.text "GetAce (", Chunk.dec ix, Chunk.text ") error: ", Chunk.sysErr dwLastErr,
      Chunk.endl]
  | Except.ok pACE => OutputAcl.aceBlock os szObjType bOnePermPerLine sIndent ix pACE

/-- The loop `for (DWORD ix = 0; ix < AceCount; ++ix)` of `OutputAcl`, started at `ix`
with `fuel = AceCount - ix` iterations to go; the state is the chunks written so far. -/
def OutputAcl.loop (os : WinApi) (pAcl : ACL) (szObjType : Option String)
    (bOnePermPerLine : Bool) (sIndent : String) : Nat → Nat → List Chunk → List Chunk
  | 0, _, sOut => sOut
  | fuel + 1, ix, sOut =>
    OutputAcl.loop os pAcl szObjType bOnePermPerLine sIndent fuel (ix + 1)
      (sOut ++ OutputAcl.entryBlock os szObjType bOnePermPerLine sIndent ix (pAcl.GetAce ix))

/-- Output a textual representation of a DACL or a SACL using object-specific permission
names. Returns the chunks written to `sOut`. -/
def OutputAcl (os : WinApi) (bDacl : Bool) (pSD : SECURITY_DESCRIPTOR)
    (szObjType : Option String) (bOnePermPerLine : Bool) (sIndent : String) : List Chunk :=
  let szAcl := if bDacl then "DACL" else "SACL"
  -- Get the DACL or the SACL from the SD
  match (if bDacl then pSD.GetSecurityDescriptorDacl else pSD.GetSecurityDescriptorSacl) with
  | Except.error dwLastErr =>
    [Chunk.text (if bDacl then "GetSecurityDescriptorDacl" else "GetSecurityDescriptorSacl"),
      Chunk.text " failed:  ", Chunk.sysErr dwLastErr, Chunk.endl]
  | Except.ok (bPresent, pAcl) =>
    -- If DACL/SACL not present, output nothing.
    if !bPresent then []
    else
      match pAcl with
      -- If ACL is present and is NULL, report that.
      | none =>
        [Chunk.text sIndent,
          Chunk.text (if bDacl then "NULL DACL (implicit Everyone/FullControl)" else "NULL SACL"),
          Chunk.endl]
      | some acl =>
        -- If the ACL is not null but not valid, report that.
        if !acl.IsValidAcl then
          [Chunk.text sIndent, Chunk.text "Invalid ", Chunk.text szAcl, Chunk.endl]
        else
          match acl.GetAclInformation with
          | Except.error dwLastErr =>
            [Chunk.text "GetAclInformation error:  ", Chunk.sysErr dwLastErr, Chunk.endl]
          | Except.ok AceCount =>
            let sOut := [Chunk.text sIndent, Chunk.text "ACEs in ", Chunk.text szAcl,
              Chunk.text ":  ", Chunk.dec AceCount, Chunk.endl]
            -- Check for empty DACL/SACL
            if 0 = AceCount then
              sOut ++ [Chunk.text sIndent,
                Chunk.text (if bDacl then "Empty DACL (implicit Deny-All)" else "Empty SACL"),
                Chunk.endl]
            else
              -- Iterate through ACEs.
              OutputAcl.loop os acl szObjType bOnePermPerLine sIndent AceCount 0 sOut

/-- The control-flags block of `OutputSecurityDescriptor`: what is written when
`GetSecurityDescriptorControl` succeeds with the value `sdc`. -/
def OutputSecurityDescriptor.controlLine (sIndent : String) (sdc : Nat) : List Chunk :=
  [Chunk.text sIndent, Chunk.text "Control:  0x", Chunk.hex sdc, Chunk.text "  ("] ++
  OutputFlagsOnOneLine controlFlags sdc ++
  [Chunk.text ")", Chunk.endl]

/-- The owner block and the group block of `OutputSecurityDescriptor`, for the label
`szLabel` ("Owner:    " or "Group:    ") and the failing function's name `szFunction`. -/
def OutputSecurityDescriptor.sidLine (os : WinApi) (sIndent szLabel szFunction : String) :
    Except Nat (Option (List Nat)) → List Chunk
  | Except.ok (some psid) =>
    [Chunk.text sIndent, Chunk.text szLabel, Chunk.text (SidToText os (some psid)), Chunk.endl]
  | Except.ok none => []
  | Except.error dwLastErr =>
    [Chunk.text szFunction, Chunk.sysErrWithCode dwLastErr, Chunk.endl]

/-- Output a textual representation of a security descriptor using object-specific
permission names (the overload that takes the binary security descriptor). Returns the
chunks written to `sOut`. -/
def OutputSecurityDescriptor (os : WinApi) (pSD : SECURITY_DESCRIPTOR)
    (szObjType : Option String) (bOnePermPerLine : Bool) (indent : Nat) : List Chunk :=
  -- Verify that the input SD is valid
  if !pSD.IsValidSecurityDescriptor then
    [Chunk.text "Invalid security descriptor", Chunk.endl]
  else
    let sIndent := String.mk (List.replicate indent ' ')
    -- If SDDL is requested, output the SD as SDDL:
    if (match szObjType with
        | some objType => decide (0 = _wcsicmp "SDDL" objType)
        | none => false) then
      match pSD.ConvertSecurityDescriptorToStringSecurityDescriptorW with
      | Except.ok pszSDDL => [Chunk.text pszSDDL, Chunk.endl]
      | Except.error dwLastErr => [Chunk.text "Error: ", Chunk.sysErr dwLastErr, Chunk.endl]
    else
      -- Start with the control flags
      (match pSD.GetSecurityDescriptorControl with
        | some sdc => OutputSecurityDescriptor.controlLine sIndent sdc
        | none => []) ++
      -- Then the owner
      OutputSecurityDescriptor.sidLine os sIndent "Owner:    "
        "GetSecurityDescriptorOwner failed:  " pSD.GetSecurityDescriptorOwner ++
      -- Then the primary group
      OutputSecurityDescriptor.sidLine os sIndent "Group:    "
        "GetSecurityDescriptorGroup failed:  " pSD.GetSecurityDescriptorGroup ++
      -- Then the DACL
      OutputAcl os true pSD szObjType bOnePermPerLine sIndent ++
      -- And the SACL
      OutputAcl os false pSD szObjType bOnePermPerLine sIndent

/-! ## The text of the output stream -/

/-- The text formatting helpers of headers outside this source tree (`HEX.h`,
`SysErrorMessage.h`), taken as parameters. -/
structure Formatting where
  HEX : Nat → String
  SysErrorMessage : Nat → String
  SysErrorMessageWithCode : Nat → String

/-- The characters one operand adds to the stream: a number is written in decimal and
`std::endl` is a line feed. -/
def Chunk.render (fmt : Formatting) : Chunk → String
  | Chunk.text s => s
  | Chunk.perm p => p.szName
  | Chunk.hex v => fmt.HEX v
  | Chunk.dec n => toString n
  | Chunk.sysErr code => fmt.SysErrorMessage code
  | Chunk.sysErrWithCode code => fmt.SysErrorMessageWithCode code
  | Chunk.endl => "\n"

/-- The text of the stream after the operands of `out` were written to it. -/
def render (fmt : Formatting) : List Chunk → String
  | [] => ""
  | c :: cs => c.render fmt ++ render fmt cs

/-! ## Object-type tags -/

/-- The return value and the two output parameters `(pPermsSpecific, pPermsMatch)` of
`GetPermsForType`: the function sets both outputs to null before it looks at the tag, so
they are null whenever it returns `false`. -/
def GetPermsForType.outputs (szObjType : String) :
    Bool × Option (List perm_t) × Option (List perm_t) :=
  match GetPermsForType szObjType with
  | some (pPermsSpecific, pPermsMatch) => (true, pPermsSpecific, pPermsMatch)
  | none => (false, none, none)

/-- The 18 tags that `GetPermsForType` compares its argument with, in the order of the
comparisons. -/
def objectTypeTags : List String :=
  ["file", "dir", "pipe", "key", "share", "process", "thread", "service", "scm", "com",
    "winsta", "desktop", "section", "filemap", "evt", "token", "ntds", "standard"]

/-- A string with every letter `A`..`Z` replaced by its lower-case letter. -/
def foldCase (s : String) : String :=
  String.mk (s.data.map towlower)

/-! ## Tests on SIDs (`CSid.cpp`)

The layout of a SID is that of the Windows SDK structure `SID` (`winnt.h`):
`BYTE Revision` at 0, `BYTE SubAuthorityCount` at 1, the six bytes of
`SID_IDENTIFIER_AUTHORITY IdentifierAuthority` at 2, `DWORD SubAuthority[]` from 8 on. -/

/-- The value of `SECURITY_NT_AUTHORITY` (`winnt.h`). -/
def SECURITY_NT_AUTHORITY : List Nat := [0, 0, 0, 0, 0, 5]

/-- The value of `SECURITY_NT_NON_UNIQUE` (`winnt.h`). -/
def SECURITY_NT_NON_UNIQUE : Nat := 0x15

/-- The value of `SECURITY_SERVICE_ID_BASE_RID` (`winnt.h`). -/
def SECURITY_SERVICE_ID_BASE_RID : Nat := 0x50

/-- Field `SubAuthorityCount` of `SID`. -/
def SID.SubAuthorityCount (pSid : List Nat) : Nat := byteAt pSid 1

/-- The Windows function `GetSidIdentifierAuthority`: the address of field
`IdentifierAuthority`, read as its six bytes. -/
def GetSidIdentifierAuthority (pSid : List Nat) : List Nat :=
  [byteAt pSid 2, byteAt pSid 3, byteAt pSid 4, byteAt pSid 5, byteAt pSid 6, byteAt pSid 7]

/-- The Windows function `GetSidSubAuthority`: the address of `SubAuthority[nSubAuthority]`,
read as a `DWORD`. The function does not compare the index with `SubAuthorityCount`. -/
def GetSidSubAuthority (pSid : List Nat) (nSubAuthority : Nat) : Nat :=
  dwordAt pSid (8 + 4 * nSubAuthority)

/-- Reports whether the SID is an NT AUTHORITY SID (S-1-5-) with a specific RID
(S-1-5-XX). -/
def CSid.TestNtAuthorityRID (pSid : Option (List Nat)) (dwRid : Nat) : Bool :=
  match pSid with
  | none => false
  | some sid =>
    -- memcmp(pAuth, &secNtAuth, sizeof(SID_IDENTIFIER_AUTHORITY))
    if GetSidIdentifierAuthority sid ≠ SECURITY_NT_AUTHORITY then false
    -- Check whether first subauth is dwRid
    else dwRid == GetSidSubAuthority sid 0

/-- Reports whether the SID is an NT SERVICE SID (begins with S-1-5-80); the static
function `CSid::IsNtServiceSid(PSID)`. -/
def CSid.IsNtServiceSid (pSid : Option (List Nat)) : Bool :=
  CSid.TestNtAuthorityRID pSid SECURITY_SERVICE_ID_BASE_RID

/-! ## Equality of SIDs and lookups without network (`CSid.cpp`) -/

/-- The function `CSid::psid()`: the buffer as a `PSID`. -/
def CSid.psid (self : CSid) : Option (List Nat) := self.m_pBuf

/-- The default constructor `CSid()`: the buffer is null. -/
def CSid.default : CSid := ⟨none⟩

/-- The constructor `CSid(const wchar_t* szSid)`: the buffer is set from the SID that
`ConvertStringSidToSidW` yields, and stays null when the conversion fails. The Windows
function is a parameter. -/
def CSid.ofString (os : WinApi) (ConvertStringSidToSidW : String → Option (List Nat))
    (szSid : String) : CSid :=
  match ConvertStringSidToSidW szSid with
  | some pSidToFree => CSid.ofPSID os (some pSidToFree)
  | none => ⟨none⟩

/-- The Windows function `EqualSid`: two SIDs are equal when revision, sub-authority
count, identifier authority and all sub-authorities match, which are the first
`8 + 4 * SubAuthorityCount` bytes. -/
def EqualSid (pSid1 pSid2 : List Nat) : Bool :=
  (List.range (8 + 4 * SID.SubAuthorityCount pSid1)).all
    (fun i => byteAt pSid1 i == byteAt pSid2 i)

/-- The equality operator `CSid::operator==(PSID pSid)`. -/
def CSid.operator_eq_PSID (self : CSid) (pSid : Option (List Nat)) : Bool :=
  match pSid, self.psid with
  | some p, some t => EqualSid t p
  | _, _ => false

/-- The equality operator `CSid::operator==(const CSid& other)`. -/
def CSid.operator_eq (self other : CSid) : Bool :=
  match other.psid, self.psid with
  | some o, some t => EqualSid t o
  | _, _ => false

/-- The machine SID singleton of `CSid.cpp` (the value of `machineSid.Get()`, null when
`MachineSid::Init` failed) and the Windows function `EqualDomainSid`, which yields `bEqual`
when it succeeds. -/
structure DomainApi where
  machineSid : Option (List Nat)
  EqualDomainSid : Option (List Nat) → List Nat → Option Bool

/-- Returns true if this SID represents a local entity, that is, has the same base SID as
the machine SID. -/
def CSid.IsMachineLocal (dom : DomainApi) (self : CSid) : Bool :=
  match self.psid with
  | none => false
  | some sid =>
    match dom.EqualDomainSid dom.machineSid sid with
    | some bEqual => bEqual
    | none => false

/-- Conversion to domain and user name, with the calls made to the operating system: the
result of `CSid::Lookup` (`none` when the C++ function returns `false`) and the log of the
calls of `LookupAccountSidW`, each recorded by the SID it is called for. The call is made
only when the buffer is not null. -/
def CSid.Lookup.traced (os : WinApi) (self : CSid) (log : List (List Nat)) :
    Option (String × String) × List (List Nat) :=
  match self.m_pBuf with
  | some sid => (os.LookupAccountSidW sid, log ++ [sid])
  | none => (none, log)

/-- Lookup and conversion to "DOMAIN\USERNAME", if possible, with option to return the
string SID on failure; with the log of the calls of `LookupAccountSidW`. -/
def CSid.toDomainAndUsername.traced (os : WinApi) (self : CSid) (bReturnSidOnFailure : Bool)
    (log : List (List Nat)) : String × List (List Nat) :=
  match CSid.Lookup.traced os self log with
  | (some (sDomainName, sUserName), log1) =>
    (if sDomainName.isEmpty then sUserName else sDomainName ++ "\\" ++ sUserName, log1)
  | (none, log1) => (if bReturnSidOnFailure then self.toSidString os else "", log1)

/-- The memory that the pointer `psid()` of a `CSid` points at: the buffer, a heap block of
`GetLengthSid` bytes, followed by the bytes `heapAfter` that lie behind that block. A read
through the pointer at an offset beyond the block gets those bytes. -/
def CSid.psidMemory (heapAfter : List Nat) (self : CSid) : Option (List Nat) :=
  match self.m_pBuf with
  | some sid => some (sid ++ heapAfter)
  | none => none

/-- Lookup and conversion to DOMAIN\USERNAME if it can be resolved without network
traffic: the string returned and the log of the calls of `LookupAccountSidW`. The
argument `heapAfter` is the memory behind the buffer, which `TestNtAuthorityRID` reads
when it takes the `DWORD` at offset 8 of a SID without sub-authority. -/
def CSid.toDomainAndUserNameIfNoNetworkNeeded.traced (os : WinApi) (dom : DomainApi)
    (heapAfter : List Nat) (self : CSid) (log : List (List Nat)) : String × List (List Nat) :=
  -- Don't look up S-1-5-21-* unless it's the local machine SID.
  let bDoLookup :=
    self.IsMachineLocal dom ||
      !CSid.TestNtAuthorityRID (self.psidMemory heapAfter) SECURITY_NT_NON_UNIQUE
  let st : String × List (List Nat) :=
    if bDoLookup then CSid.toDomainAndUsername.traced os self false log else ("", log)
  (if st.1.length = 0 then self.toSidString os else st.1, st.2)

/-- Lookup and conversion to DOMAIN\USERNAME if it can be resolved without network
traffic: DOMAIN\USERNAME or the SID in string form. -/
def CSid.toDomainAndUserNameIfNoNetworkNeeded (os : WinApi) (dom : DomainApi)
    (heapAfter : List Nat) (self : CSid) : String :=
  (CSid.toDomainAndUserNameIfNoNetworkNeeded.traced os dom heapAfter self []).1

/-! ## Tokens (`Token.cpp`) -/

/-- A structure containing several attributes of a token. -/
structure TokenInfo_t where
  sid : CSid
  logonSession : Nat
  integrityLevel : Nat

/-- A token `HANDLE`: the results of `GetTokenInformation` for the three information
classes queried, a failing call carrying the `GetLastError` code. On success the classes
give the pointer `User.Sid`, the `AuthenticationId` and the SID at `Label.Sid`. -/
structure TokenHandle where
  TokenUser : Except Nat (Option (List Nat))
  TokenStatistics : Except Nat Nat
  TokenIntegrityLevel : Except Nat (List Nat)

/-- Retrieve user SID, logon session, and integrity level from the input token. Returns the
return value, the output structure `tokenInfo` (given with its content before the call) and
the operands written to `strErrorInfo`, whose text is the output `sErrorInfo`. -/
def Token.GetTokenInfo (os : WinApi) (hToken : TokenHandle) (tokenInfo : TokenInfo_t) :
    Bool × TokenInfo_t × List Chunk :=
  let st1 : TokenInfo_t × List Chunk :=
    match hToken.TokenUser with
    | Except.ok pSid => ({ tokenInfo with sid := CSid.ofPSID os pSid }, [])
    | Except.error dwLastErr => (tokenInfo, [Chunk.sysErrWithCode dwLastErr])
  let st2 : TokenInfo_t × List Chunk :=
    match hToken.TokenStatistics with
    | Except.ok AuthenticationId => ({ st1.1 with logonSession := AuthenticationId }, st1.2)
    | Except.error dwLastErr => (st1.1, st1.2 ++ [Chunk.sysErrWithCode dwLastErr])
  let st3 : TokenInfo_t × List Chunk :=
    match hToken.TokenIntegrityLevel with
    | Except.ok labelSid =>
      ({ st2.1 with integrityLevel :=
          GetSidSubAuthority labelSid ((SID.SubAuthorityCount labelSid + 256 - 1) % 256) },
        st2.2)
    | Except.error dwLastErr => (st2.1, st2.2 ++ [Chunk.sysErrWithCode dwLastErr])
  (true, st3.1, st3.2)

-- mandatory integrity levels (winnt.h)
def SECURITY_MANDATORY_UNTRUSTED_RID : Nat := 0x0000
def SECURITY_MANDATORY_LOW_RID : Nat := 0x1000
def SECURITY_MANDATORY_MEDIUM_RID : Nat := 0x2000
def SECURITY_MANDATORY_MEDIUM_PLUS_RID : Nat := SECURITY_MANDATORY_MEDIUM_RID + 0x100
def SECURITY_MANDATORY_HIGH_RID : Nat := 0x3000
def SECURITY_MANDATORY_SYSTEM_RID : Nat := 0x4000
def SECURITY_MANDATORY_PROTECTED_PROCESS_RID : Nat := 0x5000

/-- Returns the integrity level value as a string. The `switch` is written as a chain of
tests on its (pairwise different) `case` labels; a number is written in decimal. -/
def TokenInfo_t.IntegrityLevelName (self : TokenInfo_t) : String :=
  let integrityLevel := self.integrityLevel
  if integrityLevel = SECURITY_MANDATORY_UNTRUSTED_RID then "Untrusted"
  else if integrityLevel = SECURITY_MANDATORY_LOW_RID then "Low"
  else if integrityLevel = SECURITY_MANDATORY_MEDIUM_RID then "Medium"
  else if integrityLevel = SECURITY_MANDATORY_MEDIUM_PLUS_RID then "MediumPlus"
  else if integrityLevel = SECURITY_MANDATORY_HIGH_RID then "High"
  else if integrityLevel = SECURITY_MANDATORY_SYSTEM_RID then "System"
  else if integrityLevel = SECURITY_MANDATORY_PROTECTED_PROCESS_RID then "ProtectedProcess"
  else
    toString integrityLevel ++
      (if integrityLevel < SECURITY_MANDATORY_UNTRUSTED_RID then " < Untrusted"
      else if integrityLevel < SECURITY_MANDATORY_LOW_RID then " < Low"
      else if integrityLevel < SECURITY_MANDATORY_MEDIUM_RID then " < Medium"
      else if integrityLevel < SECURITY_MANDATORY_MEDIUM_PLUS_RID then " < MediumPlus"
      else if integrityLevel < SECURITY_MANDATORY_HIGH_RID then " < High"
      else if integrityLevel < SECURITY_MANDATORY_SYSTEM_RID then " < System"
      else if integrityLevel < SECURITY_MANDATORY_PROTECTED_PROCESS_RID then
        " < ProtectedProcess"
      else " > ProtectedProcess")

/-- The seven well-known integrity levels with their names, in increasing order. -/
def wellKnownIntegrityLevels : List (Nat × String) :=
  [(0x0000, "Untrusted"), (0x1000, "Low"), (0x2000, "Medium"), (0x2100, "MediumPlus"),
    (0x3000, "High"), (0x4000, "System"), (0x5000, "ProtectedProcess")]

/-- The suffix the description of `IntegrityLevelName` gives to a value `v` that is not a
well-known level: " < N" for the smallest well-known level `N` greater than `v`, and
" > ProtectedProcess" when there is none. -/
def specIntegritySuffix (v : Nat) : String :=
  match wellKnownIntegrityLevels.find? (fun l => decide (v < l.1)) with
  | some l => " < " ++ l.2
  | none => " > ProtectedProcess"

/-! ## WOW64 file system redirection (`Wow64FsRedirection.h`)

A `PVOID` is a natural number, `NULL` being `0`. The calls made to the operating system
are recorded in a log that is passed along. -/

/-- A call to the operating system made by `Wow64FsRedirection`. -/
inductive Wow64Call where
  | Wow64DisableWow64FsRedirection
  | Wow64RevertWow64FsRedirection (OldValue : Nat)
deriving DecidableEq, Repr

/-- Class to disable WOW64 file system redirection: the members `m_OldValue` and
`m_bDisabled`. -/
structure Wow64FsRedirection where
  m_OldValue : Nat
  m_bDisabled : Bool
deriving DecidableEq, Repr

/-- Disables WOW64 file system redirection. The argument `osOldValue` is the value that
`Wow64DisableWow64FsRedirection` stores through its pointer argument if it is called. -/
def Wow64FsRedirection.Disable (osOldValue : Nat) (self : Wow64FsRedirection)
    (log : List Wow64Call) : Wow64FsRedirection × List Wow64Call :=
  -- Don't disable again if it's currently disabled.
  if !self.m_bDisabled then
    ({ m_OldValue := osOldValue, m_bDisabled := true },
      log ++ [Wow64Call.Wow64DisableWow64FsRedirection])
  else (self, log)

/-- Reverts WOW64 FS redirection if it was disabled. -/
def Wow64FsRedirection.Revert (self : Wow64FsRedirection) (log : List Wow64Call) :
    Wow64FsRedirection × List Wow64Call :=
  if self.m_bDisabled then
    ({ m_OldValue := 0, m_bDisabled := false },
      log ++ [Wow64Call.Wow64RevertWow64FsRedirection self.m_OldValue])
  else ({ self with m_OldValue := 0 }, log)

/-- Class constructor; optionally disable WOW64 file system redirection during
construction. -/
def Wow64FsRedirection.new (bDisableNow : Bool) (osOldValue : Nat) (log : List Wow64Call) :
    Wow64FsRedirection × List Wow64Call :=
  if bDisableNow then
    Wow64FsRedirection.Disable osOldValue { m_OldValue := 0, m_bDisabled := false } log
  else ({ m_OldValue := 0, m_bDisabled := false }, log)

/-- A call made on an instance: `Disable()`, with the value the operating system would
store, or `Revert()`. -/
inductive Wow64Op where
  | Disable (osOldValue : Nat)
  | Revert
deriving DecidableEq, Repr

/-- A sequence of `Disable()` and `Revert()` calls on one instance, in order. -/
def Wow64FsRedirection.calls : List Wow64Op → Wow64FsRedirection × List Wow64Call →
    Wow64FsRedirection × List Wow64Call
  | [], st => st
  | Wow64Op.Disable v :: ops, st =>
    Wow64FsRedirection.calls ops (Wow64FsRedirection.Disable v st.1 st.2)
  | Wow64Op.Revert :: ops, st => Wow64FsRedirection.calls ops (Wow64FsRedirection.Revert st.1 st.2)

/-! ## Presence flags of an object ACE -/

/-- The number of presence flags set in the presence field of an object ACE. -/
def presenceFlagCount (flags : Nat) : Nat :=
  (if BitPresent ACE_OBJECT_TYPE_PRESENT flags then 1 else 0) +
    (if BitPresent ACE_INHERITED_OBJECT_TYPE_PRESENT flags then 1 else 0)

/-! ## The decomposition pass as the specification words it -/

/-- Clears the bits of `mask` in the 32-bit value `v`: the C expression `v & ~mask`. -/
def clearBits (v mask : Nat) : Nat :=
  v &&& (0xFFFFFFFF ^^^ mask)

/-- The decomposition pass in the words of the specification, over one ordered table:
"for each entry whose mask's bits are all present in the remaining mask, emit that entry's
name and clear those bits from the remaining mask". Returns the emitted entries, in order,
and the remaining mask. -/
def specDecompose : List perm_t → Nat → List perm_t × Nat
  | [], remaining => ([], remaining)
  | e :: es, remaining =>
    if e.mask &&& remaining = e.mask then
      (e :: (specDecompose es (clearBits remaining e.mask)).1,
        (specDecompose es (clearBits remaining e.mask)).2)
    else specDecompose es remaining

/-- The tables of the decomposition pass in the order the specification fixes: generic,
then object-specific, then standard. -/
def specTableOrder (pPermsSpecific : Option (List perm_t)) : List perm_t :=
  genericMask ++ pPermsSpecific.getD [] ++ standardMask

/-- What a bit-match loop writes for a list of emitted rows. -/
def permChunks (sPrecedingWS sFollowingWS : String) (ps : List perm_t) : List Chunk :=
  ps.flatMap (fun p => [Chunk.text sPrecedingWS, Chunk.perm p, Chunk.text sFollowingWS])

/-- The residual that was printed in hex: the first value written through `HEX(...)`,
`0` when none was written. -/
def printedResidual (out : List Chunk) : Nat :=
  (printedHex out).headD 0

/-! ## Sample inputs -/

/-- Sample Windows services: every SID is valid and has the length its sub-authority count
gives, resolves to the name `Everyone` without domain and converts to `S-1-1-0`. -/
def exampleApi : WinApi where
  IsValidSid := fun _ => true
  GetLengthSid := fun sid => 8 + 4 * byteAt sid 1
  LookupAccountSidW := fun _ => some ("", "Everyone")
  ConvertSidToStringSidW := fun _ => some "S-1-1-0"

/-- An access-allowed ACE (type 0) for the SID S-1-1-0 with mask `0x001F01FF`. -/
def exampleAllowedAce : List Nat :=
  [0, 0, 20, 0, 0xFF, 0x01, 0x1F, 0, 1, 1, 0, 0, 0, 0, 0, 1, 0, 0, 0, 0]

/-- The same record with the type byte `0x12`, which `AceType` does not name. -/
def exampleUnknownAce : List Nat :=
  [0x12, 0, 20, 0, 0xFF, 0x01, 0x1F, 0, 1, 1, 0, 0, 0, 0, 0, 1, 0, 0, 0, 0]

/-- A record with the type byte `0x12` and the mask `0x00000003`. -/
def exampleUnknownReadWriteAce : List Nat :=
  [0x12, 0, 20, 0, 0x03, 0, 0, 0, 1, 1, 0, 0, 0, 0, 0, 1, 0, 0, 0, 0]

/-- An access-allowed object ACE (type 5) whose presence field is 4, followed by the SID
S-1-1-0. -/
def exampleMalformedObjectAce : List Nat :=
  [5, 0, 24, 0, 0, 1, 0, 0, 4, 0, 0, 0, 1, 1, 0, 0, 0, 0, 0, 1, 0, 0, 0, 0]

/-- An ACL of three entries: the trustee of entry 0 cannot be located, the fetch of entry 1
fails with error 87, entry 2 is well-formed. -/
def exampleAcl : ACL where
  IsValidAcl := true
  GetAclInformation := Except.ok 3
  GetAce := fun ix =>
    if ix = 0 then Except.ok exampleMalformedObjectAce
    else if ix = 2 then Except.ok exampleAllowedAce
    else Except.error 87

/-- A security descriptor whose DACL is `exampleAcl` and that has no SACL. -/
def exampleDescriptor : SECURITY_DESCRIPTOR where
  IsValidSecurityDescriptor := true
  GetSecurityDescriptorControl := some 0x8004
  GetSecurityDescriptorOwner := Except.ok none
  GetSecurityDescriptorGroup := Except.ok none
  GetSecurityDescriptorDacl := Except.ok (true, some exampleAcl)
  GetSecurityDescriptorSacl := Except.ok (false, none)
  ConvertSecurityDescriptorToStringSecurityDescriptorW := Except.ok "D:(A;;FA;;;WD)"

/-- A security descriptor whose DACL is not present (`SE_DACL_PRESENT` is not set). -/
def exampleAbsentDaclDescriptor : SECURITY_DESCRIPTOR where
  IsValidSecurityDescriptor := true
  GetSecurityDescriptorControl := some 0x8000
  GetSecurityDescriptorOwner := Except.ok none
  GetSecurityDescriptorGroup := Except.ok none
  GetSecurityDescriptorDacl := Except.ok (false, none)
  GetSecurityDescriptorSacl := Except.ok (false, none)
  ConvertSecurityDescriptorToStringSecurityDescriptorW := Except.ok ""

/-- A security descriptor whose DACL is present and null. -/
def exampleNullDaclDescriptor : SECURITY_DESCRIPTOR where
  IsValidSecurityDescriptor := true
  GetSecurityDescriptorControl := some 0x8004
  GetSecurityDescriptorOwner := Except.ok none
  GetSecurityDescriptorGroup := Except.ok none
  GetSecurityDescriptorDacl := Except.ok (true, none)
  GetSecurityDescriptorSacl := Except.ok (false, none)
  ConvertSecurityDescriptorToStringSecurityDescriptorW := Except.ok "D:NO_ACCESS_CONTROL"

/-- A valid ACL without entries. -/
def exampleEmptyAcl : ACL where
  IsValidAcl := true
  GetAclInformation := Except.ok 0
  GetAce := fun _ => Except.error 87

/-- A security descriptor whose DACL is present and has zero entries. -/
def exampleEmptyDaclDescriptor : SECURITY_DESCRIPTOR where
  IsValidSecurityDescriptor := true
  GetSecurityDescriptorControl := some 0x8004
  GetSecurityDescriptorOwner := Except.ok none
  GetSecurityDescriptorGroup := Except.ok none
  GetSecurityDescriptorDacl := Except.ok (true, some exampleEmptyAcl)
  GetSecurityDescriptorSacl := Except.ok (false, none)
  ConvertSecurityDescriptorToStringSecurityDescriptorW := Except.ok "D:"

/-- A structurally invalid security descriptor, all of whose access functions would
nevertheless answer. -/
def exampleInvalidDescriptor : SECURITY_DESCRIPTOR where
  IsValidSecurityDescriptor := false
  GetSecurityDescriptorControl := some 0x8004
  GetSecurityDescriptorOwner := Except.ok (some [1, 1, 0, 0, 0, 0, 0, 1, 0, 0, 0, 0])
  GetSecurityDescriptorGroup := Except.ok (some [1, 1, 0, 0, 0, 0, 0, 1, 0, 0, 0, 0])
  GetSecurityDescriptorDacl := Except.ok (true, some exampleAcl)
  GetSecurityDescriptorSacl := Except.ok (true, some exampleAcl)
  ConvertSecurityDescriptorToStringSecurityDescriptorW := Except.ok "D:(A;;FA;;;WD)"

/-- Sample text formatting: upper-case hexadecimal digits, and the error code in decimal. -/
def exampleFormatting : Formatting where
  HEX := fun v => String.mk ((Nat.toDigits 16 v).map Char.toUpper)
  SysErrorMessage := fun code => "error " ++ toString code
  SysErrorMessageWithCode := fun code => "error " ++ toString code

/-- Sample Windows services that resolve no name: every SID is valid and converts to
`S-1-5-21-1-2-3-1001`, and `LookupAccountSidW` fails. -/
def exampleUnresolvingApi : WinApi where
  IsValidSid := fun _ => true
  GetLengthSid := fun sid => 8 + 4 * byteAt sid 1
  LookupAccountSidW := fun _ => none
  ConvertSidToStringSidW := fun _ => some "S-1-5-21-1-2-3-1001"

/-- Sample Windows services that resolve every SID to the user `Administrator` of the
domain `CONTOSO`. -/
def exampleDomainApi : WinApi where
  IsValidSid := fun _ => true
  GetLengthSid := fun sid => 8 + 4 * byteAt sid 1
  LookupAccountSidW := fun _ => some ("CONTOSO", "Administrator")
  ConvertSidToStringSidW := fun _ => some "S-1-5-21-1-2-3-500"

/-- The bytes at the address of the SID S-1-5, which has no sub-authority
(`SubAuthorityCount` is 0), followed in memory by the four bytes `50 00 00 00`. -/
def exampleSidWithoutSubAuthority : List Nat :=
  [1, 0, 0, 0, 0, 0, 0, 5, 0x50, 0, 0, 0]

/-- The SID S-1-5-80-1 of an NT SERVICE account. -/
def exampleServiceSid : List Nat :=
  [1, 2, 0, 0, 0, 0, 0, 5, 0x50, 0, 0, 0, 1, 0, 0, 0]

/-- The SID S-1-5-21-1-2-3-500 of an account of the domain S-1-5-21-1-2-3. -/
def exampleDomainSid : List Nat :=
  [1, 5, 0, 0, 0, 0, 0, 5, 21, 0, 0, 0, 1, 0, 0, 0, 2, 0, 0, 0, 3, 0, 0, 0, 0xF4, 1, 0, 0]

/-- The SID S-1-5-21-7-8-9-1001 of an account of the machine S-1-5-21-7-8-9. -/
def exampleLocalSid : List Nat :=
  [1, 5, 0, 0, 0, 0, 0, 5, 21, 0, 0, 0, 7, 0, 0, 0, 8, 0, 0, 0, 9, 0, 0, 0, 0xE9, 3, 0, 0]

/-- The SID S-1-5-18 (Local System). -/
def exampleSystemSid : List Nat :=
  [1, 1, 0, 0, 0, 0, 0, 5, 18, 0, 0, 0]

/-- A sample machine: its SID is S-1-5-21-7-8-9, and `EqualDomainSid` succeeds when the
machine SID is known, comparing the first 24 bytes of the SID (revision, count, authority
and the four sub-authorities 21-7-8-9) with those of the machine SID, the count apart. -/
def exampleMachine : DomainApi where
  machineSid := some [1, 4, 0, 0, 0, 0, 0, 5, 21, 0, 0, 0, 7, 0, 0, 0, 8, 0, 0, 0, 9, 0, 0, 0]
  EqualDomainSid := fun pMachine sid =>
    match pMachine with
    | some m => some ((m.drop 2).take 22 == (sid.drop 2).take 22)
    | none => none

/-- A token handle that is not valid: the three queries fail with `ERROR_INVALID_HANDLE`
(6). -/
def exampleInvalidTokenHandle : TokenHandle where
  TokenUser := Except.error 6
  TokenStatistics := Except.error 6
  TokenIntegrityLevel := Except.error 6

/-- A token handle whose queries succeed: user S-1-5-18, logon session `0x3e7`, integrity
label S-1-16-16384 (System). -/
def exampleSystemTokenHandle : TokenHandle where
  TokenUser := Except.ok (some exampleSystemSid)
  TokenStatistics := Except.ok 0x3e7
  TokenIntegrityLevel := Except.ok [1, 1, 0, 0, 0, 0, 0, 16, 0, 0x40, 0, 0]

/-- A `TokenInfo_t` as its implicit constructor leaves it, with the two numbers zero. -/
def exampleTokenInfo : TokenInfo_t where
  sid := CSid.default
  logonSession := 0
  integrityLevel := 0

/-- Sample Windows services that accept no SID as valid. -/
def exampleRejectingApi : WinApi where
  IsValidSid := fun _ => false
  GetLengthSid := fun _ => 0
  LookupAccountSidW := fun _ => none
  ConvertSidToStringSidW := fun _ => none

/-- Sample Windows services for the SID S-1-5: every SID is valid and has the length its
sub-authority count gives, resolves to the name `NT AUTHORITY` without domain and converts
to `S-1-5`. -/
def exampleNtAuthorityApi : WinApi where
  IsValidSid := fun _ => true
  GetLengthSid := fun sid => 8 + 4 * byteAt sid 1
  LookupAccountSidW := fun _ => some ("", "NT AUTHORITY")
  ConvertSidToStringSidW := fun _ => some "S-1-5"

/-- The eight bytes of the SID S-1-5, which has no sub-authority: the buffer of a `CSid`
made from that SID. -/
def exampleNtAuthorityBuffer : List Nat :=
  [1, 0, 0, 0, 0, 0, 0, 5]

/-! ## Auxiliary facts: bit arithmetic on natural numbers -/

theorem nat_add_eq_or_of_and_eq_zero : ∀ a c : Nat, a &&& c = 0 → a + c = a ||| c := by
  intro a
  induction a using Nat.binaryRec with
  | z => intro c _; simp
  | f b n ih =>
    intro c
    cases c using Nat.bitCasesOn with
    | h b2 m =>
      intro h
      rw [Nat.land_bit] at h
      rw [Nat.lor_bit]
      have h0 := Nat.bit_eq_zero_iff.mp h
      have hs := ih m h0.1
      have hb := h0.2
      simp only [Nat.bit_val]
      rw [← hs]
      revert hb
      cases b <;> cases b2 <;> simp <;> omega

theorem bitPresent_iff (a b : Nat) : BitPresent a b = true ↔ a &&& b = a := by
  unfold BitPresent
  constructor
  · intro h; exact (beq_iff_eq.mp h).symm
  · intro h; exact beq_iff_eq.mpr h.symm

theorem xor_or_of_subset (a b : Nat) (h : a &&& b = a) : (b ^^^ a) ||| a = b := by
  apply Nat.eq_of_testBit_eq; intro i
  have hi := congrArg (fun x => x.testBit i) h
  simp only [Nat.testBit_and, Nat.testBit_or, Nat.testBit_xor] at *
  revert hi; cases a.testBit i <;> cases b.testBit i <;> simp

theorem xor_and_of_subset (a b : Nat) (h : a &&& b = a) : (b ^^^ a) &&& a = 0 := by
  apply Nat.eq_of_testBit_eq; intro i
  have hi := congrArg (fun x => x.testBit i) h
  simp only [Nat.testBit_and, Nat.testBit_xor, Nat.zero_testBit] at *
  revert hi; cases a.testBit i <;> cases b.testBit i <;> simp

/-- Subtracting a mask whose bits are all present is the same as flipping them. -/
theorem sub_eq_xor_of_subset (a b : Nat) (h : a &&& b = a) : b - a = b ^^^ a := by
  have hd : a &&& (b ^^^ a) = 0 := by
    rw [Nat.land_comm]; exact xor_and_of_subset a b h
  have ho : a ||| (b ^^^ a) = b := by
    rw [Nat.lor_comm]; exact xor_or_of_subset a b h
  have := nat_add_eq_or_of_and_eq_zero a (b ^^^ a) hd
  omega

theorem le_of_subset (a b : Nat) (h : a &&& b = a) : a ≤ b := by
  rw [← h]; exact Nat.and_le_right

/-- On a 32-bit value, `v & ~mask` flips the bits of a mask that is all present. -/
theorem clearBits_eq_xor (v mask : Nat) (hv : v < 2 ^ 32) (h : mask &&& v = mask) :
    clearBits v mask = v ^^^ mask := by
  unfold clearBits
  apply Nat.eq_of_testBit_eq; intro i
  have hi := congrArg (fun x => x.testBit i) h
  have hF : (0xFFFFFFFF : Nat).testBit i = decide (i < 32) := by
    have := @Nat.testBit_two_pow_sub_one 32 i
    simpa using this
  simp only [Nat.testBit_and, Nat.testBit_xor, hF] at *
  by_cases hlt : i < 32
  · simp only [hlt, decide_True] at *
    revert hi; cases mask.testBit i <;> cases v.testBit i <;> simp
  · have hvi : v.testBit i = false := by
      apply Nat.testBit_lt_two_pow
      calc v < 2 ^ 32 := hv
        _ ≤ 2 ^ i := Nat.pow_le_pow_right (by decide) (by omega)
    rw [hvi] at hi ⊢
    simp at hi
    simp [hi]

/-- The `DWORD` subtraction `dwPermissions -= mask` of a mask that is all present equals
`dwPermissions & ~mask`. -/
theorem dword_sub_eq_clearBits (v mask : Nat) (hv : v < 2 ^ 32) (h : mask &&& v = mask) :
    (v + 2 ^ 32 - mask) % 2 ^ 32 = clearBits v mask := by
  rw [clearBits_eq_xor v mask hv h, ← sub_eq_xor_of_subset mask v h]
  have hle := le_of_subset mask v h
  have : v + 2 ^ 32 - mask = (v - mask) + 2 ^ 32 := by omega
  rw [this, Nat.add_mod_right, Nat.mod_eq_of_lt (by omega)]

theorem clearBits_le (v mask : Nat) : clearBits v mask ≤ v := by
  unfold clearBits; exact Nat.and_le_left

theorem union_step (r2 u e r1 r0 : Nat) (h1 : r2 ||| u = r1) (h2 : r2 &&& u = 0)
    (h3 : r1 ||| e = r0) (h4 : r1 &&& e = 0) :
    r2 ||| (e ||| u) = r0 ∧ r2 &&& (e ||| u) = 0 := by
  constructor
  · apply Nat.eq_of_testBit_eq; intro i
    have h1i := congrArg (fun x => x.testBit i) h1
    have h3i := congrArg (fun x => x.testBit i) h3
    simp only [Nat.testBit_or] at *
    rw [← h3i, ← h1i]
    cases r2.testBit i <;> cases u.testBit i <;> cases e.testBit i <;> rfl
  · apply Nat.eq_of_testBit_eq; intro i
    have h1i := congrArg (fun x => x.testBit i) h1
    have h2i := congrArg (fun x => x.testBit i) h2
    have h4i := congrArg (fun x => x.testBit i) h4
    simp only [Nat.testBit_or, Nat.testBit_and, Nat.zero_testBit] at *
    rw [← h1i] at h4i
    revert h2i h4i
    cases r2.testBit i <;> cases u.testBit i <;> cases e.testBit i <;> simp

theorem subset_disjoint (a r e : Nat) (h1 : a &&& r = a) (h2 : r &&& e = 0) : e &&& a = 0 := by
  apply Nat.eq_of_testBit_eq; intro i
  have h1i := congrArg (fun x => x.testBit i) h1
  have h2i := congrArg (fun x => x.testBit i) h2
  simp only [Nat.testBit_and, Nat.zero_testBit] at *
  revert h1i h2i
  cases a.testBit i <;> cases r.testBit i <;> cases e.testBit i <;> simp

theorem subset_trans_xor (a r e : Nat) (h1 : a &&& (r ^^^ e) = a) (h2 : e &&& r = e) :
    a &&& r = a := by
  apply Nat.eq_of_testBit_eq; intro i
  have h1i := congrArg (fun x => x.testBit i) h1
  have h2i := congrArg (fun x => x.testBit i) h2
  simp only [Nat.testBit_and, Nat.testBit_xor] at *
  revert h1i h2i
  cases a.testBit i <;> cases r.testBit i <;> cases e.testBit i <;> simp

/-! ## Auxiliary facts: the decomposition pass -/

theorem emittedPerms_append (a b : List Chunk) :
    emittedPerms (a ++ b) = emittedPerms a ++ emittedPerms b := by
  induction a with
  | nil => rfl
  | cons c cs ih => cases c <;> simp [emittedPerms, ih]

theorem printedHex_append (a b : List Chunk) :
    printedHex (a ++ b) = printedHex a ++ printedHex b := by
  induction a with
  | nil => rfl
  | cons c cs ih => cases c <;> simp [printedHex, ih]

theorem unionMasks_append (a b : List perm_t) :
    unionMasks (a ++ b) = unionMasks a ||| unionMasks b := by
  induction a with
  | nil => simp [unionMasks]
  | cons p ps ih => simp [unionMasks, ih, Nat.lor_assoc]

theorem specDecompose_le (tbl : List perm_t) : ∀ remaining : Nat,
    (specDecompose tbl remaining).2 ≤ remaining := by
  induction tbl with
  | nil => intro r; simp [specDecompose]
  | cons e es ih =>
    intro r
    unfold specDecompose
    split
    · exact Nat.le_trans (ih _) (clearBits_le r e.mask)
    · exact ih r

/-- The remaining mask and the union of the emitted masks partition the input mask. -/
theorem specDecompose_partition (tbl : List perm_t) : ∀ remaining : Nat, remaining < 2 ^ 32 →
    (specDecompose tbl remaining).2 ||| unionMasks (specDecompose tbl remaining).1 = remaining ∧
    (specDecompose tbl remaining).2 &&& unionMasks (specDecompose tbl remaining).1 = 0 := by
  induction tbl with
  | nil => intro r _; simp [specDecompose, unionMasks]
  | cons e es ih =>
    intro r hr
    unfold specDecompose
    split
    · rename_i h
      have hc := clearBits_eq_xor r e.mask hr h
      have hlt : clearBits r e.mask < 2 ^ 32 := Nat.lt_of_le_of_lt (clearBits_le r e.mask) hr
      obtain ⟨i1, i2⟩ := ih (clearBits r e.mask) hlt
      simp only [unionMasks]
      exact union_step _ _ e.mask (clearBits r e.mask) r i1 i2
        (by rw [hc]; exact xor_or_of_subset e.mask r h)
        (by rw [hc]; exact xor_and_of_subset e.mask r h)
    · exact ih r hr

/-- Every emitted entry has all its bits in the mask the pass started from. -/
theorem specDecompose_subset (tbl : List perm_t) : ∀ remaining : Nat, remaining < 2 ^ 32 →
    ∀ p ∈ (specDecompose tbl remaining).1, p.mask &&& remaining = p.mask := by
  induction tbl with
  | nil => intro r _ p hp; simp [specDecompose] at hp
  | cons e es ih =>
    intro r hr p hp
    unfold specDecompose at hp
    split at hp
    · rename_i h
      have hc := clearBits_eq_xor r e.mask hr h
      have hlt : clearBits r e.mask < 2 ^ 32 := Nat.lt_of_le_of_lt (clearBits_le r e.mask) hr
      rcases List.mem_cons.mp hp with rfl | hp2
      · exact h
      · have := ih (clearBits r e.mask) hlt p hp2
        rw [hc] at this
        exact subset_trans_xor p.mask r e.mask this h
    · exact ih r hr p hp

/-- The emitted entries have pairwise disjoint masks. -/
theorem specDecompose_pairwise (tbl : List perm_t) : ∀ remaining : Nat, remaining < 2 ^ 32 →
    List.Pairwise (fun p q => p.mask &&& q.mask = 0) (specDecompose tbl remaining).1 := by
  induction tbl with
  | nil => intro r _; simp [specDecompose]
  | cons e es ih =>
    intro r hr
    unfold specDecompose
    split
    · rename_i h
      have hc := clearBits_eq_xor r e.mask hr h
      have hlt : clearBits r e.mask < 2 ^ 32 := Nat.lt_of_le_of_lt (clearBits_le r e.mask) hr
      refine List.Pairwise.cons ?_ (ih _ hlt)
      intro q hq
      have hsub := specDecompose_subset es (clearBits r e.mask) hlt q hq
      rw [hc] at hsub
      exact subset_disjoint q.mask (r ^^^ e.mask) e.mask hsub (xor_and_of_subset e.mask r h)
    · exact ih r hr

/-- The emitted entries are taken from the table in table order. -/
theorem specDecompose_sublist (tbl : List perm_t) : ∀ remaining : Nat,
    List.Sublist (specDecompose tbl remaining).1 tbl := by
  induction tbl with
  | nil => intro r; simp [specDecompose]
  | cons e es ih =>
    intro r
    unfold specDecompose
    split
    · exact List.Sublist.cons₂ e (ih _)
    · exact List.Sublist.cons e (ih r)

/-- Running the pass over two tables in a row is running it over their concatenation. -/
theorem specDecompose_append (t1 t2 : List perm_t) : ∀ remaining : Nat,
    specDecompose (t1 ++ t2) remaining =
      ((specDecompose t1 remaining).1 ++ (specDecompose t2 (specDecompose t1 remaining).2).1,
        (specDecompose t2 (specDecompose t1 remaining).2).2) := by
  induction t1 with
  | nil => intro r; simp [specDecompose]
  | cons e es ih =>
    intro r
    simp only [List.cons_append, specDecompose]
    split
    · simp [ih]
    · exact ih r

theorem emittedPerms_permChunks (pre post : String) (ps : List perm_t) :
    emittedPerms (permChunks pre post ps) = ps := by
  induction ps with
  | nil => rfl
  | cons p ps ih =>
    have : permChunks pre post (p :: ps) =
        Chunk.text pre :: Chunk.perm p :: Chunk.text post :: permChunks pre post ps := by
      simp [permChunks, List.flatMap_cons]
    rw [this]
    simp only [emittedPerms]
    rw [ih]

theorem printedHex_permChunks (pre post : String) (ps : List perm_t) :
    printedHex (permChunks pre post ps) = [] := by
  induction ps with
  | nil => rfl
  | cons p ps ih =>
    have : permChunks pre post (p :: ps) =
        Chunk.text pre :: Chunk.perm p :: Chunk.text post :: permChunks pre post ps := by
      simp [permChunks, List.flatMap_cons]
    rw [this]
    simp only [printedHex]
    rw [ih]

theorem permChunks_append (pre post : String) (a b : List perm_t) :
    permChunks pre post (a ++ b) = permChunks pre post a ++ permChunks pre post b := by
  simp [permChunks, List.flatMap_append]

/-- A bit-match loop of the code computes the decomposition pass of the specification:
same remaining mask, and it writes exactly the entries the pass emits. -/
theorem bitLoop_eq_specDecompose (pre post : String) (tbl : List perm_t) :
    ∀ (dw : Nat) (sOut : List Chunk), dw < 2 ^ 32 →
      OutputPermissions.bitLoop pre post tbl (dw, sOut) =
        ((specDecompose tbl dw).2, sOut ++ permChunks pre post (specDecompose tbl dw).1) := by
  induction tbl with
  | nil => intro dw sOut _; simp [OutputPermissions.bitLoop, specDecompose, permChunks]
  | cons e es ih =>
    intro dw sOut hdw
    unfold OutputPermissions.bitLoop specDecompose
    by_cases h : e.mask &&& dw = e.mask
    · have hb : BitPresent e.mask dw = true := (bitPresent_iff _ _).mpr h
      have hsub := dword_sub_eq_clearBits dw e.mask hdw h
      have hlt : clearBits dw e.mask < 2 ^ 32 := Nat.lt_of_le_of_lt (clearBits_le dw e.mask) hdw
      simp only [hb, if_true, h, hsub]
      rw [ih _ _ hlt]
      simp [permChunks, List.flatMap_cons]
    · have hb : ¬ (BitPresent e.mask dw = true) := fun hb => h ((bitPresent_iff _ _).mp hb)
      simp only [hb, h, if_false]
      exact ih dw sOut hdw

/-- The three loops of the code, in a row, are the pass over generic, object-specific and
standard table in that order. -/
theorem decompose_eq (dw : Nat) (pPermsSpecific : Option (List perm_t))
    (pre post fin : String) (hdw : dw < 2 ^ 32) :
    OutputPermissions.decompose dw pPermsSpecific pre post fin =
      permChunks pre post (specDecompose (specTableOrder pPermsSpecific) dw).1 ++
      (if (specDecompose (specTableOrder pPermsSpecific) dw).2 ≠ 0 then
        [Chunk.text pre, Chunk.hex (specDecompose (specTableOrder pPermsSpecific) dw).2,
          Chunk.text post] else []) ++
      [Chunk.text fin] := by
  unfold OutputPermissions.decompose specTableOrder
  have h1 := bitLoop_eq_specDecompose pre post genericMask dw [] hdw
  have l1 : (specDecompose genericMask dw).2 < 2 ^ 32 :=
    Nat.lt_of_le_of_lt (specDecompose_le _ _) hdw
  cases pPermsSpecific with
  | none =>
    simp only [Option.getD_none, List.append_nil]
    rw [h1, bitLoop_eq_specDecompose pre post standardMask _ _ l1, specDecompose_append]
    simp only [List.nil_append, permChunks_append]
    split <;> simp
  | some tbl =>
    simp only [Option.getD_some]
    have l2 : (specDecompose tbl (specDecompose genericMask dw).2).2 < 2 ^ 32 :=
      Nat.lt_of_le_of_lt (specDecompose_le _ _) l1
    rw [h1, bitLoop_eq_specDecompose pre post tbl _ _ l1,
      bitLoop_eq_specDecompose pre post standardMask _ _ l2, specDecompose_append,
      specDecompose_append]
    simp only [List.nil_append, permChunks_append]
    split <;> simp

theorem exactMatch_some (m : Nat) (tbl : List perm_t) (p : perm_t)
    (h : OutputPermissions.exactMatch m tbl = some p) : p ∈ tbl ∧ p.mask = m := by
  induction tbl with
  | nil => simp [OutputPermissions.exactMatch] at h
  | cons e es ih =>
    unfold OutputPermissions.exactMatch at h
    split at h
    · rename_i he
      have : e = p := by simpa using h
      subst this
      exact ⟨List.mem_cons_self _ _, he.symm⟩
    · exact ⟨List.mem_cons_of_mem _ (ih h).1, (ih h).2⟩

theorem exactMatch_none (m : Nat) (tbl : List perm_t) (h : ∀ p ∈ tbl, p.mask ≠ m) :
    OutputPermissions.exactMatch m tbl = none := by
  induction tbl with
  | nil => rfl
  | cons e es ih =>
    unfold OutputPermissions.exactMatch
    have he : ¬ (m = e.mask) := fun hm => h e (List.mem_cons_self _ _) hm.symm
    simp only [he, if_false]
    exact ih (fun p hp => h p (List.mem_cons_of_mem _ hp))

theorem exactMatch_unique (m : Nat) (tbl : List perm_t) (a : perm_t) (ha : a ∈ tbl)
    (hm : a.mask = m) (huniq : ∀ b ∈ tbl, b.mask = m → b = a) :
    OutputPermissions.exactMatch m tbl = some a := by
  induction tbl with
  | nil => simp at ha
  | cons e es ih =>
    unfold OutputPermissions.exactMatch
    by_cases he : m = e.mask
    · simp only [he, if_true]
      rw [huniq e (List.mem_cons_self _ _) he.symm]
    · simp only [he, if_false]
      rcases List.mem_cons.mp ha with rfl | ha2
      · exact absurd hm.symm he
      · exact ih ha2 (fun b hb => huniq b (List.mem_cons_of_mem _ hb))

/-- The output of `OutputPermissions` for a recognized object type, by cases on the
exact-match pass. -/
theorem OutputPermissions_recognized (m : Nat) (szObjType : String) (b : Bool) (ind : String)
    (pSpecific pMatch : Option (List perm_t))
    (hrec : GetPermsForType szObjType = some (pSpecific, pMatch)) :
    OutputPermissions m szObjType b ind =
      match pMatch.bind (OutputPermissions.exactMatch m) with
      | some pPerm => [Chunk.text "           ", Chunk.perm pPerm, Chunk.endl]
      | none =>
        OutputPermissions.decompose m pSpecific
          (if b then ind ++ "           " else "") (if b then "\n" else " ")
          (if b then "" else "\n") := by
  unfold OutputPermissions
  simp only [hrec]

theorem emittedPerms_decompose (dw : Nat) (pSpecific : Option (List perm_t))
    (pre post fin : String) (hdw : dw < 2 ^ 32) :
    emittedPerms (OutputPermissions.decompose dw pSpecific pre post fin) =
      (specDecompose (specTableOrder pSpecific) dw).1 := by
  rw [decompose_eq dw pSpecific pre post fin hdw]
  simp only [emittedPerms_append, emittedPerms_permChunks]
  split <;> simp [emittedPerms]

theorem printedHex_decompose (dw : Nat) (pSpecific : Option (List perm_t))
    (pre post fin : String) (hdw : dw < 2 ^ 32) :
    printedHex (OutputPermissions.decompose dw pSpecific pre post fin) =
      if (specDecompose (specTableOrder pSpecific) dw).2 = 0 then []
      else [(specDecompose (specTableOrder pSpecific) dw).2] := by
  rw [decompose_eq dw pSpecific pre post fin hdw]
  simp only [printedHex_append, printedHex_permChunks]
  by_cases h : (specDecompose (specTableOrder pSpecific) dw).2 = 0
  · simp [h, printedHex]
  · simp [h, printedHex]

/-! ## Permission resolver: properties of `OutputPermissions` -/

/-- C1: for every recognized object-type tag and every 32-bit mask `m`, `OutputPermissions`
never drops or invents bits. With `R` the bitwise OR of the masks of the table rows whose
names it writes and `r` the residual it prints in hex (`0` when none is printed):
`r ||| R = m` and `r &&& R = 0`; at most one residual is printed, and one is printed if and
only if it is non-zero. -/
theorem OutputPermissions_no_bits_lost (m : Nat) (szObjType : String) (bOnePermPerLine : Bool)
    (sIndent : String) (tables : Option (List perm_t) × Option (List perm_t))
    (hrec : GetPermsForType szObjType = some tables) (hm : m < 2 ^ 32) :
    printedResidual (OutputPermissions m szObjType bOnePermPerLine sIndent) |||
        unionMasks (emittedPerms (OutputPermissions m szObjType bOnePermPerLine sIndent)) = m ∧
    printedResidual (OutputPermissions m szObjType bOnePermPerLine sIndent) &&&
        unionMasks (emittedPerms (OutputPermissions m szObjType bOnePermPerLine sIndent)) = 0 ∧
    (printedHex (OutputPermissions m szObjType bOnePermPerLine sIndent)).length ≤ 1 ∧
    (printedHex (OutputPermissions m szObjType bOnePermPerLine sIndent) ≠ [] ↔
      printedResidual (OutputPermissions m szObjType bOnePermPerLine sIndent) ≠ 0) := by
  obtain ⟨pSpecific, pMatch⟩ := tables
  rw [OutputPermissions_recognized m szObjType bOnePermPerLine sIndent pSpecific pMatch hrec]
  cases hx : pMatch.bind (OutputPermissions.exactMatch m) with
  | some p =>
    have hp : p.mask = m := by
      cases pMatch with
      | none => simp at hx
      | some tbl => exact (exactMatch_some m tbl p (by simpa using hx)).2
    simp [printedResidual, printedHex, emittedPerms, unionMasks, hp]
  | none =>
    simp only []
    have hpart := specDecompose_partition (specTableOrder pSpecific) m hm
    rw [emittedPerms_decompose _ _ _ _ _ hm]
    unfold printedResidual
    rw [printedHex_decompose _ _ _ _ _ hm]
    by_cases h0 : (specDecompose (specTableOrder pSpecific) m).2 = 0
    · rw [h0] at hpart
      simp only [h0, if_true, List.headD_nil]
      refine ⟨hpart.1, hpart.2, by simp, by simp⟩
    · simp only [h0, if_false, List.headD_cons]
      refine ⟨hpart.1, hpart.2, by simp, by simp [h0]⟩

/-- C1, at the tag "file" and the mask `0x0C000001`: `FILE_READ_DATA` is written and the
two unnamed bits are printed as the residual `0x0C000000`. -/
theorem OutputPermissions_no_bits_lost_witness :
    emittedNames (OutputPermissions 0x0C000001 "file" false "") = ["FILE_READ_DATA"] ∧
    printedHex (OutputPermissions 0x0C000001 "file" false "") = [0x0C000000] ∧
    (printedResidual (OutputPermissions 0x0C000001 "file" false "") |||
        unionMasks (emittedPerms (OutputPermissions 0x0C000001 "file" false "")) = 0x0C000001 ∧
    printedResidual (OutputPermissions 0x0C000001 "file" false "") &&&
        unionMasks (emittedPerms (OutputPermissions 0x0C000001 "file" false "")) = 0 ∧
    (printedHex (OutputPermissions 0x0C000001 "file" false "")).length ≤ 1 ∧
    (printedHex (OutputPermissions 0x0C000001 "file" false "") ≠ [] ↔
      printedResidual (OutputPermissions 0x0C000001 "file" false "") ≠ 0)) :=
  ⟨by decide, by decide,
    OutputPermissions_no_bits_lost 0x0C000001 "file" false ""
      (some fileSpecific, some fileMatch) (by decide) (by decide)⟩

/-- C2: for every tag that has an aggregate (`xMatch`) table and every mask `m` equal to the
mask of exactly one entry `A` of that table, `OutputPermissions` writes the leading
whitespace, the single name of `A` and the end of line, and nothing else: no decomposition
names and no residual. -/
theorem OutputPermissions_exact_match (m : Nat) (szObjType : String) (bOnePermPerLine : Bool)
    (sIndent : String) (pSpecific : Option (List perm_t)) (pPermsMatch : List perm_t)
    (A : perm_t) (hrec : GetPermsForType szObjType = some (pSpecific, some pPermsMatch))
    (hA : A ∈ pPermsMatch) (hm : A.mask = m)
    (huniq : ∀ B ∈ pPermsMatch, B.mask = m → B = A) :
    OutputPermissions m szObjType bOnePermPerLine sIndent =
      [Chunk.text "           ", Chunk.perm A, Chunk.endl] ∧
    emittedNames (OutputPermissions m szObjType bOnePermPerLine sIndent) = [A.szName] ∧
    printedHex (OutputPermissions m szObjType bOnePermPerLine sIndent) = [] := by
  have hout : OutputPermissions m szObjType bOnePermPerLine sIndent =
      [Chunk.text "           ", Chunk.perm A, Chunk.endl] := by
    rw [OutputPermissions_recognized m szObjType bOnePermPerLine sIndent pSpecific
      (some pPermsMatch) hrec]
    have : (some pPermsMatch).bind (OutputPermissions.exactMatch m) = some A := by
      simpa using exactMatch_unique m pPermsMatch A hA hm huniq
    rw [this]
  rw [hout]
  exact ⟨rfl, rfl, rfl⟩

/-- C2, at the mask `0x001F01FF` with tag "file": only `FILE_ALL_ACCESS` is written. -/
theorem OutputPermissions_exact_match_witness :
    OutputPermissions 0x001F01FF "file" true "" =
      [Chunk.text "           ", Chunk.perm ⟨FILE_ALL_ACCESS, "FILE_ALL_ACCESS"⟩, Chunk.endl] ∧
    emittedNames (OutputPermissions 0x001F01FF "file" true "") = ["FILE_ALL_ACCESS"] ∧
    printedHex (OutputPermissions 0x001F01FF "file" true "") = [] :=
  OutputPermissions_exact_match 0x001F01FF "file" true "" (some fileSpecific) fileMatch
    ⟨FILE_ALL_ACCESS, "FILE_ALL_ACCESS"⟩ (by decide) (by decide) (by decide) (by decide)

/-- C3: when no aggregate entry matches, `OutputPermissions` writes exactly the entries
that the decomposition pass of the specification emits over the generic table, then the
object-specific table, then the standard table (table order within each): an entry is
emitted iff all bits of its mask are still present in the remaining mask when it is reached,
and those bits are then cleared with `& ~mask` (which the `DWORD` subtraction of the code
equals). The emitted entries form a sublist of the three tables in that order, their masks
are pairwise disjoint, and the bits still remaining after the pass are what is printed in
hex. -/
theorem OutputPermissions_decomposition_order (m : Nat) (szObjType : String)
    (bOnePermPerLine : Bool) (sIndent : String)
    (pSpecific pMatch : Option (List perm_t))
    (hrec : GetPermsForType szObjType = some (pSpecific, pMatch)) (hm : m < 2 ^ 32)
    (hno : ∀ tbl, pMatch = some tbl → ∀ A ∈ tbl, A.mask ≠ m) :
    emittedPerms (OutputPermissions m szObjType bOnePermPerLine sIndent) =
      (specDecompose (genericMask ++ pSpecific.getD [] ++ standardMask) m).1 ∧
    List.Sublist (emittedPerms (OutputPermissions m szObjType bOnePermPerLine sIndent))
      (genericMask ++ pSpecific.getD [] ++ standardMask) ∧
    List.Pairwise (fun p q => p.mask &&& q.mask = 0)
      (emittedPerms (OutputPermissions m szObjType bOnePermPerLine sIndent)) ∧
    printedHex (OutputPermissions m szObjType bOnePermPerLine sIndent) =
      (if (specDecompose (genericMask ++ pSpecific.getD [] ++ standardMask) m).2 = 0 then []
        else [(specDecompose (genericMask ++ pSpecific.getD [] ++ standardMask) m).2]) := by
  have hx : pMatch.bind (OutputPermissions.exactMatch m) = none := by
    cases pMatch with
    | none => rfl
    | some tbl => simpa using exactMatch_none m tbl (hno tbl rfl)
  rw [OutputPermissions_recognized m szObjType bOnePermPerLine sIndent pSpecific pMatch hrec, hx]
  simp only []
  rw [emittedPerms_decompose _ _ _ _ _ hm, printedHex_decompose _ _ _ _ _ hm]
  unfold specTableOrder
  exact ⟨rfl, specDecompose_sublist _ m, specDecompose_pairwise _ m hm, rfl⟩

/-- C3, at the mask `0x80130001` with tag "file": the generic entry comes first, then the
object-specific one, then the standard ones in table order. -/
theorem OutputPermissions_decomposition_order_witness :
    emittedNames (OutputPermissions 0x80130001 "file" false "") =
      ["GENERIC_READ", "FILE_READ_DATA", "DELETE", "READ_CONTROL", "SYNCHRONIZE"] ∧
    (emittedPerms (OutputPermissions 0x80130001 "file" false "") =
      (specDecompose (genericMask ++ (some fileSpecific).getD [] ++ standardMask) 0x80130001).1 ∧
    List.Sublist (emittedPerms (OutputPermissions 0x80130001 "file" false ""))
      (genericMask ++ (some fileSpecific).getD [] ++ standardMask) ∧
    List.Pairwise (fun p q => p.mask &&& q.mask = 0)
      (emittedPerms (OutputPermissions 0x80130001 "file" false "")) ∧
    printedHex (OutputPermissions 0x80130001 "file" false "") =
      (if (specDecompose (genericMask ++ (some fileSpecific).getD [] ++ standardMask)
          0x80130001).2 = 0 then []
        else [(specDecompose (genericMask ++ (some fileSpecific).getD [] ++ standardMask)
          0x80130001).2])) :=
  ⟨by decide,
    OutputPermissions_decomposition_order 0x80130001 "file" false "" (some fileSpecific)
      (some fileMatch) (by decide) (by decide)
      (fun tbl h => by
        have : tbl = fileMatch := by simpa using h.symm
        subst this
        decide)⟩

/-- C4 as stated fails: for the mask `0x80000001` and tag "file" the names written are not
`["GENERIC_ALL", "FILE_READ_DATA"]`, since `0x80000000` is `GENERIC_READ`. -/
theorem OutputPermissions_generic_file_counterexample :
    emittedNames (OutputPermissions 0x80000001 "file" false "") ≠
      ["GENERIC_ALL", "FILE_READ_DATA"] ∧
    emittedNames (OutputPermissions 0x80000001 "file" true "") ≠
      ["GENERIC_ALL", "FILE_READ_DATA"] := by
  constructor <;> decide

/-- C4, amended: resolving the mask `0x80000001` against tag "file" writes the names
`["GENERIC_READ", "FILE_READ_DATA"]` in that order and no residual; it is the mask
`0x10000001` (`GENERIC_ALL ||| FILE_READ_DATA`) that writes
`["GENERIC_ALL", "FILE_READ_DATA"]` in that order and no residual. -/
theorem OutputPermissions_generic_file (bOnePermPerLine : Bool) (sIndent : String) :
    emittedNames (OutputPermissions 0x80000001 "file" bOnePermPerLine sIndent) =
      ["GENERIC_READ", "FILE_READ_DATA"] ∧
    printedHex (OutputPermissions 0x80000001 "file" bOnePermPerLine sIndent) = [] ∧
    emittedNames (OutputPermissions (GENERIC_ALL ||| FILE_READ_DATA) "file" bOnePermPerLine
      sIndent) = ["GENERIC_ALL", "FILE_READ_DATA"] ∧
    printedHex (OutputPermissions (GENERIC_ALL ||| FILE_READ_DATA) "file" bOnePermPerLine
      sIndent) = [] := by
  have hrec : GetPermsForType "file" = some (some fileSpecific, some fileMatch) := by decide
  have h1 : (some fileMatch).bind (OutputPermissions.exactMatch 0x80000001) = none := by decide
  have h2 : (some fileMatch).bind
      (OutputPermissions.exactMatch (GENERIC_ALL ||| FILE_READ_DATA)) = none := by decide
  unfold emittedNames
  rw [OutputPermissions_recognized _ "file" bOnePermPerLine sIndent _ _ hrec, h1,
    OutputPermissions_recognized _ "file" bOnePermPerLine sIndent _ _ hrec, h2]
  simp only []
  rw [emittedPerms_decompose _ _ _ _ _ (by decide), printedHex_decompose _ _ _ _ _ (by decide),
    emittedPerms_decompose _ _ _ _ _ (by decide), printedHex_decompose _ _ _ _ _ (by decide)]
  decide

/-! ## ACE decoder: properties of `GetAddressOfSidInHeader` -/

theorem mem_simpleAceTypes (t : Nat) : t ∈ simpleAceTypes ↔
    (t = ACCESS_ALLOWED_ACE_TYPE ∨ t = ACCESS_DENIED_ACE_TYPE ∨ t = SYSTEM_AUDIT_ACE_TYPE ∨
      t = SYSTEM_ALARM_ACE_TYPE ∨ t = ACCESS_ALLOWED_CALLBACK_ACE_TYPE ∨
      t = ACCESS_DENIED_CALLBACK_ACE_TYPE ∨ t = SYSTEM_AUDIT_CALLBACK_ACE_TYPE ∨
      t = SYSTEM_ALARM_CALLBACK_ACE_TYPE ∨ t = SYSTEM_MANDATORY_LABEL_ACE_TYPE) := by
  simp [simpleAceTypes]

theorem mem_objectAceTypes (t : Nat) : t ∈ objectAceTypes ↔
    (t = ACCESS_ALLOWED_OBJECT_ACE_TYPE ∨ t = ACCESS_DENIED_OBJECT_ACE_TYPE ∨
      t = SYSTEM_AUDIT_OBJECT_ACE_TYPE ∨ t = SYSTEM_ALARM_OBJECT_ACE_TYPE ∨
      t = ACCESS_ALLOWED_CALLBACK_OBJECT_ACE_TYPE ∨ t = ACCESS_DENIED_CALLBACK_OBJECT_ACE_TYPE ∨
      t = SYSTEM_AUDIT_CALLBACK_OBJECT_ACE_TYPE ∨ t = SYSTEM_ALARM_CALLBACK_OBJECT_ACE_TYPE) := by
  simp [objectAceTypes]

theorem objectAceTypes_not_simple (t : Nat) (h : t ∈ objectAceTypes) : t ∉ simpleAceTypes := by
  revert h
  simp only [objectAceTypes, simpleAceTypes, ACCESS_ALLOWED_ACE_TYPE, ACCESS_DENIED_ACE_TYPE,
    SYSTEM_AUDIT_ACE_TYPE, SYSTEM_ALARM_ACE_TYPE, ACCESS_ALLOWED_CALLBACK_ACE_TYPE,
    ACCESS_DENIED_CALLBACK_ACE_TYPE, SYSTEM_AUDIT_CALLBACK_ACE_TYPE,
    SYSTEM_ALARM_CALLBACK_ACE_TYPE, SYSTEM_MANDATORY_LABEL_ACE_TYPE,
    ACCESS_ALLOWED_OBJECT_ACE_TYPE, ACCESS_DENIED_OBJECT_ACE_TYPE, SYSTEM_AUDIT_OBJECT_ACE_TYPE,
    SYSTEM_ALARM_OBJECT_ACE_TYPE, ACCESS_ALLOWED_CALLBACK_OBJECT_ACE_TYPE,
    ACCESS_DENIED_CALLBACK_OBJECT_ACE_TYPE, SYSTEM_AUDIT_CALLBACK_OBJECT_ACE_TYPE,
    SYSTEM_ALARM_CALLBACK_OBJECT_ACE_TYPE, List.mem_cons, List.mem_singleton, List.mem_nil_iff,
    or_false]
  omega

/-- The result of `GetAddressOfSidInHeader` for an ACE of one of the eight object kinds:
decided by the presence field alone. -/
theorem GetAddressOfSidInHeader_object (pAceHeader : List Nat)
    (h : ACE_HEADER.AceType pAceHeader ∈ objectAceTypes) :
    GetAddressOfSidInHeader pAceHeader =
      if ACCESS_ALLOWED_OBJECT_ACE.Flags pAceHeader = 0 then
        some ACCESS_ALLOWED_OBJECT_ACE.ObjectType
      else if ACCESS_ALLOWED_OBJECT_ACE.Flags pAceHeader = ACE_OBJECT_TYPE_PRESENT ∨
          ACCESS_ALLOWED_OBJECT_ACE.Flags pAceHeader = ACE_INHERITED_OBJECT_TYPE_PRESENT then
        some ACCESS_ALLOWED_OBJECT_ACE.InheritedObjectType
      else if ACCESS_ALLOWED_OBJECT_ACE.Flags pAceHeader =
          ACE_OBJECT_TYPE_PRESENT ||| ACE_INHERITED_OBJECT_TYPE_PRESENT then
        some ACCESS_ALLOWED_OBJECT_ACE.SidStart
      else none := by
  have hns := (mem_simpleAceTypes _).not.mp (objectAceTypes_not_simple _ h)
  have ho := (mem_objectAceTypes _).mp h
  unfold GetAddressOfSidInHeader
  simp only [hns, ho, if_false, if_true]

/-- C5: for every ACE whose type is one of the nine simple kinds, `GetAddressOfSidInHeader`
locates the trustee at byte offset 8 of the record, right after the 4-byte header and the
4-byte mask, whatever else the record contains. -/
theorem GetAddressOfSidInHeader_simple (pAceHeader : List Nat)
    (h : ACE_HEADER.AceType pAceHeader ∈ simpleAceTypes) :
    GetAddressOfSidInHeader pAceHeader = some 8 ∧ (8 : Nat) = 4 + 4 := by
  have hs := (mem_simpleAceTypes _).mp h
  refine ⟨?_, rfl⟩
  unfold GetAddressOfSidInHeader
  simp only [hs, if_true]
  rfl

/-- C5, at an access-allowed ACE for the SID S-1-1-0 with mask `0x001F01FF`. -/
theorem GetAddressOfSidInHeader_simple_witness :
    ACE_HEADER.AceType [0, 0, 20, 0, 0xFF, 0x01, 0x1F, 0, 1, 1, 0, 0, 0, 0, 0, 1, 0, 0, 0, 0] ∈
      simpleAceTypes ∧
    (GetAddressOfSidInHeader [0, 0, 20, 0, 0xFF, 0x01, 0x1F, 0, 1, 1, 0, 0, 0, 0, 0, 1, 0, 0, 0, 0]
      = some 8 ∧ (8 : Nat) = 4 + 4) :=
  ⟨by decide, GetAddressOfSidInHeader_simple _ (by decide)⟩

/-- C6: for every ACE of one of the eight object kinds whose presence field has both
`ACE_OBJECT_TYPE_PRESENT` and `ACE_INHERITED_OBJECT_TYPE_PRESENT` set (value 3),
`GetAddressOfSidInHeader` locates the trustee at byte offset 44 of the record: header, mask,
the 4-byte presence field and two 16-byte GUIDs. -/
theorem GetAddressOfSidInHeader_object_both (pAceHeader : List Nat)
    (h : ACE_HEADER.AceType pAceHeader ∈ objectAceTypes)
    (hflags : ACCESS_ALLOWED_OBJECT_ACE.Flags pAceHeader =
      ACE_OBJECT_TYPE_PRESENT ||| ACE_INHERITED_OBJECT_TYPE_PRESENT) :
    GetAddressOfSidInHeader pAceHeader = some 44 ∧ (44 : Nat) = 4 + 4 + 4 + 16 + 16 := by
  rw [GetAddressOfSidInHeader_object pAceHeader h, hflags]
  exact ⟨by decide, rfl⟩

/-- C6, at an access-allowed object ACE whose presence field is 3. -/
theorem GetAddressOfSidInHeader_object_both_witness :
    ACE_HEADER.AceType [5, 0, 56, 0, 0, 1, 0, 0, 3, 0, 0, 0] ∈ objectAceTypes ∧
    ACCESS_ALLOWED_OBJECT_ACE.Flags [5, 0, 56, 0, 0, 1, 0, 0, 3, 0, 0, 0] = 3 ∧
    (GetAddressOfSidInHeader [5, 0, 56, 0, 0, 1, 0, 0, 3, 0, 0, 0] = some 44 ∧
      (44 : Nat) = 4 + 4 + 4 + 16 + 16) :=
  ⟨by decide, by decide, GetAddressOfSidInHeader_object_both _ (by decide) (by decide)⟩

/-- C7 as stated fails: an access-allowed object ACE whose presence field is 0 has its
trustee located at offset 12, not at the offset 8 of a simple-layout ACE. -/
theorem GetAddressOfSidInHeader_object_none_counterexample :
    ACE_HEADER.AceType [5, 0, 24, 0, 0, 1, 0, 0, 0, 0, 0, 0, 1, 1, 0, 0, 0, 0, 0, 1, 0, 0, 0, 0] ∈
      objectAceTypes ∧
    ACCESS_ALLOWED_OBJECT_ACE.Flags
      [5, 0, 24, 0, 0, 1, 0, 0, 0, 0, 0, 0, 1, 1, 0, 0, 0, 0, 0, 1, 0, 0, 0, 0] = 0 ∧
    GetAddressOfSidInHeader
      [5, 0, 24, 0, 0, 1, 0, 0, 0, 0, 0, 0, 1, 1, 0, 0, 0, 0, 0, 1, 0, 0, 0, 0] ≠ some 8 := by
  decide

/-- C7, amended: for every ACE of one of the eight object kinds whose presence field has
neither presence flag set (value 0), `GetAddressOfSidInHeader` locates the trustee at byte
offset 12 of the record: header, mask and the 4-byte presence field, which is 4 bytes past
the offset of a simple-layout ACE. -/
theorem GetAddressOfSidInHeader_object_none (pAceHeader : List Nat)
    (h : ACE_HEADER.AceType pAceHeader ∈ objectAceTypes)
    (hflags : ACCESS_ALLOWED_OBJECT_ACE.Flags pAceHeader = 0) :
    GetAddressOfSidInHeader pAceHeader = some 12 ∧ (12 : Nat) = 4 + 4 + 4 ∧
      (12 : Nat) = ACCESS_ALLOWED_ACE.SidStart + 4 := by
  rw [GetAddressOfSidInHeader_object pAceHeader h, hflags]
  exact ⟨by decide, rfl, rfl⟩

/-- C7 amended, at an access-allowed object ACE for S-1-1-0 whose presence field is 0. -/
theorem GetAddressOfSidInHeader_object_none_witness :
    GetAddressOfSidInHeader
      [5, 0, 24, 0, 0, 1, 0, 0, 0, 0, 0, 0, 1, 1, 0, 0, 0, 0, 0, 1, 0, 0, 0, 0] = some 12 ∧
    (12 : Nat) = 4 + 4 + 4 ∧ (12 : Nat) = ACCESS_ALLOWED_ACE.SidStart + 4 :=
  GetAddressOfSidInHeader_object_none _ (by decide) (by decide)

/-- C8: for every ACE of one of the eight object kinds, `GetAddressOfSidInHeader` fails
(returns no location) if and only if the 32-bit presence field is not one of the four
values 0, `ACE_OBJECT_TYPE_PRESENT` (1), `ACE_INHERITED_OBJECT_TYPE_PRESENT` (2), or both
(3). -/
theorem GetAddressOfSidInHeader_object_fails_iff (pAceHeader : List Nat)
    (h : ACE_HEADER.AceType pAceHeader ∈ objectAceTypes) :
    GetAddressOfSidInHeader pAceHeader = none ↔
      ACCESS_ALLOWED_OBJECT_ACE.Flags pAceHeader ∉ [0, 1, 2, 3] := by
  rw [GetAddressOfSidInHeader_object pAceHeader h]
  simp only [ACE_OBJECT_TYPE_PRESENT, ACE_INHERITED_OBJECT_TYPE_PRESENT, List.mem_cons,
    List.mem_singleton, List.mem_nil_iff, or_false]
  generalize ACCESS_ALLOWED_OBJECT_ACE.Flags pAceHeader = f
  have h12 : (1 ||| 2 : Nat) = 3 := by decide
  by_cases h0 : f = 0
  · simp [h0]
  · by_cases h1 : f = 1
    · simp [h1]
    · by_cases h2 : f = 2
      · simp [h2]
      · by_cases h3 : f = 3
        · simp [h3]
        · simp [h0, h1, h2, h3, h12]

/-- C8, at an access-allowed object ACE whose presence field is 4: no location. -/
theorem GetAddressOfSidInHeader_object_fails_iff_witness :
    ACCESS_ALLOWED_OBJECT_ACE.Flags [5, 0, 24, 0, 0, 1, 0, 0, 4, 0, 0, 0] = 4 ∧
    (GetAddressOfSidInHeader [5, 0, 24, 0, 0, 1, 0, 0, 4, 0, 0, 0] = none ↔
      ACCESS_ALLOWED_OBJECT_ACE.Flags [5, 0, 24, 0, 0, 1, 0, 0, 4, 0, 0, 0] ∉ [0, 1, 2, 3]) :=
  ⟨by decide, GetAddressOfSidInHeader_object_fails_iff _ (by decide)⟩

/-! ## Descriptor renderer: properties of `AceType` and `OutputAcl` -/

/-- The function `AceType` has no name exactly for the type values above `0x11`. -/
theorem AceType_eq_none_iff (t : Nat) : AceType t = none ↔ 0x11 < t := by
  constructor
  · intro h
    by_contra hlt
    have hle : t ≤ 17 := by omega
    revert h
    interval_cases t <;> decide
  · intro h
    simp only [AceType, aceTypes, AceType.loop, ACCESS_ALLOWED_ACE_TYPE, ACCESS_DENIED_ACE_TYPE,
      SYSTEM_AUDIT_ACE_TYPE, SYSTEM_ALARM_ACE_TYPE, ACCESS_ALLOWED_COMPOUND_ACE_TYPE,
      ACCESS_ALLOWED_CALLBACK_ACE_TYPE,
      ACCESS_DENIED_CALLBACK_ACE_TYPE, SYSTEM_AUDIT_CALLBACK_ACE_TYPE,
      SYSTEM_ALARM_CALLBACK_ACE_TYPE, SYSTEM_MANDATORY_LABEL_ACE_TYPE,
      ACCESS_ALLOWED_OBJECT_ACE_TYPE, ACCESS_DENIED_OBJECT_ACE_TYPE, SYSTEM_AUDIT_OBJECT_ACE_TYPE,
      SYSTEM_ALARM_OBJECT_ACE_TYPE, ACCESS_ALLOWED_CALLBACK_OBJECT_ACE_TYPE,
      ACCESS_DENIED_CALLBACK_OBJECT_ACE_TYPE, SYSTEM_AUDIT_CALLBACK_OBJECT_ACE_TYPE,
      SYSTEM_ALARM_CALLBACK_OBJECT_ACE_TYPE]
    repeat rw [if_neg (by omega)]

/-- An ACE whose type `AceType` does not name gets no SID location. -/
theorem GetAddressOfSidInHeader_unknown (pAceHeader : List Nat)
    (h : AceType (ACE_HEADER.AceType pAceHeader) = none) :
    GetAddressOfSidInHeader pAceHeader = none := by
  have hlt := (AceType_eq_none_iff _).mp h
  unfold GetAddressOfSidInHeader
  simp only [ACCESS_ALLOWED_ACE_TYPE, ACCESS_DENIED_ACE_TYPE,
    SYSTEM_AUDIT_ACE_TYPE, SYSTEM_ALARM_ACE_TYPE, ACCESS_ALLOWED_CALLBACK_ACE_TYPE,
    ACCESS_DENIED_CALLBACK_ACE_TYPE, SYSTEM_AUDIT_CALLBACK_ACE_TYPE,
    SYSTEM_ALARM_CALLBACK_ACE_TYPE, SYSTEM_MANDATORY_LABEL_ACE_TYPE,
    ACCESS_ALLOWED_OBJECT_ACE_TYPE, ACCESS_DENIED_OBJECT_ACE_TYPE, SYSTEM_AUDIT_OBJECT_ACE_TYPE,
    SYSTEM_ALARM_OBJECT_ACE_TYPE, ACCESS_ALLOWED_CALLBACK_OBJECT_ACE_TYPE,
    ACCESS_DENIED_CALLBACK_OBJECT_ACE_TYPE, SYSTEM_AUDIT_CALLBACK_OBJECT_ACE_TYPE,
    SYSTEM_ALARM_CALLBACK_OBJECT_ACE_TYPE]
  rw [if_neg (by omega), if_neg (by omega)]

/-- C9 as stated fails: for the ACE `exampleUnknownAce` of type `0x12`, which `AceType` does
not name, `GetAddressOfSidInHeader` does not locate the trustee at offset 8 but yields no
location, and the SID line of the block is written with an empty trustee text, although the
bytes at offset 8 are a SID that the sample services resolve (as they do for the same
record with type 0). -/
theorem OutputAcl_unknown_type_counterexample :
    AceType (ACE_HEADER.AceType exampleUnknownAce) = none ∧
    GetAddressOfSidInHeader exampleUnknownAce ≠ some 8 ∧
    SidToText exampleApi (some (exampleUnknownAce.drop 8)) = "Everyone (S-1-1-0)" ∧
    OutputAcl.aceBlock exampleApi none false "" 0 exampleUnknownAce =
      [Chunk.text "", Chunk.text "ACE ", Chunk.dec 0, Chunk.text ".", Chunk.endl,
        Chunk.text "", Chunk.text "    ",
        Chunk.text "[Unknown ACE type: ", Chunk.hex 0x12, Chunk.text "]", Chunk.endl,
        Chunk.text "", Chunk.text "    SID:   ", Chunk.text "", Chunk.endl,
        Chunk.text "", Chunk.text "    Flags: ", Chunk.text "None", Chunk.endl,
        Chunk.text "", Chunk.text "    Perms: [", Chunk.hex 0x001F01FF, Chunk.text "] "] ∧
    OutputAcl.aceBlock exampleApi none false "" 0 exampleAllowedAce =
      [Chunk.text "", Chunk.text "ACE ", Chunk.dec 0, Chunk.text ".", Chunk.endl,
        Chunk.text "", Chunk.text "    ",
        Chunk.text "ACCESS_ALLOWED_ACE_TYPE", Chunk.endl,
        Chunk.text "", Chunk.text "    SID:   ", Chunk.text "Everyone (S-1-1-0)", Chunk.endl,
        Chunk.text "", Chunk.text "    Flags: ", Chunk.text "None", Chunk.endl,
        Chunk.text "", Chunk.text "    Perms: [", Chunk.hex 0x001F01FF, Chunk.text "] "] := by
  refine ⟨by decide, by decide, by decide, by decide, by decide⟩

/-- C9, amended: for every ACE whose type value `AceType` does not name, the block written
by `OutputAcl` reports the type as "[Unknown ACE type: <hex of the raw type>]" and rendering
proceeds with the header flags and with the mask read at the simple-layout position
(offset 4); `GetAddressOfSidInHeader` yields no trustee location for it, so the SID line is
written with an empty trustee text. -/
theorem OutputAcl_unknown_type (os : WinApi) (szObjType : Option String)
    (bOnePermPerLine : Bool) (sIndent : String) (ix : Nat) (pACE : List Nat)
    (h : AceType (ACE_HEADER.AceType pACE) = none) :
    GetAddressOfSidInHeader pACE = none ∧
    OutputAcl.aceBlock os szObjType bOnePermPerLine sIndent ix pACE =
      [Chunk.text sIndent, Chunk.text "ACE ", Chunk.dec ix, Chunk.text ".", Chunk.endl,
        Chunk.text sIndent, Chunk.text "    ",
        Chunk.text "[Unknown ACE type: ", Chunk.hex (byteAt pACE 0), Chunk.text "]", Chunk.endl,
        Chunk.text sIndent, Chunk.text "    SID:   ", Chunk.text "", Chunk.endl,
        Chunk.text sIndent, Chunk.text "    Flags: "] ++
      (if 0 = byteAt pACE 1 then [Chunk.text "None"]
        else [Chunk.text "[", Chunk.hex (byteAt pACE 1), Chunk.text "] "] ++
          OutputFlagsOnOneLine aceFlags (byteAt pACE 1)) ++
      [Chunk.endl, Chunk.text sIndent, Chunk.text "    Perms: [", Chunk.hex (dwordAt pACE 4),
        Chunk.text "] "] ++
      (if bOnePermPerLine then [Chunk.endl] else []) ++
      (match szObjType with
        | some objType => OutputPermissions (dwordAt pACE 4) objType bOnePermPerLine sIndent
        | none => []) := by
  have hnone := GetAddressOfSidInHeader_unknown pACE h
  refine ⟨hnone, ?_⟩
  unfold OutputAcl.aceBlock
  rw [h, hnone]
  simp only [Option.map_none', SidToText, ACE_HEADER.AceType, ACE_HEADER.AceFlags,
    ACCESS_ALLOWED_ACE.Mask, List.append_assoc, List.cons_append, List.nil_append]

/-- C9 amended, at the ACE `exampleUnknownAce` of type `0x12`. -/
theorem OutputAcl_unknown_type_witness :
    AceType (ACE_HEADER.AceType exampleUnknownAce) = none ∧
    GetAddressOfSidInHeader exampleUnknownAce = none ∧
    emittedNames (OutputAcl.aceBlock exampleApi (some "file") false "" 0 exampleUnknownAce) =
      ["FILE_ALL_ACCESS"] :=
  ⟨by decide,
    (OutputAcl_unknown_type exampleApi (some "file") false "" 0 exampleUnknownAce
      (by decide)).1,
    by decide⟩

/-- The loop of `OutputAcl` appends, for each index in turn, the block of that index. -/
theorem OutputAcl_loop_eq (os : WinApi) (pAcl : ACL) (szObjType : Option String) (b : Bool)
    (ind : String) : ∀ (fuel ix : Nat) (sOut : List Chunk),
    OutputAcl.loop os pAcl szObjType b ind fuel ix sOut =
      sOut ++ (List.range fuel).flatMap
        (fun k => OutputAcl.entryBlock os szObjType b ind (ix + k) (pAcl.GetAce (ix + k))) := by
  intro fuel
  induction fuel with
  | zero => intro ix sOut; simp [OutputAcl.loop]
  | succ n ih =>
    intro ix sOut
    unfold OutputAcl.loop
    rw [ih (ix + 1), List.range_succ_eq_map, List.flatMap_cons, List.flatMap_map,
      List.append_assoc]
    simp only [Nat.add_zero, Function.comp_def, Nat.succ_eq_add_one]
    have hk : ∀ k, ix + 1 + k = ix + (k + 1) := fun k => by omega
    simp only [hk]

/-- C10: for a present, valid ACL whose `AceCount` is `n ≥ 1`, `OutputAcl` writes the line
with the ACE count `n` and then exactly one block per index `i = 0, 1, ..., n-1`, in this
order, where block `i` is determined by `i` and the result of fetching entry `i` alone.
The block of a fetched entry is headed "ACE i.", also when its trustee cannot be located;
the block of an entry whose fetch fails is the single line "GetAce (i) error: ...". So a
failure at entry `i` affects only block `i` and all later entries are still rendered. -/
theorem OutputAcl_one_block_per_entry (os : WinApi) (bDacl : Bool) (pSD : SECURITY_DESCRIPTOR)
    (szObjType : Option String) (bOnePermPerLine : Bool) (sIndent : String) (acl : ACL)
    (n : Nat)
    (hget : (if bDacl then pSD.GetSecurityDescriptorDacl else pSD.GetSecurityDescriptorSacl) =
      Except.ok (true, some acl))
    (hvalid : acl.IsValidAcl = true) (hinfo : acl.GetAclInformation = Except.ok n)
    (hn : 1 ≤ n) :
    OutputAcl os bDacl pSD szObjType bOnePermPerLine sIndent =
      [Chunk.text sIndent, Chunk.text "ACEs in ", Chunk.text (if bDacl then "DACL" else "SACL"),
        Chunk.text ":  ", Chunk.dec n, Chunk.endl] ++
      (List.range n).flatMap (fun i =>
        OutputAcl.entryBlock os szObjType bOnePermPerLine sIndent i (acl.GetAce i)) ∧
    (∀ (i : Nat) (pACE : List Nat),
      [Chunk.text sIndent, Chunk.text "ACE ", Chunk.dec i, Chunk.text ".", Chunk.endl] <+:
        OutputAcl.entryBlock os szObjType bOnePermPerLine sIndent i (Except.ok pACE)) ∧
    (∀ (i dwLastErr : Nat),
      OutputAcl.entryBlock os szObjType bOnePermPerLine sIndent i (Except.error dwLastErr) =
        [Chunk.text "GetAce (", Chunk.dec i, Chunk.text ") error: ", Chunk.sysErr dwLastErr,
          Chunk.endl]) := by
  refine ⟨?_, ?_, ?_⟩
  · unfold OutputAcl
    rw [hget]
    have hn0 : ¬ (0 = n) := by omega
    simp only [Bool.not_true, hvalid, hinfo, hn0, if_false, Bool.false_eq_true]
    rw [OutputAcl_loop_eq]
    simp only [Nat.zero_add]
  · intro i pACE
    unfold OutputAcl.entryBlock OutputAcl.aceBlock
    simp only [List.cons_append, List.append_assoc, List.nil_append]
    exact ⟨_, rfl⟩
  · intro i e
    rfl

/-- C10, at the DACL `exampleAcl` of three entries: the trustee of entry 0 cannot be located
and the fetch of entry 1 fails, and entry 2 is still rendered after them. -/
theorem OutputAcl_one_block_per_entry_witness :
    GetAddressOfSidInHeader exampleMalformedObjectAce = none ∧
    OutputAcl exampleApi true exampleDescriptor none false "" =
      [Chunk.text "", Chunk.text "ACEs in ", Chunk.text "DACL", Chunk.text ":  ", Chunk.dec 3,
        Chunk.endl] ++
      (List.range 3).flatMap (fun i =>
        OutputAcl.entryBlock exampleApi none false "" i (exampleAcl.GetAce i)) ∧
    OutputAcl exampleApi true exampleDescriptor none false "" =
      [Chunk.text "", Chunk.text "ACEs in ", Chunk.text "DACL", Chunk.text ":  ", Chunk.dec 3,
        Chunk.endl,
        Chunk.text "", Chunk.text "ACE ", Chunk.dec 0, Chunk.text ".", Chunk.endl,
        Chunk.text "", Chunk.text "    ", Chunk.text "ACCESS_ALLOWED_OBJECT_ACE_TYPE", Chunk.endl,
        Chunk.text "", Chunk.text "    SID:   ", Chunk.text "", Chunk.endl,
        Chunk.text "", Chunk.text "    Flags: ", Chunk.text "None", Chunk.endl,
        Chunk.text "", Chunk.text "    Perms: [", Chunk.hex 0x100, Chunk.text "] ",
        Chunk.text "GetAce (", Chunk.dec 1, Chunk.text ") error: ", Chunk.sysErr 87, Chunk.endl,
        Chunk.text "", Chunk.text "ACE ", Chunk.dec 2, Chunk.text ".", Chunk.endl,
        Chunk.text "", Chunk.text "    ", Chunk.text "ACCESS_ALLOWED_ACE_TYPE", Chunk.endl,
        Chunk.text "", Chunk.text "    SID:   ", Chunk.text "Everyone (S-1-1-0)", Chunk.endl,
        Chunk.text "", Chunk.text "    Flags: ", Chunk.text "None", Chunk.endl,
        Chunk.text "", Chunk.text "    Perms: [", Chunk.hex 0x001F01FF, Chunk.text "] "] :=
  ⟨by decide,
    (OutputAcl_one_block_per_entry exampleApi true exampleDescriptor none false "" exampleAcl 3
      rfl rfl rfl (by decide)).1,
    by decide⟩

/-! ## Descriptor renderer: the states of a DACL -/

theorem render_append (fmt : Formatting) (a b : List Chunk) :
    render fmt (a ++ b) = render fmt a ++ render fmt b := by
  induction a with
  | nil => simp [render]
  | cons c cs ih => simp [render, ih, String.append_assoc]

/-- An ACL that is not present is rendered as nothing. -/
theorem OutputAcl_not_present (os : WinApi) (bDacl : Bool) (pSD : SECURITY_DESCRIPTOR)
    (pAcl : Option ACL) (szObjType : Option String) (b : Bool) (ind : String)
    (h : (if bDacl then pSD.GetSecurityDescriptorDacl else pSD.GetSecurityDescriptorSacl) =
      Except.ok (false, pAcl)) :
    OutputAcl os bDacl pSD szObjType b ind = [] := by
  unfold OutputAcl
  rw [h]
  simp

/-- The chunks written for a DACL that is present and null. -/
theorem OutputAcl_null_dacl_chunks (os : WinApi) (pSD : SECURITY_DESCRIPTOR)
    (szObjType : Option String) (b : Bool) (ind : String)
    (h : pSD.GetSecurityDescriptorDacl = Except.ok (true, none)) :
    OutputAcl os true pSD szObjType b ind =
      [Chunk.text ind, Chunk.text "NULL DACL (implicit Everyone/FullControl)", Chunk.endl] := by
  unfold OutputAcl
  simp [h]

/-- The chunks written for a DACL that is present, valid and has zero entries. -/
theorem OutputAcl_empty_dacl_chunks (os : WinApi) (pSD : SECURITY_DESCRIPTOR) (acl : ACL)
    (szObjType : Option String) (b : Bool) (ind : String)
    (h : pSD.GetSecurityDescriptorDacl = Except.ok (true, some acl))
    (hvalid : acl.IsValidAcl = true) (hcount : acl.GetAclInformation = Except.ok 0) :
    OutputAcl os true pSD szObjType b ind =
      [Chunk.text ind, Chunk.text "ACEs in ", Chunk.text "DACL", Chunk.text ":  ", Chunk.dec 0,
        Chunk.endl, Chunk.text ind, Chunk.text "Empty DACL (implicit Deny-All)", Chunk.endl] := by
  unfold OutputAcl
  simp [h, hvalid, hcount]

theorem render_null_dacl (fmt : Formatting) (ind : String) :
    render fmt
      [Chunk.text ind, Chunk.text "NULL DACL (implicit Everyone/FullControl)", Chunk.endl] =
      ind ++ "NULL DACL (implicit Everyone/FullControl)\n" := by
  apply String.ext
  simp only [render, Chunk.render, String.data_append]
  rfl

theorem render_empty_dacl (fmt : Formatting) (ind : String) :
    render fmt
      [Chunk.text ind, Chunk.text "ACEs in ", Chunk.text "DACL", Chunk.text ":  ", Chunk.dec 0,
        Chunk.endl, Chunk.text ind, Chunk.text "Empty DACL (implicit Deny-All)", Chunk.endl] =
      ind ++ "ACEs in DACL:  0\n" ++ ind ++ "Empty DACL (implicit Deny-All)\n" := by
  apply String.ext
  simp only [render, Chunk.render, String.data_append, List.append_assoc]
  rfl

theorem null_dacl_text_ne_empty_dacl_text (ind : String) :
    ind ++ "NULL DACL (implicit Everyone/FullControl)\n" ≠
      ind ++ "ACEs in DACL:  0\n" ++ ind ++ "Empty DACL (implicit Deny-All)\n" := by
  intro h
  have hd := congrArg String.data h
  simp only [String.data_append, List.append_assoc] at hd
  have hh := congrArg List.head? (List.append_cancel_left hd)
  simp at hh

theorem empty_text_ne_append (ind t : String) (ht : t.data ≠ []) : "" ≠ ind ++ t := by
  intro h
  have hd := congrArg String.data h
  simp only [String.data_append] at hd
  have hnil : ind.data ++ t.data = [] := hd.symm
  exact ht (List.append_eq_nil.mp hnil).2

/-- C11: a DACL that is present with a null ACL is rendered by `OutputAcl` as the indent and
the single label "NULL DACL (implicit Everyone/FullControl)", with no ACE count line; a DACL
that is present, valid and has zero entries is rendered as the line "ACEs in DACL:  0"
followed by the line "Empty DACL (implicit Deny-All)"; the texts of the two renderings are
different for every indent. -/
theorem OutputAcl_null_vs_empty_dacl (os : WinApi) (pNull pEmpty : SECURITY_DESCRIPTOR)
    (acl : ACL) (szObjType : Option String) (bOnePermPerLine : Bool) (sIndent : String)
    (fmt : Formatting)
    (hnull : pNull.GetSecurityDescriptorDacl = Except.ok (true, none))
    (hempty : pEmpty.GetSecurityDescriptorDacl = Except.ok (true, some acl))
    (hvalid : acl.IsValidAcl = true) (hcount : acl.GetAclInformation = Except.ok 0) :
    OutputAcl os true pNull szObjType bOnePermPerLine sIndent =
      [Chunk.text sIndent, Chunk.text "NULL DACL (implicit Everyone/FullControl)",
        Chunk.endl] ∧
    OutputAcl os true pEmpty szObjType bOnePermPerLine sIndent =
      [Chunk.text sIndent, Chunk.text "ACEs in ", Chunk.text "DACL", Chunk.text ":  ",
        Chunk.dec 0, Chunk.endl,
        Chunk.text sIndent, Chunk.text "Empty DACL (implicit Deny-All)", Chunk.endl] ∧
    render fmt (OutputAcl os true pNull szObjType bOnePermPerLine sIndent) =
      sIndent ++ "NULL DACL (implicit Everyone/FullControl)\n" ∧
    render fmt (OutputAcl os true pEmpty szObjType bOnePermPerLine sIndent) =
      sIndent ++ "ACEs in DACL:  0\n" ++ sIndent ++ "Empty DACL (implicit Deny-All)\n" ∧
    render fmt (OutputAcl os true pNull szObjType bOnePermPerLine sIndent) ≠
      render fmt (OutputAcl os true pEmpty szObjType bOnePermPerLine sIndent) := by
  have h1 := OutputAcl_null_dacl_chunks os pNull szObjType bOnePermPerLine sIndent hnull
  have h2 := OutputAcl_empty_dacl_chunks os pEmpty acl szObjType bOnePermPerLine sIndent hempty
    hvalid hcount
  refine ⟨h1, h2, ?_, ?_, ?_⟩
  · rw [h1, render_null_dacl]
  · rw [h2, render_empty_dacl]
  · rw [h1, h2, render_null_dacl, render_empty_dacl]
    exact null_dacl_text_ne_empty_dacl_text sIndent

/-- C11, at the sample descriptors with a null DACL and with an empty DACL, indent of two
blanks. -/
theorem OutputAcl_null_vs_empty_dacl_witness :
    render exampleFormatting (OutputAcl exampleApi true exampleNullDaclDescriptor none false "  ") =
      "  " ++ "NULL DACL (implicit Everyone/FullControl)\n" ∧
    render exampleFormatting
        (OutputAcl exampleApi true exampleEmptyDaclDescriptor none false "  ") =
      "  " ++ "ACEs in DACL:  0\n" ++ "  " ++ "Empty DACL (implicit Deny-All)\n" ∧
    render exampleFormatting (OutputAcl exampleApi true exampleNullDaclDescriptor none false "  ") ≠
      render exampleFormatting
        (OutputAcl exampleApi true exampleEmptyDaclDescriptor none false "  ") :=
  (OutputAcl_null_vs_empty_dacl exampleApi exampleNullDaclDescriptor exampleEmptyDaclDescriptor
    exampleEmptyAcl none false "  " exampleFormatting rfl rfl rfl rfl).2.2

/-- C12 as stated fails: for the sample descriptor whose DACL is absent, `OutputAcl` writes
nothing at all, so this state is rendered without any label. -/
theorem OutputAcl_three_states_counterexample :
    exampleAbsentDaclDescriptor.GetSecurityDescriptorDacl = Except.ok (false, none) ∧
    OutputAcl exampleApi true exampleAbsentDaclDescriptor none false "" = [] ∧
    render exampleFormatting (OutputAcl exampleApi true exampleAbsentDaclDescriptor none false "")
      = "" := by
  refine ⟨rfl, by decide, by decide⟩

/-- C12, amended: the renderer distinguishes the three DACL states. For an absent DACL
(present bit not set) `OutputAcl` writes nothing, so this state has no label; for a
present-but-null DACL it writes the label "NULL DACL (implicit Everyone/FullControl)"; for a
present DACL with zero entries it writes the count line and the label
"Empty DACL (implicit Deny-All)". The texts of the three outputs are pairwise different. -/
theorem OutputAcl_three_states (os : WinApi) (pAbsent pNull pEmpty : SECURITY_DESCRIPTOR)
    (pAcl : Option ACL) (acl : ACL) (szObjType : Option String) (bOnePermPerLine : Bool)
    (sIndent : String) (fmt : Formatting)
    (habsent : pAbsent.GetSecurityDescriptorDacl = Except.ok (false, pAcl))
    (hnull : pNull.GetSecurityDescriptorDacl = Except.ok (true, none))
    (hempty : pEmpty.GetSecurityDescriptorDacl = Except.ok (true, some acl))
    (hvalid : acl.IsValidAcl = true) (hcount : acl.GetAclInformation = Except.ok 0) :
    OutputAcl os true pAbsent szObjType bOnePermPerLine sIndent = [] ∧
    render fmt (OutputAcl os true pAbsent szObjType bOnePermPerLine sIndent) = "" ∧
    render fmt (OutputAcl os true pNull szObjType bOnePermPerLine sIndent) =
      sIndent ++ "NULL DACL (implicit Everyone/FullControl)\n" ∧
    render fmt (OutputAcl os true pEmpty szObjType bOnePermPerLine sIndent) =
      sIndent ++ "ACEs in DACL:  0\n" ++ sIndent ++ "Empty DACL (implicit Deny-All)\n" ∧
    render fmt (OutputAcl os true pAbsent szObjType bOnePermPerLine sIndent) ≠
      render fmt (OutputAcl os true pNull szObjType bOnePermPerLine sIndent) ∧
    render fmt (OutputAcl os true pAbsent szObjType bOnePermPerLine sIndent) ≠
      render fmt (OutputAcl os true pEmpty szObjType bOnePermPerLine sIndent) ∧
    render fmt (OutputAcl os true pNull szObjType bOnePermPerLine sIndent) ≠
      render fmt (OutputAcl os true pEmpty szObjType bOnePermPerLine sIndent) := by
  have h0 := OutputAcl_not_present os true pAbsent pAcl szObjType bOnePermPerLine sIndent
    (by simpa using habsent)
  have h1 := OutputAcl_null_dacl_chunks os pNull szObjType bOnePermPerLine sIndent hnull
  have h2 := OutputAcl_empty_dacl_chunks os pEmpty acl szObjType bOnePermPerLine sIndent hempty
    hvalid hcount
  rw [h0, h1, h2, render_null_dacl, render_empty_dacl]
  refine ⟨rfl, rfl, rfl, rfl, ?_, ?_, null_dacl_text_ne_empty_dacl_text sIndent⟩
  · exact empty_text_ne_append sIndent _ (by decide)
  · rw [String.append_assoc, String.append_assoc]
    exact empty_text_ne_append sIndent _ (by simp)

/-- C12 amended, at the three sample descriptors. -/
theorem OutputAcl_three_states_witness :
    OutputAcl exampleApi true exampleAbsentDaclDescriptor (some "file") true "  " = [] ∧
    render exampleFormatting
      (OutputAcl exampleApi true exampleAbsentDaclDescriptor (some "file") true "  ") = "" ∧
    render exampleFormatting
      (OutputAcl exampleApi true exampleNullDaclDescriptor (some "file") true "  ") =
      "  " ++ "NULL DACL (implicit Everyone/FullControl)\n" ∧
    render exampleFormatting
      (OutputAcl exampleApi true exampleEmptyDaclDescriptor (some "file") true "  ") =
      "  " ++ "ACEs in DACL:  0\n" ++ "  " ++ "Empty DACL (implicit Deny-All)\n" :=
  have h := OutputAcl_three_states exampleApi exampleAbsentDaclDescriptor
    exampleNullDaclDescriptor exampleEmptyDaclDescriptor none exampleEmptyAcl (some "file") true
    "  " exampleFormatting rfl rfl rfl rfl rfl
  ⟨h.1, h.2.1, h.2.2.1, h.2.2.2.1⟩

/-! ## Descriptor renderer: the control flags -/

theorem emittedPerms_OutputFlagsOnOneLine (tbl : List flags_t) (dwFlags : Nat) :
    emittedPerms (OutputFlagsOnOneLine tbl dwFlags) = [] := by
  induction tbl with
  | nil => rfl
  | cons f fs ih =>
    unfold OutputFlagsOnOneLine
    split
    · simp only [emittedPerms]; exact ih
    · exact ih

/-- The block of an ACE rendered with an object-type tag is the block rendered without a
tag followed by the output of `OutputPermissions` for the mask of the ACE. -/
theorem aceBlock_with_tag (os : WinApi) (tag : String) (b : Bool) (ind : String) (ix : Nat)
    (pACE : List Nat) :
    OutputAcl.aceBlock os (some tag) b ind ix pACE =
      OutputAcl.aceBlock os none b ind ix pACE ++
        OutputPermissions (ACCESS_ALLOWED_ACE.Mask pACE) tag b ind := by
  unfold OutputAcl.aceBlock
  simp only [List.append_nil]

/-- The block of an ACE rendered without an object-type tag: type, trustee, flags and raw
mask. -/
theorem aceBlock_without_tag (os : WinApi) (b : Bool) (ind : String) (ix : Nat)
    (pACE : List Nat) :
    OutputAcl.aceBlock os none b ind ix pACE =
      [Chunk.text ind, Chunk.text "ACE ", Chunk.dec ix, Chunk.text ".", Chunk.endl,
        Chunk.text ind, Chunk.text "    "] ++
      (match AceType (ACE_HEADER.AceType pACE) with
        | some szAceType => [Chunk.text szAceType]
        | none =>
          [Chunk.text "[Unknown ACE type: ", Chunk.hex (ACE_HEADER.AceType pACE),
            Chunk.text "]"]) ++
      [Chunk.endl, Chunk.text ind, Chunk.text "    SID:   ",
        Chunk.text (SidToText os ((GetAddressOfSidInHeader pACE).map (fun off => pACE.drop off))),
        Chunk.endl, Chunk.text ind, Chunk.text "    Flags: "] ++
      (if 0 = ACE_HEADER.AceFlags pACE then [Chunk.text "None"]
        else
          [Chunk.text "[", Chunk.hex (ACE_HEADER.AceFlags pACE), Chunk.text "] "] ++
            OutputFlagsOnOneLine aceFlags (ACE_HEADER.AceFlags pACE)) ++
      [Chunk.endl, Chunk.text ind, Chunk.text "    Perms: [",
        Chunk.hex (ACCESS_ALLOWED_ACE.Mask pACE), Chunk.text "] "] ++
      (if b then [Chunk.endl] else []) := by
  unfold OutputAcl.aceBlock
  simp only [List.append_nil, List.append_assoc, List.cons_append, List.nil_append]

theorem emittedPerms_aceBlock_without_tag (os : WinApi) (b : Bool) (ind : String) (ix : Nat)
    (pACE : List Nat) :
    emittedPerms (OutputAcl.aceBlock os none b ind ix pACE) = [] := by
  rw [aceBlock_without_tag]
  simp only [emittedPerms_append]
  have h1 : emittedPerms (match AceType (ACE_HEADER.AceType pACE) with
      | some szAceType => [Chunk.text szAceType]
      | none =>
        [Chunk.text "[Unknown ACE type: ", Chunk.hex (ACE_HEADER.AceType pACE),
          Chunk.text "]"]) = [] := by
    split <;> rfl
  have h2 : emittedPerms (if 0 = ACE_HEADER.AceFlags pACE then [Chunk.text "None"]
      else
        [Chunk.text "[", Chunk.hex (ACE_HEADER.AceFlags pACE), Chunk.text "] "] ++
          OutputFlagsOnOneLine aceFlags (ACE_HEADER.AceFlags pACE)) = [] := by
    split
    · rfl
    · rw [emittedPerms_append, emittedPerms_OutputFlagsOnOneLine]; rfl
  have h3 : emittedPerms (if b then [Chunk.endl] else []) = [] := by
    split <;> rfl
  rw [h1, h2, h3]
  rfl

theorem byteAt_lt (rec : List Nat) (off : Nat) : byteAt rec off < 256 := by
  unfold byteAt
  exact Nat.mod_lt _ (by decide)

theorem dwordAt_lt (rec : List Nat) (off : Nat) : dwordAt rec off < 2 ^ 32 := by
  unfold dwordAt
  have h0 := byteAt_lt rec off
  have h1 := byteAt_lt rec (off + 1)
  have h2 := byteAt_lt rec (off + 2)
  have h3 := byteAt_lt rec (off + 3)
  omega

/-- C16 as stated fails: for the sample ACEs of the unknown type `0x12` rendered with the
recognized tag "file", the mask `0x001F01FF` is rendered with the aggregate name
`FILE_ALL_ACCESS` and the mask `0x00000003` with the object-specific names `FILE_READ_DATA`
and `FILE_WRITE_DATA`; none of these rows is a generic or standard one. -/
theorem OutputAcl_unknown_type_permissions_counterexample :
    AceType (ACE_HEADER.AceType exampleUnknownAce) = none ∧
    AceType (ACE_HEADER.AceType exampleUnknownReadWriteAce) = none ∧
    GetPermsForType "file" = some (some fileSpecific, some fileMatch) ∧
    emittedNames (OutputAcl.aceBlock exampleApi (some "file") false "" 0 exampleUnknownAce) =
      ["FILE_ALL_ACCESS"] ∧
    (∀ p ∈ emittedPerms (OutputAcl.aceBlock exampleApi (some "file") false "" 0
        exampleUnknownAce), p ∈ fileMatch ∧ p ∉ genericMask ++ standardMask) ∧
    emittedNames (OutputAcl.aceBlock exampleApi (some "file") false "" 0
        exampleUnknownReadWriteAce) = ["FILE_READ_DATA", "FILE_WRITE_DATA"] ∧
    (∀ p ∈ emittedPerms (OutputAcl.aceBlock exampleApi (some "file") false "" 0
        exampleUnknownReadWriteAce), p ∈ fileSpecific ∧ p ∉ genericMask ++ standardMask) := by
  refine ⟨by decide, by decide, by decide, by decide, by decide, by decide, by decide⟩

/-- C16, amended: `OutputAcl` renders the mask of an ACE in the same way whatever the type
of the ACE, so also for an ACE of unknown type. With a recognized object-type tag the block
is the block without tag, which shows the raw mask in hex, followed by the full output of
`OutputPermissions` for the mask: the rows named are the aggregate row when the mask equals
one, and otherwise the rows of the decomposition over the generic, the object-specific and
the standard table. -/
theorem OutputAcl_permissions_any_type (os : WinApi) (tag : String) (bOnePermPerLine : Bool)
    (sIndent : String) (ix : Nat) (pACE : List Nat) (pSpecific pMatch : Option (List perm_t))
    (hrec : GetPermsForType tag = some (pSpecific, pMatch)) :
    OutputAcl.aceBlock os (some tag) bOnePermPerLine sIndent ix pACE =
      OutputAcl.aceBlock os none bOnePermPerLine sIndent ix pACE ++
        OutputPermissions (ACCESS_ALLOWED_ACE.Mask pACE) tag bOnePermPerLine sIndent ∧
    Chunk.hex (ACCESS_ALLOWED_ACE.Mask pACE) ∈
      OutputAcl.aceBlock os none bOnePermPerLine sIndent ix pACE ∧
    emittedPerms (OutputAcl.aceBlock os (some tag) bOnePermPerLine sIndent ix pACE) =
      (match pMatch.bind (OutputPermissions.exactMatch (ACCESS_ALLOWED_ACE.Mask pACE)) with
        | some pPerm => [pPerm]
        | none =>
          (specDecompose (genericMask ++ pSpecific.getD [] ++ standardMask)
            (ACCESS_ALLOWED_ACE.Mask pACE)).1) := by
  refine ⟨aceBlock_with_tag os tag bOnePermPerLine sIndent ix pACE, ?_, ?_⟩
  · rw [aceBlock_without_tag]
    simp
  · rw [aceBlock_with_tag, emittedPerms_append, emittedPerms_aceBlock_without_tag,
      List.nil_append,
      OutputPermissions_recognized _ tag bOnePermPerLine sIndent pSpecific pMatch hrec]
    cases pMatch.bind (OutputPermissions.exactMatch (ACCESS_ALLOWED_ACE.Mask pACE)) with
    | some p => rfl
    | none =>
      have hlt : ACCESS_ALLOWED_ACE.Mask pACE < 2 ^ 32 := dwordAt_lt pACE 4
      simp only []
      rw [emittedPerms_decompose _ _ _ _ _ hlt]
      rfl

/-- C16 amended, at the sample ACE of the unknown type `0x12` with tag "file". -/
theorem OutputAcl_permissions_any_type_witness :
    GetPermsForType "file" = some (some fileSpecific, some fileMatch) ∧
    Chunk.hex (ACCESS_ALLOWED_ACE.Mask exampleUnknownAce) ∈
      OutputAcl.aceBlock exampleApi none false "" 0 exampleUnknownAce :=
  ⟨by decide,
    (OutputAcl_permissions_any_type exampleApi "file" false "" 0 exampleUnknownAce
      (some fileSpecific) (some fileMatch) (by decide)).2.1⟩

/-! ## Registry of object types: properties of `GetPermsForType` -/

theorem char_eq_of_toNat_eq (a b : Char) (h : a.toNat = b.toNat) : a = b := by
  apply Char.ext
  apply UInt32.eq_of_val_eq
  apply Fin.ext
  exact h

/-- The comparison loop of `_wcsicmp` yields `0` exactly when the two character sequences
are equal after lower-casing. -/
theorem wcsicmp_loop_eq_zero_iff : ∀ a b : List Char,
    _wcsicmp.loop a b = 0 ↔ a.map towlower = b.map towlower := by
  intro a
  induction a with
  | nil =>
    intro b
    cases b with
    | nil => simp [_wcsicmp.loop]
    | cons y ys => simp [_wcsicmp.loop]
  | cons x xs ih =>
    intro b
    cases b with
    | nil => simp [_wcsicmp.loop]
    | cons y ys =>
      unfold _wcsicmp.loop
      by_cases hxy : (towlower x).toNat = (towlower y).toNat
      · have hc : towlower x = towlower y := char_eq_of_toNat_eq _ _ hxy
        simp only [hxy, if_true, List.map_cons, hc, List.cons.injEq, true_and]
        exact ih ys
      · have hc : ¬ towlower x = towlower y := fun h => hxy (by rw [h])
        simp only [hxy, if_false, List.map_cons, List.cons.injEq, hc, false_and, iff_false]
        split <;> decide

theorem wcsicmp_eq_zero_iff (a b : String) : 0 = _wcsicmp a b ↔ foldCase a = foldCase b := by
  unfold _wcsicmp foldCase
  rw [eq_comm, wcsicmp_loop_eq_zero_iff]
  exact ⟨fun h => congrArg String.mk h, fun h => congrArg String.data h⟩

/-- The function `GetPermsForType` looks at its argument through `foldCase` only. -/
theorem GetPermsForType_congr (s t : String) (h : foldCase s = foldCase t) :
    GetPermsForType s = GetPermsForType t := by
  have hw : ∀ lit, (0 = _wcsicmp s lit) = (0 = _wcsicmp t lit) := by
    intro lit; rw [wcsicmp_eq_zero_iff, wcsicmp_eq_zero_iff, h]
  unfold GetPermsForType
  simp only [hw]

/-- The function `GetPermsForType` recognizes exactly the strings that are one of the 18
tags after lower-casing. -/
theorem GetPermsForType_isSome_iff (s : String) :
    (GetPermsForType s).isSome = true ↔ foldCase s ∈ objectTypeTags := by
  unfold GetPermsForType
  generalize hk : foldCase s = k
  have hw : ∀ lit, (0 = _wcsicmp s lit) = (k = foldCase lit) := by
    intro lit; rw [wcsicmp_eq_zero_iff, hk]
  simp only [hw]
  clear hw hk
  by_cases h0 : k = foldCase "file"
  · rw [if_pos h0]; subst h0; decide
  rw [if_neg h0]
  by_cases h1 : k = foldCase "dir"
  · rw [if_pos h1]; subst h1; decide
  rw [if_neg h1]
  by_cases h2 : k = foldCase "pipe"
  · rw [if_pos h2]; subst h2; decide
  rw [if_neg h2]
  by_cases h3 : k = foldCase "key"
  · rw [if_pos h3]; subst h3; decide
  rw [if_neg h3]
  by_cases h4 : k = foldCase "share"
  · rw [if_pos h4]; subst h4; decide
  rw [if_neg h4]
  by_cases h5 : k = foldCase "process"
  · rw [if_pos h5]; subst h5; decide
  rw [if_neg h5]
  by_cases h6 : k = foldCase "thread"
  · rw [if_pos h6]; subst h6; decide
  rw [if_neg h6]
  by_cases h7 : k = foldCase "service"
  · rw [if_pos h7]; subst h7; decide
  rw [if_neg h7]
  by_cases h8 : k = foldCase "scm"
  · rw [if_pos h8]; subst h8; decide
  rw [if_neg h8]
  by_cases h9 : k = foldCase "com"
  · rw [if_pos h9]; subst h9; decide
  rw [if_neg h9]
  by_cases h10 : k = foldCase "winsta"
  · rw [if_pos h10]; subst h10; decide
  rw [if_neg h10]
  by_cases h11 : k = foldCase "desktop"
  · rw [if_pos h11]; subst h11; decide
  rw [if_neg h11]
  by_cases h12 : k = foldCase "section"
  · rw [if_pos h12]; subst h12; decide
  rw [if_neg h12]
  by_cases h13 : k = foldCase "filemap"
  · rw [if_pos h13]; subst h13; decide
  rw [if_neg h13]
  by_cases h14 : k = foldCase "evt"
  · rw [if_pos h14]; subst h14; decide
  rw [if_neg h14]
  by_cases h15 : k = foldCase "token"
  · rw [if_pos h15]; subst h15; decide
  rw [if_neg h15]
  by_cases h16 : k = foldCase "ntds"
  · rw [if_pos h16]; subst h16; decide
  rw [if_neg h16]
  by_cases h17 : k = foldCase "standard"
  · rw [if_pos h17]; subst h17; decide
  rw [if_neg h17]
  simp only [Option.isSome_none, Bool.false_eq_true, false_iff]
  intro hmem
  simp only [objectTypeTags, List.mem_cons, List.mem_singleton, List.mem_nil_iff,
    or_false] at hmem
  rcases hmem with h | h | h | h | h | h | h | h | h | h | h | h | h | h | h | h | h | h
  all_goals subst h
  all_goals first
    | exact h0 (by decide) | exact h1 (by decide) | exact h2 (by decide)
    | exact h3 (by decide) | exact h4 (by decide) | exact h5 (by decide)
    | exact h6 (by decide) | exact h7 (by decide) | exact h8 (by decide)
    | exact h9 (by decide) | exact h10 (by decide) | exact h11 (by decide)
    | exact h12 (by decide) | exact h13 (by decide) | exact h14 (by decide)
    | exact h15 (by decide) | exact h16 (by decide) | exact h17 (by decide)

theorem GetPermsForType_outputs_fst (s : String) :
    (GetPermsForType.outputs s).1 = (GetPermsForType s).isSome := by
  unfold GetPermsForType.outputs
  cases GetPermsForType s with
  | none => rfl
  | some r => rfl

/-- C15: `GetPermsForType` succeeds if and only if its argument equals, ignoring letter
case, one of the 18 compiled-in tags file, dir, pipe, key, share, process, thread, service,
scm, com, winsta, desktop, section, filemap, evt, token, ntds, standard; what it returns
depends only on the case-folded argument; and for every other argument it returns `false`
with both output tables null. -/
theorem GetPermsForType_recognizes (s t : String) :
    ((GetPermsForType.outputs s).1 = true ↔ foldCase s ∈ objectTypeTags) ∧
    (foldCase s = foldCase t → GetPermsForType.outputs s = GetPermsForType.outputs t) ∧
    (foldCase s ∉ objectTypeTags → GetPermsForType.outputs s = (false, none, none)) ∧
    objectTypeTags.length = 18 ∧ (∀ tag ∈ objectTypeTags, foldCase tag = tag) := by
  refine ⟨?_, ?_, ?_, rfl, by decide⟩
  · rw [GetPermsForType_outputs_fst]
    exact GetPermsForType_isSome_iff s
  · intro h
    unfold GetPermsForType.outputs
    rw [GetPermsForType_congr s t h]
  · intro h
    have hnone : GetPermsForType s = none := by
      have := (GetPermsForType_isSome_iff s).not.mpr h
      cases hg : GetPermsForType s with
      | none => rfl
      | some r => rw [hg] at this; simp at this
    unfold GetPermsForType.outputs
    rw [hnone]

/-- C15, at the arguments "FiLe" and "file", and at "bogus". -/
theorem GetPermsForType_recognizes_witness :
    foldCase "FiLe" = foldCase "file" ∧
    GetPermsForType.outputs "FiLe" = (true, some fileSpecific, some fileMatch) ∧
    GetPermsForType.outputs "FiLe" = GetPermsForType.outputs "file" ∧
    foldCase "bogus" ∉ objectTypeTags ∧
    GetPermsForType.outputs "bogus" = (false, none, none) :=
  ⟨by decide, by decide,
    (GetPermsForType_recognizes "FiLe" "file").2.1 (by decide),
    by decide,
    (GetPermsForType_recognizes "bogus" "bogus").2.2.1 (by decide)⟩

/-! ## Identity rendering: properties of `SidToText` and `CSid` -/

/-- With the flag `bReturnSidOnFailure` set, `toDomainAndUsername` yields the same name as
without it whenever that name is not empty. -/
theorem toDomainAndUsername_true_of_nonempty (os : WinApi) (sid : CSid)
    (h : sid.toDomainAndUsername os false ≠ "") :
    sid.toDomainAndUsername os true = sid.toDomainAndUsername os false := by
  unfold CSid.toDomainAndUsername at h ⊢
  cases hl : sid.Lookup os with
  | none => rw [hl] at h; simp at h
  | some r => rfl

theorem SidToText_of_empty_name (os : WinApi) (p : List Nat)
    (h : (CSid.ofPSID os (some p)).toDomainAndUsername os false = "") :
    SidToText os (some p) = (CSid.ofPSID os (some p)).toSidString os := by
  unfold SidToText
  simp only [(String.isEmpty_iff _).mpr h, if_true]

theorem SidToText_of_nonempty_name (os : WinApi) (p : List Nat)
    (h : (CSid.ofPSID os (some p)).toDomainAndUsername os false ≠ "") :
    SidToText os (some p) =
      (CSid.ofPSID os (some p)).toDomainAndUsername os false ++ " (" ++
        (CSid.ofPSID os (some p)).toSidString os ++ ")" := by
  have hne : ¬ ((CSid.ofPSID os (some p)).toDomainAndUsername os false).isEmpty = true :=
    fun he => h ((String.isEmpty_iff _).mp he)
  unfold SidToText
  simp only [hne, Bool.false_eq_true, if_false, toDomainAndUsername_true_of_nonempty os _ h]

/-- C17: `SidToText` returns the empty string for a null SID pointer; the SID string of
`toSidString` alone when name resolution yields an empty name; and otherwise exactly the
resolved name, " (", the SID string and ")", where the resolved name is
`domain\username` for a non-empty domain. So when the SID is valid, `LookupAccountSidW`
cannot resolve it and `ConvertSidToStringSidW` gives its string form `s`, the result is `s`,
which is not empty as `s` is not. -/
theorem SidToText_cases (os : WinApi) (p : List Nat) :
    SidToText os none = "" ∧
    ((CSid.ofPSID os (some p)).toDomainAndUsername os false = "" →
      SidToText os (some p) = (CSid.ofPSID os (some p)).toSidString os) ∧
    ((CSid.ofPSID os (some p)).toDomainAndUsername os false ≠ "" →
      SidToText os (some p) =
        (CSid.ofPSID os (some p)).toDomainAndUsername os false ++ " (" ++
          (CSid.ofPSID os (some p)).toSidString os ++ ")") ∧
    (∀ sDomainName sUserName : String, os.IsValidSid p = true →
      os.LookupAccountSidW (p.take (os.GetLengthSid p)) = some (sDomainName, sUserName) →
      sDomainName ≠ "" →
      SidToText os (some p) =
        sDomainName ++ "\\" ++ sUserName ++ " (" ++
          (CSid.ofPSID os (some p)).toSidString os ++ ")") ∧
    (∀ s : String, os.IsValidSid p = true →
      os.LookupAccountSidW (p.take (os.GetLengthSid p)) = none →
      os.ConvertSidToStringSidW (p.take (os.GetLengthSid p)) = some s →
      SidToText os (some p) = s ∧ (s ≠ "" → SidToText os (some p) ≠ "")) := by
  refine ⟨rfl, SidToText_of_empty_name os p, SidToText_of_nonempty_name os p, ?_, ?_⟩
  · intro d u hvalid hlookup hd
    have hname : (CSid.ofPSID os (some p)).toDomainAndUsername os false = d ++ "\\" ++ u := by
      have hde : ¬ d.isEmpty = true := fun he => hd ((String.isEmpty_iff _).mp he)
      simp only [CSid.toDomainAndUsername, CSid.Lookup, CSid.ofPSID, hvalid, if_true, hlookup,
        hde, Bool.false_eq_true, if_false]
    have hne : (CSid.ofPSID os (some p)).toDomainAndUsername os false ≠ "" := by
      rw [hname]
      intro he
      have hdata := congrArg String.data he
      simp only [String.data_append] at hdata
      have h2 : d.data = [] := by
        have := List.append_eq_nil.mp hdata
        exact (List.append_eq_nil.mp this.1).1
      exact hd (String.ext h2)
    rw [SidToText_of_nonempty_name os p hne, hname]
  · intro s hvalid hlookup hconv
    have hname : (CSid.ofPSID os (some p)).toDomainAndUsername os false = "" := by
      simp only [CSid.toDomainAndUsername, CSid.Lookup, CSid.ofPSID, hvalid, if_true, hlookup]
      rfl
    have hstr : (CSid.ofPSID os (some p)).toSidString os = s := by
      simp only [CSid.toSidString, CSid.ofPSID, hvalid, if_true, hconv]
    have hres : SidToText os (some p) = s := by
      rw [SidToText_of_empty_name os p hname, hstr]
    exact ⟨hres, fun hs => by rw [hres]; exact hs⟩

/-- C17, at sample services that resolve no name and at sample services that resolve the
name `CONTOSO\Administrator`. -/
theorem SidToText_cases_witness :
    SidToText exampleUnresolvingApi (some [1, 5, 0, 0, 0, 0, 0, 5, 21, 0, 0, 0]) =
      "S-1-5-21-1-2-3-1001" ∧
    SidToText exampleDomainApi (some [1, 5, 0, 0, 0, 0, 0, 5, 21, 0, 0, 0]) =
      "CONTOSO" ++ "\\" ++ "Administrator" ++ " (" ++
        (CSid.ofPSID exampleDomainApi (some [1, 5, 0, 0, 0, 0, 0, 5, 21, 0, 0, 0])).toSidString
          exampleDomainApi ++ ")" ∧
    SidToText exampleDomainApi (some [1, 5, 0, 0, 0, 0, 0, 5, 21, 0, 0, 0]) =
      "CONTOSO\\Administrator (S-1-5-21-1-2-3-500)" :=
  ⟨((SidToText_cases exampleUnresolvingApi [1, 5, 0, 0, 0, 0, 0, 5, 21, 0, 0, 0]).2.2.2.2
      "S-1-5-21-1-2-3-1001" rfl rfl rfl).1,
    (SidToText_cases exampleDomainApi [1, 5, 0, 0, 0, 0, 0, 5, 21, 0, 0, 0]).2.2.2.1
      "CONTOSO" "Administrator" rfl rfl (by decide),
    by decide⟩

/-- The function `TestNtAuthorityRID` is true exactly for a non-null pointer at which the
six authority bytes are those of NT AUTHORITY and the `DWORD` at the place of the first
sub-authority (offset 8) equals the RID; the sub-authority count is not looked at. -/
theorem TestNtAuthorityRID_iff (sid : List Nat) (dwRid : Nat) :
    CSid.TestNtAuthorityRID none dwRid = false ∧
    (CSid.TestNtAuthorityRID (some sid) dwRid = true ↔
      GetSidIdentifierAuthority sid = SECURITY_NT_AUTHORITY ∧ dwordAt sid 8 = dwRid) := by
  refine ⟨rfl, ?_⟩
  unfold CSid.TestNtAuthorityRID GetSidSubAuthority
  show (if GetSidIdentifierAuthority sid ≠ SECURITY_NT_AUTHORITY then false
      else dwRid == dwordAt sid (8 + 4 * 0)) = true ↔ _
  by_cases h : GetSidIdentifierAuthority sid = SECURITY_NT_AUTHORITY
  · rw [if_neg (fun hn : GetSidIdentifierAuthority sid ≠ SECURITY_NT_AUTHORITY => hn h)]
    simp only [beq_iff_eq, h, true_and, Nat.mul_zero, Nat.add_zero]
    exact eq_comm
  · rw [if_pos h]
    simp [h]

/-- C18, the code at the failing input: the SID S-1-5 has no sub-authority, and when the
four bytes `50 00 00 00` follow it in memory `TestNtAuthorityRID` with the RID 80, and so
`IsNtServiceSid`, answers `true`; for a well-formed NT SERVICE SID it answers `true` as
well, and for the null pointer `false`. -/
theorem TestNtAuthorityRID_zero_sub_authorities :
    SID.SubAuthorityCount exampleSidWithoutSubAuthority = 0 ∧
    CSid.TestNtAuthorityRID (some exampleSidWithoutSubAuthority) 80 = true ∧
    CSid.IsNtServiceSid (some exampleSidWithoutSubAuthority) = true ∧
    CSid.IsNtServiceSid (some exampleServiceSid) = true ∧
    CSid.IsNtServiceSid none = false := by
  refine ⟨by decide, by decide, by decide, by decide, by decide⟩

/-! ## Descriptor renderer: invalid descriptors and ACE type names -/

/-- C19: when the supplied security descriptor is not valid, `OutputSecurityDescriptor`
writes exactly the one line "Invalid security descriptor" and nothing else, whatever the
access functions would report about control flags, owner, group, DACL and SACL. -/
theorem OutputSecurityDescriptor_invalid (os : WinApi) (pSD : SECURITY_DESCRIPTOR)
    (szObjType : Option String) (bOnePermPerLine : Bool) (indent : Nat) (fmt : Formatting)
    (h : pSD.IsValidSecurityDescriptor = false) :
    OutputSecurityDescriptor os pSD szObjType bOnePermPerLine indent =
      [Chunk.text "Invalid security descriptor", Chunk.endl] ∧
    render fmt (OutputSecurityDescriptor os pSD szObjType bOnePermPerLine indent) =
      "Invalid security descriptor\n" := by
  have hout : OutputSecurityDescriptor os pSD szObjType bOnePermPerLine indent =
      [Chunk.text "Invalid security descriptor", Chunk.endl] := by
    unfold OutputSecurityDescriptor
    simp only [h, Bool.not_false, if_true]
  refine ⟨hout, ?_⟩
  rw [hout]
  rfl

/-- C19, at the sample invalid descriptor, which has an owner, a group, a DACL and a
SACL. -/
theorem OutputSecurityDescriptor_invalid_witness :
    exampleInvalidDescriptor.IsValidSecurityDescriptor = false ∧
    (OutputSecurityDescriptor exampleApi exampleInvalidDescriptor (some "file") true 4 =
      [Chunk.text "Invalid security descriptor", Chunk.endl] ∧
    render exampleFormatting
      (OutputSecurityDescriptor exampleApi exampleInvalidDescriptor (some "file") true 4) =
      "Invalid security descriptor\n") :=
  ⟨rfl, OutputSecurityDescriptor_invalid exampleApi exampleInvalidDescriptor (some "file") true 4
    exampleFormatting rfl⟩

theorem AceType_isSome_iff (t : Nat) : (AceType t).isSome = true ↔ t ≤ 0x11 := by
  have h := AceType_eq_none_iff t
  cases ht : AceType t with
  | none =>
    have : 0x11 < t := h.mp ht
    simp only [Option.isSome_none, Bool.false_eq_true, false_iff]
    omega
  | some name =>
    have : ¬ (0x11 < t) := fun hlt => by
      have := h.mpr hlt
      rw [ht] at this
      exact Option.noConfusion this
    simp only [Option.isSome_some, true_iff]
    omega

theorem AceType_injective (s t : Nat) (hs : s ≤ 0x11) (ht : t ≤ 0x11)
    (h : AceType s = AceType t) : s = t := by
  revert h
  interval_cases s <;> interval_cases t <;> first | (intro _; rfl) | decide

/-- C20: `AceType` returns a name for exactly the 18 ACE type values `0x00` through `0x11`
and null for every other type value; different type values have different names; and in
the block that `OutputAcl` writes for an ACE, a type value without name is rendered as
"[Unknown ACE type: <hex of the type>]". -/
theorem AceType_names (s t : Nat) (os : WinApi) (szObjType : Option String)
    (bOnePermPerLine : Bool) (sIndent : String) (ix : Nat) (pACE : List Nat) :
    ((AceType t).isSome = true ↔ t ≤ 0x11) ∧
    (AceType t = none ↔ 0x11 < t) ∧
    ((List.range 18).filter (fun k => (AceType k).isSome)).length = 18 ∧
    (AceType s ≠ none → AceType s = AceType t → s = t) ∧
    (AceType (ACE_HEADER.AceType pACE) = none →
      [Chunk.text "[Unknown ACE type: ", Chunk.hex (ACE_HEADER.AceType pACE), Chunk.text "]"] <:+:
        OutputAcl.aceBlock os szObjType bOnePermPerLine sIndent ix pACE) := by
  refine ⟨AceType_isSome_iff t, AceType_eq_none_iff t, by decide, ?_, ?_⟩
  · intro hs h
    have hs2 : s ≤ 0x11 := by
      have := (AceType_eq_none_iff s).not.mp hs
      omega
    have ht2 : t ≤ 0x11 := by
      have := (AceType_eq_none_iff t).not.mp (h ▸ hs)
      omega
    exact AceType_injective s t hs2 ht2 h
  · intro h
    unfold OutputAcl.aceBlock
    rw [h]
    simp only [List.append_assoc]
    exact List.infix_append' _ _ _

/-- C20, at the type values `0x11` and `0x12`. -/
theorem AceType_names_witness :
    AceType 0x11 = some "SYSTEM_MANDATORY_LABEL_ACE_TYPE" ∧
    (AceType 0x12 = none ↔ 0x11 < 0x12) ∧
    [Chunk.text "[Unknown ACE type: ", Chunk.hex (ACE_HEADER.AceType exampleUnknownAce),
        Chunk.text "]"] <:+:
      OutputAcl.aceBlock exampleApi none false "" 0 exampleUnknownAce :=
  have h := AceType_names 0x11 0x12 exampleApi none false "" 0 exampleUnknownAce
  ⟨by decide, h.2.1, h.2.2.2.2 (by decide)⟩

/-! ## Permission resolver: entries that are never emitted -/

/-- The exact-match loop returns the first row of the table whose mask equals the mask
looked for. -/
theorem exactMatch_first (m : Nat) (tbl : List perm_t) (p : perm_t)
    (h : OutputPermissions.exactMatch m tbl = some p) :
    ∃ pre post, tbl = pre ++ p :: post ∧ p.mask = m ∧ ∀ q ∈ pre, q.mask ≠ m := by
  induction tbl with
  | nil => simp [OutputPermissions.exactMatch] at h
  | cons e es ih =>
    unfold OutputPermissions.exactMatch at h
    split at h
    · rename_i he
      have hep : e = p := by simpa using h
      subst hep
      exact ⟨[], es, rfl, he.symm, by simp⟩
    · rename_i he
      obtain ⟨pre, post, h1, h2, h3⟩ := ih h
      refine ⟨e :: pre, post, by rw [h1]; rfl, h2, ?_⟩
      intro q hq
      rcases List.mem_cons.mp hq with rfl | hq2
      · exact fun hm => he hm.symm
      · exact h3 q hq2

theorem exactMatch_ne_none_of_mem (m : Nat) (tbl : List perm_t) (a : perm_t) (ha : a ∈ tbl)
    (hm : a.mask = m) : OutputPermissions.exactMatch m tbl ≠ none := by
  induction tbl with
  | nil => simp at ha
  | cons e es ih =>
    unfold OutputPermissions.exactMatch
    by_cases he : m = e.mask
    · simp [he]
    · simp only [he, if_false]
      rcases List.mem_cons.mp ha with rfl | ha2
      · exact absurd hm.symm he
      · exact ih ha2

/-- A name is not written by `OutputPermissions` when no row of the aggregate table and no
row emitted by the decomposition pass has it. -/
theorem OutputPermissions_name_not_emitted (tag : String) (pSpecific pMatch : Option (List perm_t))
    (N : String) (m : Nat) (b : Bool) (ind : String)
    (hrec : GetPermsForType tag = some (pSpecific, pMatch)) (hm : m < 2 ^ 32)
    (hmatch : ∀ tbl, pMatch = some tbl → ∀ q ∈ tbl, q.mask = m → q.szName = N →
      OutputPermissions.exactMatch m tbl ≠ some q)
    (hdec : ∀ q ∈ (specDecompose (genericMask ++ pSpecific.getD [] ++ standardMask) m).1,
      q.szName ≠ N) :
    N ∉ emittedNames (OutputPermissions m tag b ind) := by
  unfold emittedNames
  rw [OutputPermissions_recognized m tag b ind pSpecific pMatch hrec]
  intro hmem
  obtain ⟨q, hq, hqN⟩ := List.mem_map.mp hmem
  cases hx : pMatch.bind (OutputPermissions.exactMatch m) with
  | some p =>
    rw [hx] at hq
    simp only [emittedPerms, List.mem_singleton] at hq
    subst hq
    cases pMatch with
    | none => simp at hx
    | some tbl =>
      have hx2 : OutputPermissions.exactMatch m tbl = some q := by simpa using hx
      have hs := exactMatch_some m tbl q hx2
      exact hmatch tbl rfl q hs.1 hs.2 hqN hx2
  | none =>
    rw [hx] at hq
    simp only [] at hq
    rw [emittedPerms_decompose _ _ _ _ _ hm] at hq
    exact hdec q hq hqN

/-- C24: when a mask equals the masks of several entries of the aggregate table,
`OutputPermissions` writes only the first such entry in table order. Under tag "key" the
mask of `KEY_READ`, which equals that of `KEY_EXECUTE`, is rendered as `KEY_READ`, and the
name `KEY_EXECUTE` is written for no mask at all. -/
theorem OutputPermissions_first_aggregate (m : Nat) (bOnePermPerLine : Bool) (sIndent : String)
    (hm : m < 2 ^ 32) :
    (∀ (tag : String) (pSpecific : Option (List perm_t)) (tbl : List perm_t) (A : perm_t),
      GetPermsForType tag = some (pSpecific, some tbl) → A ∈ tbl → A.mask = m →
      ∃ pre post p, tbl = pre ++ p :: post ∧ p.mask = m ∧ (∀ q ∈ pre, q.mask ≠ m) ∧
        OutputPermissions m tag bOnePermPerLine sIndent =
          [Chunk.text "           ", Chunk.perm p, Chunk.endl]) ∧
    KEY_READ = KEY_EXECUTE ∧
    OutputPermissions KEY_READ "key" bOnePermPerLine sIndent =
      [Chunk.text "           ", Chunk.perm ⟨KEY_READ, "KEY_READ"⟩, Chunk.endl] ∧
    "KEY_EXECUTE" ∉ emittedNames (OutputPermissions m "key" bOnePermPerLine sIndent) := by
  have hkey : GetPermsForType "key" = some (some keySpecific, some keyMatch) := by decide
  refine ⟨?_, by decide, ?_, ?_⟩
  · intro tag pSpecific tbl A hrec hA hAm
    cases hx : OutputPermissions.exactMatch m tbl with
    | none => exact absurd hx (exactMatch_ne_none_of_mem m tbl A hA hAm)
    | some p =>
      obtain ⟨pre, post, h1, h2, h3⟩ := exactMatch_first m tbl p hx
      refine ⟨pre, post, p, h1, h2, h3, ?_⟩
      rw [OutputPermissions_recognized m tag bOnePermPerLine sIndent pSpecific (some tbl) hrec]
      have : (some tbl).bind (OutputPermissions.exactMatch m) = some p := by simpa using hx
      rw [this]
  · rw [OutputPermissions_recognized _ "key" bOnePermPerLine sIndent _ _ hkey]
    have : (some keyMatch).bind (OutputPermissions.exactMatch KEY_READ) =
        some ⟨KEY_READ, "KEY_READ"⟩ := by decide
    rw [this]
  · apply OutputPermissions_name_not_emitted "key" (some keySpecific) (some keyMatch)
      "KEY_EXECUTE" m bOnePermPerLine sIndent hkey hm
    · intro tbl htbl q hq hqm hqN
      have ht : tbl = keyMatch := by simpa using htbl.symm
      subst ht
      subst hqm
      have hall : ∀ q ∈ keyMatch, q.szName = "KEY_EXECUTE" →
          OutputPermissions.exactMatch q.mask keyMatch ≠ some q := by decide
      exact hall q hq hqN
    · intro q hq
      have hsub := (specDecompose_sublist
        (genericMask ++ (some keySpecific).getD [] ++ standardMask) m).subset hq
      have hall : ∀ q ∈ genericMask ++ (some keySpecific).getD [] ++ standardMask,
          q.szName ≠ "KEY_EXECUTE" := by decide
      exact hall q hsub

/-- C24, at the mask `0x00020019` of `KEY_READ` and `KEY_EXECUTE`. -/
theorem OutputPermissions_first_aggregate_witness :
    KEY_EXECUTE = 0x00020019 ∧
    emittedNames (OutputPermissions 0x00020019 "key" true "") = ["KEY_READ"] ∧
    "KEY_EXECUTE" ∉ emittedNames (OutputPermissions 0x00020019 "key" true "") :=
  ⟨by decide, by decide,
    (OutputPermissions_first_aggregate 0x00020019 true "" (by decide)).2.2.2⟩

theorem subset_of_subset_rest (a d u r : Nat) (h1 : a &&& d = a) (h2 : d ||| u = r) :
    a &&& r = a := by
  apply Nat.eq_of_testBit_eq; intro i
  have h1i := congrArg (fun x => x.testBit i) h1
  have h2i := congrArg (fun x => x.testBit i) h2
  simp only [Nat.testBit_and, Nat.testBit_or] at *
  revert h1i h2i
  cases a.testBit i <;> cases d.testBit i <;> cases u.testBit i <;> cases r.testBit i <;> simp

theorem eq_zero_of_subset_disjoint (a r : Nat) (h1 : a &&& r = a) (h2 : r &&& a = 0) :
    a = 0 := by
  rw [Nat.land_comm] at h2
  rw [h2] at h1
  exact h1.symm

theorem subset_trans (a b c : Nat) (h1 : a &&& b = a) (h2 : b &&& c = b) : a &&& c = a := by
  apply Nat.eq_of_testBit_eq; intro i
  have h1i := congrArg (fun x => x.testBit i) h1
  have h2i := congrArg (fun x => x.testBit i) h2
  simp only [Nat.testBit_and] at *
  revert h1i h2i
  cases a.testBit i <;> cases b.testBit i <;> cases c.testBit i <;> simp

/-- After a table has been walked, no row of it with a non-zero mask still has all its bits
in the remaining mask: either the bits were not all there, or the row cleared them. -/
theorem specDecompose_consumed (A : List perm_t) : ∀ remaining : Nat, remaining < 2 ^ 32 →
    ∀ s ∈ A, s.mask &&& (specDecompose A remaining).2 = s.mask → s.mask = 0 := by
  induction A with
  | nil => intro r _ s hs; simp at hs
  | cons a A ih =>
    intro r hr s hs hsub
    unfold specDecompose at hsub
    by_cases ha : a.mask &&& r = a.mask
    · simp only [ha, if_true] at hsub
      have hr2 : clearBits r a.mask < 2 ^ 32 := lt_of_le_of_lt (clearBits_le r a.mask) hr
      rcases List.mem_cons.mp hs with rfl | hs2
      · have hp := (specDecompose_partition A (clearBits r s.mask) hr2).1
        have h1 := subset_of_subset_rest _ _ _ _ hsub hp
        rw [clearBits_eq_xor r s.mask hr ha] at h1
        exact eq_zero_of_subset_disjoint _ _ h1 (xor_and_of_subset s.mask r ha)
      · exact ih _ hr2 s hs2 hsub
    · simp only [ha, if_false] at hsub
      rcases List.mem_cons.mp hs with rfl | hs2
      · have hp := (specDecompose_partition A r hr).1
        exact absurd (subset_of_subset_rest _ _ _ _ hsub hp) ha
      · exact ih r hr s hs2 hsub

/-- A row that comes after a row with a non-zero mask contained in its own is skipped by the
decomposition pass, whatever the mask. -/
theorem specDecompose_shadowed (A B : List perm_t) (e s : perm_t) (remaining : Nat)
    (hr : remaining < 2 ^ 32) (hs : s ∈ A) (hs0 : s.mask ≠ 0)
    (hse : s.mask &&& e.mask = s.mask) :
    specDecompose (A ++ e :: B) remaining = specDecompose (A ++ B) remaining := by
  rw [specDecompose_append, specDecompose_append]
  have hne : ¬ (e.mask &&& (specDecompose A remaining).2 = e.mask) := by
    intro he
    exact hs0 (specDecompose_consumed A remaining hr s hs (subset_trans _ _ _ hse he))
  have : specDecompose (e :: B) (specDecompose A remaining).2 =
      specDecompose B (specDecompose A remaining).2 := by
    conv => lhs; unfold specDecompose
    simp only [hne, if_false]
  rw [this]

theorem specDecompose_name_shadowed (T A B : List perm_t) (e s : perm_t) (N : String)
    (remaining : Nat) (hT : T = A ++ e :: B) (hr : remaining < 2 ^ 32) (hs : s ∈ A)
    (hs0 : s.mask ≠ 0) (hse : s.mask &&& e.mask = s.mask)
    (hN : ∀ q ∈ A ++ B, q.szName ≠ N) :
    ∀ q ∈ (specDecompose T remaining).1, q.szName ≠ N := by
  intro q hq
  rw [hT, specDecompose_shadowed A B e s remaining hr hs hs0 hse] at hq
  exact hN q ((specDecompose_sublist (A ++ B) remaining).subset hq)

/-- C25: a table entry that comes after an entry with a non-zero mask contained in its own is
never emitted by the decomposition pass, for any mask. Under tag "standard" the name
`STANDARD_RIGHTS_REQUIRED` is never written, under tag "ntds" none of
`ADS_RIGHT_GENERIC_READ/WRITE/EXECUTE/ALL` is, and under tag "filemap" none of
`FILE_MAP_RESERVE`, `FILE_MAP_TARGETS_INVALID`, `FILE_MAP_LARGE_PAGES` is. -/
theorem OutputPermissions_shadowed_entries (m : Nat) (bOnePermPerLine : Bool)
    (sIndent : String) (hm : m < 2 ^ 32) :
    (∀ (A B : List perm_t) (e s : perm_t), s ∈ A → s.mask ≠ 0 → s.mask &&& e.mask = s.mask →
      specDecompose (A ++ e :: B) m = specDecompose (A ++ B) m) ∧
    "STANDARD_RIGHTS_REQUIRED" ∉
      emittedNames (OutputPermissions m "standard" bOnePermPerLine sIndent) ∧
    (∀ N ∈ ["ADS_RIGHT_GENERIC_READ", "ADS_RIGHT_GENERIC_WRITE", "ADS_RIGHT_GENERIC_EXECUTE",
        "ADS_RIGHT_GENERIC_ALL"],
      N ∉ emittedNames (OutputPermissions m "ntds" bOnePermPerLine sIndent)) ∧
    (∀ N ∈ ["FILE_MAP_RESERVE", "FILE_MAP_TARGETS_INVALID", "FILE_MAP_LARGE_PAGES"],
      N ∉ emittedNames (OutputPermissions m "filemap" bOnePermPerLine sIndent)) := by
  refine ⟨?_, ?_, ?_, ?_⟩
  · intro A B e s hs hs0 hse
    exact specDecompose_shadowed A B e s m hm hs hs0 hse
  · apply OutputPermissions_name_not_emitted "standard" (some standardAndGenericMask) none
      "STANDARD_RIGHTS_REQUIRED" m bOnePermPerLine sIndent (by decide) hm
    · intro tbl htbl; simp at htbl
    · exact specDecompose_name_shadowed _ (genericMask ++ standardAndGenericMask.take 5)
        (standardAndGenericMask.drop 6 ++ standardMask)
        ⟨STANDARD_RIGHTS_REQUIRED, "STANDARD_RIGHTS_REQUIRED"⟩ ⟨DELETE, "DELETE"⟩ _ m
        (by decide) hm (by decide) (by decide) (by decide) (by decide)
  · intro N hN
    have hrec : GetPermsForType "ntds" = some (some NtdsSpecific, none) := by decide
    apply OutputPermissions_name_not_emitted "ntds" (some NtdsSpecific) none
      N m bOnePermPerLine sIndent hrec hm
    · intro tbl htbl; simp at htbl
    · simp only [List.mem_cons, List.mem_singleton, List.not_mem_nil, or_false] at hN
      rcases hN with rfl | rfl | rfl | rfl
      · exact specDecompose_name_shadowed _ (genericMask ++ NtdsSpecific.take 15)
          (NtdsSpecific.drop 16 ++ standardMask)
          ⟨ADS_RIGHT_GENERIC_READ, "ADS_RIGHT_GENERIC_READ"⟩ ⟨GENERIC_READ, "GENERIC_READ"⟩ _ m
          (by decide) hm (by decide) (by decide) (by decide) (by decide)
      · exact specDecompose_name_shadowed _ (genericMask ++ NtdsSpecific.take 16)
          (NtdsSpecific.drop 17 ++ standardMask)
          ⟨ADS_RIGHT_GENERIC_WRITE, "ADS_RIGHT_GENERIC_WRITE"⟩ ⟨GENERIC_WRITE, "GENERIC_WRITE"⟩
          _ m (by decide) hm (by decide) (by decide) (by decide) (by decide)
      · exact specDecompose_name_shadowed _ (genericMask ++ NtdsSpecific.take 17)
          (NtdsSpecific.drop 18 ++ standardMask)
          ⟨ADS_RIGHT_GENERIC_EXECUTE, "ADS_RIGHT_GENERIC_EXECUTE"⟩
          ⟨GENERIC_EXECUTE, "GENERIC_EXECUTE"⟩
          _ m (by decide) hm (by decide) (by decide) (by decide) (by decide)
      · exact specDecompose_name_shadowed _ (genericMask ++ NtdsSpecific.take 18)
          (NtdsSpecific.drop 19 ++ standardMask)
          ⟨ADS_RIGHT_GENERIC_ALL, "ADS_RIGHT_GENERIC_ALL"⟩ ⟨GENERIC_ALL, "GENERIC_ALL"⟩
          _ m (by decide) hm (by decide) (by decide) (by decide) (by decide)
  · intro N hN
    have hrec : GetPermsForType "filemap" = some (some filemapSpecific, some filemapMatch) := by
      decide
    apply OutputPermissions_name_not_emitted "filemap" (some filemapSpecific)
      (some filemapMatch) N m bOnePermPerLine sIndent hrec hm
    · intro tbl htbl q hq _ hqN _
      have ht : tbl = filemapMatch := by simpa using htbl.symm
      subst ht
      have hall : ∀ q ∈ filemapMatch, ∀ N ∈ ["FILE_MAP_RESERVE", "FILE_MAP_TARGETS_INVALID",
          "FILE_MAP_LARGE_PAGES"], q.szName ≠ N := by decide
      exact hall q hq N hN hqN
    · simp only [List.mem_cons, List.mem_singleton, List.not_mem_nil, or_false] at hN
      rcases hN with rfl | rfl | rfl
      · exact specDecompose_name_shadowed _ (genericMask ++ filemapSpecific.take 4)
          (filemapSpecific.drop 5 ++ standardMask)
          ⟨FILE_MAP_RESERVE, "FILE_MAP_RESERVE"⟩ ⟨GENERIC_READ, "GENERIC_READ"⟩ _ m
          (by decide) hm (by decide) (by decide) (by decide) (by decide)
      · exact specDecompose_name_shadowed _ (genericMask ++ filemapSpecific.take 5)
          (filemapSpecific.drop 6 ++ standardMask)
          ⟨FILE_MAP_TARGETS_INVALID, "FILE_MAP_TARGETS_INVALID"⟩
          ⟨GENERIC_WRITE, "GENERIC_WRITE"⟩ _ m
          (by decide) hm (by decide) (by decide) (by decide) (by decide)
      · exact specDecompose_name_shadowed _ (genericMask ++ filemapSpecific.take 6)
          (filemapSpecific.drop 7 ++ standardMask)
          ⟨FILE_MAP_LARGE_PAGES, "FILE_MAP_LARGE_PAGES"⟩
          ⟨GENERIC_EXECUTE, "GENERIC_EXECUTE"⟩ _ m
          (by decide) hm (by decide) (by decide) (by decide) (by decide)

/-- C25, at the mask `0x000F0000`, all of whose bits are those of
`STANDARD_RIGHTS_REQUIRED`: the four single rights are written instead. -/
theorem OutputPermissions_shadowed_entries_witness :
    STANDARD_RIGHTS_REQUIRED = 0x000F0000 ∧
    emittedNames (OutputPermissions 0x000F0000 "standard" true "") =
      ["DELETE", "READ_CONTROL", "WRITE_DAC", "WRITE_OWNER"] ∧
    "STANDARD_RIGHTS_REQUIRED" ∉ emittedNames (OutputPermissions 0x000F0000 "standard" true "") :=
  ⟨by decide, by decide,
    (OutputPermissions_shadowed_entries 0x000F0000 true "" (by decide)).2.1⟩

/-! ## Trustee location: the compound kind and the one-flag object records -/

theorem GetAddressOfSidInHeader_simple_kind (pAceHeader : List Nat)
    (h : ACE_HEADER.AceType pAceHeader ∈ simpleAceTypes) :
    GetAddressOfSidInHeader pAceHeader = some ACCESS_ALLOWED_ACE.SidStart := by
  have hs := (mem_simpleAceTypes _).mp h
  unfold GetAddressOfSidInHeader
  simp only [hs, if_true]

theorem GetAddressOfSidInHeader_compound_kind (pAceHeader : List Nat)
    (h : ACE_HEADER.AceType pAceHeader = ACCESS_ALLOWED_COMPOUND_ACE_TYPE) :
    GetAddressOfSidInHeader pAceHeader = none := by
  unfold GetAddressOfSidInHeader
  simp only [h]
  rw [if_neg (by decide), if_neg (by decide)]

/-- Every type that `AceType` names is the compound type, a simple kind or an object kind. -/
theorem named_type_cases (t : Nat) (h : t ≤ 0x11) :
    t = ACCESS_ALLOWED_COMPOUND_ACE_TYPE ∨ t ∈ simpleAceTypes ∨ t ∈ objectAceTypes := by
  interval_cases t <;> decide

theorem GetAddressOfSidInHeader_object_valid (pAceHeader : List Nat)
    (h : ACE_HEADER.AceType pAceHeader ∈ objectAceTypes)
    (hvalid : ACCESS_ALLOWED_OBJECT_ACE.Flags pAceHeader ∈
      [0, ACE_OBJECT_TYPE_PRESENT, ACE_INHERITED_OBJECT_TYPE_PRESENT,
        ACE_OBJECT_TYPE_PRESENT ||| ACE_INHERITED_OBJECT_TYPE_PRESENT]) :
    GetAddressOfSidInHeader pAceHeader =
      some (12 + 16 * presenceFlagCount (ACCESS_ALLOWED_OBJECT_ACE.Flags pAceHeader)) := by
  rw [GetAddressOfSidInHeader_object pAceHeader h]
  generalize ACCESS_ALLOWED_OBJECT_ACE.Flags pAceHeader = f at hvalid ⊢
  simp only [List.mem_cons, List.mem_singleton, List.not_mem_nil, or_false] at hvalid
  rcases hvalid with rfl | rfl | rfl | rfl <;> decide

/-- C26: `ACCESS_ALLOWED_COMPOUND_ACE_TYPE` (4) is named by `AceType`, yet
`GetAddressOfSidInHeader` yields no trustee location for any record of that type, and the
entry is rendered with the type name and an empty SID text. It is the only named type with
that property: a record of any other named type yields a location whenever its presence
field (for the object kinds) is one of the four valid values. -/
theorem GetAddressOfSidInHeader_compound (os : WinApi) (szObjType : Option String)
    (bOnePermPerLine : Bool) (sIndent : String) (ix : Nat) (pACE : List Nat)
    (h : ACE_HEADER.AceType pACE = ACCESS_ALLOWED_COMPOUND_ACE_TYPE) :
    AceType (ACE_HEADER.AceType pACE) = some "ACCESS_ALLOWED_COMPOUND_ACE_TYPE" ∧
    GetAddressOfSidInHeader pACE = none ∧
    SidToText os ((GetAddressOfSidInHeader pACE).map (fun off => pACE.drop off)) = "" ∧
    [Chunk.text "ACCESS_ALLOWED_COMPOUND_ACE_TYPE", Chunk.endl, Chunk.text sIndent,
        Chunk.text "    SID:   ", Chunk.text "", Chunk.endl] <:+:
      OutputAcl.aceBlock os szObjType bOnePermPerLine sIndent ix pACE ∧
    (∀ rec : List Nat, (AceType (ACE_HEADER.AceType rec)).isSome = true →
      ACE_HEADER.AceType rec ≠ ACCESS_ALLOWED_COMPOUND_ACE_TYPE →
      (ACE_HEADER.AceType rec ∈ objectAceTypes →
        ACCESS_ALLOWED_OBJECT_ACE.Flags rec ∈
          [0, ACE_OBJECT_TYPE_PRESENT, ACE_INHERITED_OBJECT_TYPE_PRESENT,
            ACE_OBJECT_TYPE_PRESENT ||| ACE_INHERITED_OBJECT_TYPE_PRESENT]) →
      (GetAddressOfSidInHeader rec).isSome = true) ∧
    (∀ t : Nat, (AceType t).isSome = true →
      ((∀ rec : List Nat, ACE_HEADER.AceType rec = t → GetAddressOfSidInHeader rec = none) ↔
        t = ACCESS_ALLOWED_COMPOUND_ACE_TYPE)) := by
  have hnone := GetAddressOfSidInHeader_compound_kind pACE h
  have hname : AceType (ACE_HEADER.AceType pACE) = some "ACCESS_ALLOWED_COMPOUND_ACE_TYPE" := by
    rw [h]; decide
  have hother : ∀ rec : List Nat, (AceType (ACE_HEADER.AceType rec)).isSome = true →
      ACE_HEADER.AceType rec ≠ ACCESS_ALLOWED_COMPOUND_ACE_TYPE →
      (ACE_HEADER.AceType rec ∈ objectAceTypes →
        ACCESS_ALLOWED_OBJECT_ACE.Flags rec ∈
          [0, ACE_OBJECT_TYPE_PRESENT, ACE_INHERITED_OBJECT_TYPE_PRESENT,
            ACE_OBJECT_TYPE_PRESENT ||| ACE_INHERITED_OBJECT_TYPE_PRESENT]) →
      (GetAddressOfSidInHeader rec).isSome = true := by
    intro rec hn hne hv
    rcases named_type_cases _ ((AceType_isSome_iff _).mp hn) with h4 | hs | ho
    · exact absurd h4 hne
    · rw [GetAddressOfSidInHeader_simple_kind rec hs]; rfl
    · rw [GetAddressOfSidInHeader_object_valid rec ho (hv ho)]; rfl
  refine ⟨hname, hnone, ?_, ?_, hother, ?_⟩
  · rw [hnone]; rfl
  · have hb : [Chunk.text "ACCESS_ALLOWED_COMPOUND_ACE_TYPE", Chunk.endl, Chunk.text sIndent,
        Chunk.text "    SID:   ", Chunk.text "", Chunk.endl] <:+:
        OutputAcl.aceBlock os none bOnePermPerLine sIndent ix pACE := by
      rw [aceBlock_without_tag, hname, hnone]
      refine ⟨[Chunk.text sIndent, Chunk.text "ACE ", Chunk.dec ix, Chunk.text ".", Chunk.endl,
        Chunk.text sIndent, Chunk.text "    "],
        [Chunk.text sIndent, Chunk.text "    Flags: "] ++
        (if 0 = ACE_HEADER.AceFlags pACE then [Chunk.text "None"]
          else
            [Chunk.text "[", Chunk.hex (ACE_HEADER.AceFlags pACE), Chunk.text "] "] ++
              OutputFlagsOnOneLine aceFlags (ACE_HEADER.AceFlags pACE)) ++
        [Chunk.endl, Chunk.text sIndent, Chunk.text "    Perms: [",
          Chunk.hex (ACCESS_ALLOWED_ACE.Mask pACE), Chunk.text "] "] ++
        (if bOnePermPerLine then [Chunk.endl] else []), ?_⟩
      simp [SidToText]
    cases szObjType with
    | none => exact hb
    | some tag =>
      rw [aceBlock_with_tag]
      obtain ⟨s, t, hst⟩ := hb
      exact ⟨s, t ++ OutputPermissions (ACCESS_ALLOWED_ACE.Mask pACE) tag bOnePermPerLine sIndent,
        by rw [← hst]; simp only [List.append_assoc]⟩
  · intro t ht
    have hle := (AceType_isSome_iff t).mp ht
    constructor
    · intro hall
      by_contra hne
      have hty : ACE_HEADER.AceType [t, 0, 0, 0, 0, 0, 0, 0, 0, 0, 0, 0] = t := by
        simp only [ACE_HEADER.AceType, byteAt, List.getD_cons_zero]
        omega
      have hf : ACCESS_ALLOWED_OBJECT_ACE.Flags [t, 0, 0, 0, 0, 0, 0, 0, 0, 0, 0, 0] = 0 := rfl
      have hsome := hother [t, 0, 0, 0, 0, 0, 0, 0, 0, 0, 0, 0] (by rw [hty]; exact ht)
        (by rw [hty]; exact hne) (fun _ => by rw [hf]; decide)
      rw [hall _ hty] at hsome
      simp at hsome
    · intro h4 rec hrec
      exact GetAddressOfSidInHeader_compound_kind rec (hrec.trans h4)

/-- C26, at a compound ACE of 20 bytes rendered under tag "file". -/
theorem GetAddressOfSidInHeader_compound_witness :
    ACE_HEADER.AceType [4, 0, 20, 0, 0xFF, 0x01, 0x1F, 0, 1, 0, 0, 0, 1, 1, 0, 0, 0, 0, 0, 1] =
      ACCESS_ALLOWED_COMPOUND_ACE_TYPE ∧
    GetAddressOfSidInHeader [4, 0, 20, 0, 0xFF, 0x01, 0x1F, 0, 1, 0, 0, 0, 1, 1, 0, 0, 0, 0, 0, 1] =
      none ∧
    SidToText exampleApi ((GetAddressOfSidInHeader
      [4, 0, 20, 0, 0xFF, 0x01, 0x1F, 0, 1, 0, 0, 0, 1, 1, 0, 0, 0, 0, 0, 1]).map
        (fun off => List.drop off
          [4, 0, 20, 0, 0xFF, 0x01, 0x1F, 0, 1, 0, 0, 0, 1, 1, 0, 0, 0, 0, 0, 1])) = "" :=
  ⟨by decide,
    (GetAddressOfSidInHeader_compound exampleApi (some "file") true "" 0
      [4, 0, 20, 0, 0xFF, 0x01, 0x1F, 0, 1, 0, 0, 0, 1, 1, 0, 0, 0, 0, 0, 1] (by decide)).2.1,
    (GetAddressOfSidInHeader_compound exampleApi (some "file") true "" 0
      [4, 0, 20, 0, 0xFF, 0x01, 0x1F, 0, 1, 0, 0, 0, 1, 1, 0, 0, 0, 0, 0, 1] (by decide)).2.2.1⟩

/-- C27: for every ACE of an object kind whose presence field is valid, the trustee is
located at byte offset 12 + 16 * (number of presence flags set). With exactly one flag set,
`ACE_OBJECT_TYPE_PRESENT` alone or `ACE_INHERITED_OBJECT_TYPE_PRESENT` alone, that is byte
offset 28 = header + mask + 4 + 16, whichever flag it is. -/
theorem GetAddressOfSidInHeader_object_one_flag (pAceHeader : List Nat)
    (h : ACE_HEADER.AceType pAceHeader ∈ objectAceTypes)
    (hvalid : ACCESS_ALLOWED_OBJECT_ACE.Flags pAceHeader ∈
      [0, ACE_OBJECT_TYPE_PRESENT, ACE_INHERITED_OBJECT_TYPE_PRESENT,
        ACE_OBJECT_TYPE_PRESENT ||| ACE_INHERITED_OBJECT_TYPE_PRESENT]) :
    GetAddressOfSidInHeader pAceHeader =
      some (12 + 16 * presenceFlagCount (ACCESS_ALLOWED_OBJECT_ACE.Flags pAceHeader)) ∧
    ((ACCESS_ALLOWED_OBJECT_ACE.Flags pAceHeader = ACE_OBJECT_TYPE_PRESENT ∨
        ACCESS_ALLOWED_OBJECT_ACE.Flags pAceHeader = ACE_INHERITED_OBJECT_TYPE_PRESENT) ↔
      presenceFlagCount (ACCESS_ALLOWED_OBJECT_ACE.Flags pAceHeader) = 1) ∧
    ((ACCESS_ALLOWED_OBJECT_ACE.Flags pAceHeader = ACE_OBJECT_TYPE_PRESENT ∨
        ACCESS_ALLOWED_OBJECT_ACE.Flags pAceHeader = ACE_INHERITED_OBJECT_TYPE_PRESENT) →
      GetAddressOfSidInHeader pAceHeader = some 28) ∧
    (28 : Nat) = 4 + 4 + 4 + 16 := by
  refine ⟨GetAddressOfSidInHeader_object_valid pAceHeader h hvalid, ?_, ?_, rfl⟩
  · generalize ACCESS_ALLOWED_OBJECT_ACE.Flags pAceHeader = f at hvalid ⊢
    simp only [List.mem_cons, List.mem_singleton, List.not_mem_nil, or_false] at hvalid
    rcases hvalid with rfl | rfl | rfl | rfl <;> decide
  · intro hone
    rw [GetAddressOfSidInHeader_object pAceHeader h]
    rcases hone with h1 | h2
    · rw [h1]; decide
    · rw [h2]; decide

/-- C27, at two access-allowed object ACEs, one with presence field 1 and one with presence
field 2: both give offset 28. -/
theorem GetAddressOfSidInHeader_object_one_flag_witness :
    ACCESS_ALLOWED_OBJECT_ACE.Flags [5, 0, 48, 0, 0, 0, 0, 0, 1, 0, 0, 0] = 1 ∧
    ACCESS_ALLOWED_OBJECT_ACE.Flags [5, 0, 48, 0, 0, 0, 0, 0, 2, 0, 0, 0] = 2 ∧
    GetAddressOfSidInHeader [5, 0, 48, 0, 0, 0, 0, 0, 1, 0, 0, 0] = some (12 + 16 * 1) ∧
    GetAddressOfSidInHeader [5, 0, 48, 0, 0, 0, 0, 0, 2, 0, 0, 0] = some 28 :=
  ⟨by decide, by decide,
    (GetAddressOfSidInHeader_object_one_flag [5, 0, 48, 0, 0, 0, 0, 0, 1, 0, 0, 0] (by decide)
      (by decide)).1,
    (GetAddressOfSidInHeader_object_one_flag [5, 0, 48, 0, 0, 0, 0, 0, 2, 0, 0, 0] (by decide)
      (by decide)).2.2.1 (Or.inr (by decide))⟩

/-! ## Tokens -/

/-- C21: `Token::GetTokenInfo` returns `true` for every token handle, also when token
queries fail. For a handle on which all three queries fail, the value returned is `true`, the
output structure is left as it was and the error text holds the three error messages. -/
theorem GetTokenInfo_returns_true :
    (∀ (os : WinApi) (hToken : TokenHandle) (tokenInfo : TokenInfo_t),
      (Token.GetTokenInfo os hToken tokenInfo).1 = true) ∧
    Token.GetTokenInfo exampleApi exampleInvalidTokenHandle exampleTokenInfo =
      (true, exampleTokenInfo,
        [Chunk.sysErrWithCode 6, Chunk.sysErrWithCode 6, Chunk.sysErrWithCode 6]) ∧
    (Token.GetTokenInfo exampleApi exampleSystemTokenHandle exampleTokenInfo).1 = true ∧
    (Token.GetTokenInfo exampleApi exampleSystemTokenHandle exampleTokenInfo).2.1.integrityLevel =
      SECURITY_MANDATORY_SYSTEM_RID ∧
    (Token.GetTokenInfo exampleApi exampleSystemTokenHandle exampleTokenInfo).2.2 = [] :=
  ⟨fun _ _ _ => rfl, rfl, rfl, by decide, rfl⟩

/-! ## WOW64 file system redirection -/

theorem Wow64FsRedirection_calls_append (ops1 ops2 : List Wow64Op) :
    ∀ st : Wow64FsRedirection × List Wow64Call,
      Wow64FsRedirection.calls (ops1 ++ ops2) st =
        Wow64FsRedirection.calls ops2 (Wow64FsRedirection.calls ops1 st) := by
  induction ops1 with
  | nil => intro st; rfl
  | cons op ops ih =>
    intro st
    cases op with
    | Disable v => exact ih _
    | Revert => exact ih _

theorem Wow64FsRedirection_Disable_disabled (w : Nat) (self : Wow64FsRedirection)
    (log : List Wow64Call) (h : self.m_bDisabled = true) :
    Wow64FsRedirection.Disable w self log = (self, log) := by
  unfold Wow64FsRedirection.Disable
  simp [h]

theorem Wow64FsRedirection_Disable_repeated (vs : List Nat) (self : Wow64FsRedirection)
    (log : List Wow64Call) (h : self.m_bDisabled = true) :
    Wow64FsRedirection.calls (vs.map Wow64Op.Disable) (self, log) = (self, log) := by
  induction vs with
  | nil => rfl
  | cons v vs ih =>
    simp only [List.map_cons, Wow64FsRedirection.calls]
    rw [Wow64FsRedirection_Disable_disabled v self log h]
    exact ih

/-- C23: on an instance that is not disabled, one or more consecutive `Disable()` calls make
exactly one OS disable call; the first `Revert()` after them makes exactly one OS revert call,
with the value the disable call saved, and leaves the instance not disabled with the old
value cleared. `Revert()` on an instance that is not disabled makes no OS call, and
`Disable()` makes the OS call only when the instance is not already disabled. -/
theorem Wow64FsRedirection_disable_revert (self : Wow64FsRedirection) (log : List Wow64Call)
    (v : Nat) (vs : List Nat) (h : self.m_bDisabled = false) :
    Wow64FsRedirection.calls ((v :: vs).map Wow64Op.Disable) (self, log) =
      ({ m_OldValue := v, m_bDisabled := true },
        log ++ [Wow64Call.Wow64DisableWow64FsRedirection]) ∧
    Wow64FsRedirection.calls ((v :: vs).map Wow64Op.Disable ++ [Wow64Op.Revert]) (self, log) =
      ({ m_OldValue := 0, m_bDisabled := false },
        log ++ [Wow64Call.Wow64DisableWow64FsRedirection,
          Wow64Call.Wow64RevertWow64FsRedirection v]) ∧
    Wow64FsRedirection.Revert self log = ({ m_OldValue := 0, m_bDisabled := false }, log) ∧
    (∀ (w : Nat) (s : Wow64FsRedirection) (l : List Wow64Call),
      (Wow64FsRedirection.Disable w s l).2 =
        if s.m_bDisabled then l else l ++ [Wow64Call.Wow64DisableWow64FsRedirection]) ∧
    (∀ (s : Wow64FsRedirection) (l : List Wow64Call),
      (Wow64FsRedirection.Revert s l).2 =
        if s.m_bDisabled then l ++ [Wow64Call.Wow64RevertWow64FsRedirection s.m_OldValue]
        else l) := by
  have h1 : Wow64FsRedirection.calls ((v :: vs).map Wow64Op.Disable) (self, log) =
      ({ m_OldValue := v, m_bDisabled := true },
        log ++ [Wow64Call.Wow64DisableWow64FsRedirection]) := by
    simp only [List.map_cons, Wow64FsRedirection.calls]
    have hd : Wow64FsRedirection.Disable v self log =
        ({ m_OldValue := v, m_bDisabled := true },
          log ++ [Wow64Call.Wow64DisableWow64FsRedirection]) := by
      unfold Wow64FsRedirection.Disable
      simp [h]
    rw [hd]
    exact Wow64FsRedirection_Disable_repeated vs _ _ rfl
  refine ⟨h1, ?_, ?_, ?_, ?_⟩
  · rw [Wow64FsRedirection_calls_append, h1]
    simp [Wow64FsRedirection.calls, Wow64FsRedirection.Revert]
  · unfold Wow64FsRedirection.Revert
    simp [h]
  · intro w s l
    unfold Wow64FsRedirection.Disable
    cases s.m_bDisabled <;> simp
  · intro s l
    unfold Wow64FsRedirection.Revert
    cases s.m_bDisabled <;> simp

/-- C23, at a fresh instance on which `Disable()` is called five times and then
`Revert()` once, the operating system storing `0x1234` at the first call. -/
theorem Wow64FsRedirection_disable_revert_witness :
    (Wow64FsRedirection.new false 0 []).1.m_bDisabled = false ∧
    Wow64FsRedirection.calls
        ([0x1234, 1, 2, 3, 4].map Wow64Op.Disable ++ [Wow64Op.Revert])
        (Wow64FsRedirection.new false 0 []) =
      ({ m_OldValue := 0, m_bDisabled := false },
        [Wow64Call.Wow64DisableWow64FsRedirection,
          Wow64Call.Wow64RevertWow64FsRedirection 0x1234]) :=
  ⟨rfl, (Wow64FsRedirection_disable_revert (Wow64FsRedirection.new false 0 []).1 []
    0x1234 [1, 2, 3, 4] rfl).2.1⟩

/-! ## Equality of SIDs -/

theorem EqualSid_iff (pSid1 pSid2 : List Nat) :
    EqualSid pSid1 pSid2 = true ↔
      ∀ i, i < 8 + 4 * SID.SubAuthorityCount pSid1 → byteAt pSid1 i = byteAt pSid2 i := by
  unfold EqualSid
  simp only [List.all_eq_true, List.mem_range, beq_iff_eq]

theorem EqualSid_refl (pSid : List Nat) : EqualSid pSid pSid = true :=
  (EqualSid_iff pSid pSid).mpr (fun _ _ => rfl)

/-- Equal SIDs have the same sub-authorities. -/
theorem EqualSid_subAuthority (pSid1 pSid2 : List Nat) (k : Nat)
    (h : EqualSid pSid1 pSid2 = true) (hk : k < SID.SubAuthorityCount pSid1) :
    GetSidSubAuthority pSid1 k = GetSidSubAuthority pSid2 k := by
  have hb := (EqualSid_iff pSid1 pSid2).mp h
  unfold GetSidSubAuthority dwordAt
  rw [hb (8 + 4 * k) (by omega), hb (8 + 4 * k + 1) (by omega), hb (8 + 4 * k + 2) (by omega),
    hb (8 + 4 * k + 3) (by omega)]

/-- On SIDs given by exactly their bytes, `EqualSid` is equality. -/
theorem EqualSid_eq_iff (x y : List Nat) (hx : x.length = 8 + 4 * SID.SubAuthorityCount x)
    (hy : y.length = 8 + 4 * SID.SubAuthorityCount y) (hbx : ∀ b ∈ x, b < 256)
    (hby : ∀ b ∈ y, b < 256) : EqualSid x y = true ↔ x = y := by
  constructor
  · intro h
    have hb := (EqualSid_iff x y).mp h
    have hc : SID.SubAuthorityCount x = SID.SubAuthorityCount y := hb 1 (by omega)
    have hlen : x.length = y.length := by omega
    apply List.ext_getElem hlen
    intro i h1 h2
    have hi := hb i (by omega)
    unfold byteAt at hi
    rw [List.getD_eq_getElem _ _ h1, List.getD_eq_getElem _ _ h2] at hi
    have b1 := hbx x[i] (List.getElem_mem h1)
    have b2 := hby y[i] (List.getElem_mem h2)
    omega
  · intro h
    rw [h]
    exact EqualSid_refl y

theorem operator_eq_of_empty (a b : CSid) (h : a.psid = none ∨ b.psid = none) :
    a.operator_eq b = false := by
  unfold CSid.operator_eq
  rcases h with h | h
  · rw [h]; cases b.psid <;> rfl
  · rw [h]

/-- C28: `CSid` equality, in both overloads of `operator==`, is false whenever either
operand is empty. An empty `CSid`, default-constructed or built from an invalid SID or from
an unparsable string, is therefore not equal to itself, and `operator==` is reflexive exactly
on the non-empty `CSid`s. There both overloads are `EqualSid` of the two SIDs, which on SIDs
given by their bytes is equality, and two equal SIDs become unequal when any one
sub-authority of one of them is changed. -/
theorem CSid_operator_eq_empty (a b : CSid) (h : a.psid = none ∨ b.psid = none) :
    a.operator_eq b = false ∧
    (∀ pSid : Option (List Nat), a.psid = none ∨ pSid = none → a.operator_eq_PSID pSid = false) ∧
    CSid.default.operator_eq CSid.default = false ∧
    (∀ (os : WinApi) (pSid : List Nat), os.IsValidSid pSid = false →
      (CSid.ofPSID os (some pSid)).operator_eq (CSid.ofPSID os (some pSid)) = false) ∧
    (∀ (os : WinApi) (ConvertStringSidToSidW : String → Option (List Nat)) (szSid : String),
      ConvertStringSidToSidW szSid = none →
      (CSid.ofString os ConvertStringSidToSidW szSid).operator_eq
        (CSid.ofString os ConvertStringSidToSidW szSid) = false) ∧
    (∀ c : CSid, c.operator_eq c = true ↔ c.psid ≠ none) ∧
    (∀ x y : List Nat, CSid.operator_eq ⟨some x⟩ ⟨some y⟩ = EqualSid x y) ∧
    (∀ (x y z : List Nat) (k : Nat), CSid.operator_eq ⟨some x⟩ ⟨some y⟩ = true →
      k < SID.SubAuthorityCount x → GetSidSubAuthority z k ≠ GetSidSubAuthority y k →
      CSid.operator_eq ⟨some x⟩ ⟨some z⟩ = false) ∧
    (∀ x y : List Nat, CSid.operator_eq_PSID ⟨some x⟩ (some y) = EqualSid x y) ∧
    (∀ c d : CSid, c.operator_eq_PSID d.psid = c.operator_eq d) ∧
    (∀ c : CSid, c.operator_eq_PSID c.psid = true ↔ c.psid ≠ none) ∧
    (∀ (x y z : List Nat) (k : Nat), CSid.operator_eq_PSID ⟨some x⟩ (some y) = true →
      k < SID.SubAuthorityCount x → GetSidSubAuthority z k ≠ GetSidSubAuthority y k →
      CSid.operator_eq_PSID ⟨some x⟩ (some z) = false) ∧
    (∀ x y : List Nat, x.length = 8 + 4 * SID.SubAuthorityCount x →
      y.length = 8 + 4 * SID.SubAuthorityCount y → (∀ b ∈ x, b < 256) → (∀ b ∈ y, b < 256) →
      (CSid.operator_eq ⟨some x⟩ ⟨some y⟩ = true ↔ x = y) ∧
      (CSid.operator_eq_PSID ⟨some x⟩ (some y) = true ↔ x = y)) := by
  have hsub : ∀ (x y z : List Nat) (k : Nat), EqualSid x y = true →
      k < SID.SubAuthorityCount x → GetSidSubAuthority z k ≠ GetSidSubAuthority y k →
      EqualSid x z = false := by
    intro x y z k hxy hk hne
    cases hxz : EqualSid x z with
    | false => rfl
    | true =>
      have h1 := EqualSid_subAuthority x y k hxy hk
      have h2 := EqualSid_subAuthority x z k hxz hk
      exact absurd (h2.symm.trans h1) hne
  have hrefl : ∀ c : CSid, c.operator_eq c = true ↔ c.psid ≠ none := by
    intro c
    constructor
    · intro hc hn
      rw [operator_eq_of_empty c c (Or.inl hn)] at hc
      exact Bool.false_ne_true hc
    · intro hn
      cases c with
      | mk buf =>
        cases buf with
        | none => exact absurd rfl hn
        | some x => exact EqualSid_refl x
  refine ⟨operator_eq_of_empty a b h, ?_, rfl, ?_, ?_, hrefl, fun _ _ => rfl,
    fun x y z k hxy hk hne => hsub x y z k hxy hk hne, fun _ _ => rfl, fun _ _ => rfl,
    fun c => hrefl c, fun x y z k hxy hk hne => hsub x y z k hxy hk hne,
    fun x y hx hy hbx hby => ⟨EqualSid_eq_iff x y hx hy hbx hby,
      EqualSid_eq_iff x y hx hy hbx hby⟩⟩
  · intro pSid hp
    unfold CSid.operator_eq_PSID
    rcases hp with hp | hp
    · rw [hp]; cases pSid <;> rfl
    · rw [hp]
  · intro os pSid hv
    apply operator_eq_of_empty
    left
    simp [CSid.ofPSID, CSid.psid, hv]
  · intro os conv szSid hc
    apply operator_eq_of_empty
    left
    simp [CSid.ofString, CSid.psid, hc]

/-- C28, at a `CSid` built from a SID that the operating system does not accept as valid,
compared with itself. -/
theorem CSid_operator_eq_empty_witness :
    (CSid.ofPSID exampleRejectingApi (some exampleSystemSid)).psid = none ∧
    (CSid.ofPSID exampleRejectingApi (some exampleSystemSid)).operator_eq
      (CSid.ofPSID exampleRejectingApi (some exampleSystemSid)) = false ∧
    (CSid.ofPSID exampleApi (some exampleSystemSid)).operator_eq
      (CSid.ofPSID exampleApi (some exampleSystemSid)) = true ∧
    (CSid.ofPSID exampleApi (some exampleDomainSid)).operator_eq
      (CSid.ofPSID exampleApi (some exampleLocalSid)) = false ∧
    (CSid.ofPSID exampleApi (some exampleSystemSid)).operator_eq_PSID (some exampleSystemSid) =
      true ∧
    (CSid.ofPSID exampleApi (some exampleDomainSid)).operator_eq_PSID (some exampleLocalSid) =
      false :=
  ⟨rfl,
    (CSid_operator_eq_empty (CSid.ofPSID exampleRejectingApi (some exampleSystemSid))
      (CSid.ofPSID exampleRejectingApi (some exampleSystemSid)) (Or.inl rfl)).1,
    by decide, by decide, by decide, by decide⟩

/-! ## Names of integrity levels -/

/-- A list that ends with another one has the same last element. -/
theorem getLast_of_suffix (X L : List Char) (c : Char) (hX : X.getLast? = some c)
    (h : X <:+ L) : L.getLast? = some c := by
  obtain ⟨t, ht⟩ := h
  rw [← ht, List.getLast?_append, hX]
  rfl

/-- The text that `IntegrityLevelName` writes after the number of a value that is not a
well-known level is what the description gives. -/
theorem IntegrityLevelName_other (info : TokenInfo_t)
    (h : ∀ l ∈ wellKnownIntegrityLevels, info.integrityLevel ≠ l.1) :
    info.IntegrityLevelName =
      toString info.integrityLevel ++ specIntegritySuffix info.integrityLevel := by
  have h0 : info.integrityLevel ≠ 0x0000 := h (0x0000, "Untrusted") (by decide)
  have h1 : info.integrityLevel ≠ 0x1000 := h (0x1000, "Low") (by decide)
  have h2 : info.integrityLevel ≠ 0x2000 := h (0x2000, "Medium") (by decide)
  have h3 : info.integrityLevel ≠ 0x2100 := h (0x2100, "MediumPlus") (by decide)
  have h4 : info.integrityLevel ≠ 0x3000 := h (0x3000, "High") (by decide)
  have h5 : info.integrityLevel ≠ 0x4000 := h (0x4000, "System") (by decide)
  have h6 : info.integrityLevel ≠ 0x5000 := h (0x5000, "ProtectedProcess") (by decide)
  unfold TokenInfo_t.IntegrityLevelName specIntegritySuffix wellKnownIntegrityLevels
  simp only [SECURITY_MANDATORY_UNTRUSTED_RID, SECURITY_MANDATORY_LOW_RID,
    SECURITY_MANDATORY_MEDIUM_RID, SECURITY_MANDATORY_MEDIUM_PLUS_RID,
    SECURITY_MANDATORY_HIGH_RID, SECURITY_MANDATORY_SYSTEM_RID,
    SECURITY_MANDATORY_PROTECTED_PROCESS_RID]
  rw [if_neg h0, if_neg h1, if_neg h2, if_neg h3, if_neg h4, if_neg h5, if_neg h6]
  congr 1
  generalize info.integrityLevel = v
  simp only [List.find?_cons, List.find?_nil, Nat.not_lt_zero, decide_False, if_false]
  by_cases c1 : v < 0x1000
  · simp [c1]
  · by_cases c2 : v < 0x2000
    · simp [c1, c2]
    · by_cases c3 : v < 0x2100
      · simp [c1, c2, c3]
      · by_cases c4 : v < 0x3000
        · simp [c1, c2, c3, c4]
        · by_cases c5 : v < 0x4000
          · simp [c1, c2, c3, c4, c5]
          · by_cases c6 : v < 0x5000
            · simp [c1, c2, c3, c4, c5, c6]
            · simp [c1, c2, c3, c4, c5, c6]

theorem getLast_append_text (S : String) (A : List Char) (c : Char)
    (hS : S.data.getLast? = some c) (hc : c ≠ 'd') : (A ++ S.data).getLast? ≠ some 'd' := by
  rw [List.getLast?_append, hS]
  intro h
  exact hc (Option.some.inj h)

/-- No string returned by `IntegrityLevelName` for a level other than 0 ends with the
letter `d`. -/
theorem IntegrityLevelName_last (info : TokenInfo_t) (h0 : info.integrityLevel ≠ 0) :
    info.IntegrityLevelName.data.getLast? ≠ some 'd' := by
  unfold TokenInfo_t.IntegrityLevelName
  simp only [SECURITY_MANDATORY_UNTRUSTED_RID, SECURITY_MANDATORY_LOW_RID,
    SECURITY_MANDATORY_MEDIUM_RID, SECURITY_MANDATORY_MEDIUM_PLUS_RID,
    SECURITY_MANDATORY_HIGH_RID, SECURITY_MANDATORY_SYSTEM_RID,
    SECURITY_MANDATORY_PROTECTED_PROCESS_RID]
  generalize info.integrityLevel = v at h0 ⊢
  rw [if_neg h0]
  by_cases e1 : v = 0x1000
  · rw [if_pos e1]; decide
  rw [if_neg e1]
  by_cases e2 : v = 0x2000
  · rw [if_pos e2]; decide
  rw [if_neg e2]
  by_cases e3 : v = 0x2000 + 0x100
  · rw [if_pos e3]; decide
  rw [if_neg e3]
  by_cases e4 : v = 0x3000
  · rw [if_pos e4]; decide
  rw [if_neg e4]
  by_cases e5 : v = 0x4000
  · rw [if_pos e5]; decide
  rw [if_neg e5]
  by_cases e6 : v = 0x5000
  · rw [if_pos e6]; decide
  rw [if_neg e6]
  rw [String.data_append]
  have c0 : ¬ v < 0x0000 := Nat.not_lt_zero v
  rw [if_neg c0]
  by_cases c1 : v < 0x1000
  · rw [if_pos c1]
    exact getLast_append_text " < Low" _ 'w' (by decide) (by decide)
  rw [if_neg c1]
  by_cases c2 : v < 0x2000
  · rw [if_pos c2]
    exact getLast_append_text " < Medium" _ 'm' (by decide) (by decide)
  rw [if_neg c2]
  by_cases c3 : v < 0x2000 + 0x100
  · rw [if_pos c3]
    exact getLast_append_text " < MediumPlus" _ 's' (by decide) (by decide)
  rw [if_neg c3]
  by_cases c4 : v < 0x3000
  · rw [if_pos c4]
    exact getLast_append_text " < High" _ 'h' (by decide) (by decide)
  rw [if_neg c4]
  by_cases c5 : v < 0x4000
  · rw [if_pos c5]
    exact getLast_append_text " < System" _ 'm' (by decide) (by decide)
  rw [if_neg c5]
  by_cases c6 : v < 0x5000
  · rw [if_pos c6]
    exact getLast_append_text " < ProtectedProcess" _ 's' (by decide) (by decide)
  rw [if_neg c6]
  exact getLast_append_text " > ProtectedProcess" _ 's' (by decide) (by decide)

/-- C29: `IntegrityLevelName` returns the fixed name for each of the seven well-known levels
(0x0000 Untrusted, 0x1000 Low, 0x2000 Medium, 0x2100 MediumPlus, 0x3000 High, 0x4000 System,
0x5000 ProtectedProcess). For every other value it returns the decimal of the value followed
by " < N", where N names the smallest well-known level greater than the value, or by
" > ProtectedProcess" when the value is greater than 0x5000. No returned string ends with
" < Untrusted". -/
theorem IntegrityLevelName_levels (info : TokenInfo_t) :
    (∀ l ∈ wellKnownIntegrityLevels, info.integrityLevel = l.1 →
      info.IntegrityLevelName = l.2) ∧
    ((∀ l ∈ wellKnownIntegrityLevels, info.integrityLevel ≠ l.1) →
      info.IntegrityLevelName =
        toString info.integrityLevel ++ specIntegritySuffix info.integrityLevel) ∧
    (0x5000 < info.integrityLevel →
      info.IntegrityLevelName = toString info.integrityLevel ++ " > ProtectedProcess") ∧
    ¬ (" < Untrusted".data <:+ info.IntegrityLevelName.data) ∧
    List.Pairwise (fun a b => a.1 < b.1) wellKnownIntegrityLevels ∧
    wellKnownIntegrityLevels.map Prod.fst =
      [SECURITY_MANDATORY_UNTRUSTED_RID, SECURITY_MANDATORY_LOW_RID,
        SECURITY_MANDATORY_MEDIUM_RID, SECURITY_MANDATORY_MEDIUM_PLUS_RID,
        SECURITY_MANDATORY_HIGH_RID, SECURITY_MANDATORY_SYSTEM_RID,
        SECURITY_MANDATORY_PROTECTED_PROCESS_RID] := by
  refine ⟨?_, IntegrityLevelName_other info, ?_, ?_, by decide, by decide⟩
  · intro l hl hv
    cases info with
    | mk sid logonSession integrityLevel =>
      simp only at hv
      subst hv
      simp only [wellKnownIntegrityLevels, List.mem_cons, List.mem_singleton,
        List.not_mem_nil, or_false] at hl
      rcases hl with rfl | rfl | rfl | rfl | rfl | rfl | rfl <;> rfl
  · intro hgt
    have hother : ∀ l ∈ wellKnownIntegrityLevels, info.integrityLevel ≠ l.1 := by
      intro l hl
      simp only [wellKnownIntegrityLevels, List.mem_cons, List.mem_singleton,
        List.not_mem_nil, or_false] at hl
      rcases hl with rfl | rfl | rfl | rfl | rfl | rfl | rfl <;> simp only [] <;> omega
    rw [IntegrityLevelName_other info hother]
    congr 1
    unfold specIntegritySuffix wellKnownIntegrityLevels
    have c0 : ¬ info.integrityLevel < 0x0000 := by omega
    have c1 : ¬ info.integrityLevel < 0x1000 := by omega
    have c2 : ¬ info.integrityLevel < 0x2000 := by omega
    have c3 : ¬ info.integrityLevel < 0x2100 := by omega
    have c4 : ¬ info.integrityLevel < 0x3000 := by omega
    have c5 : ¬ info.integrityLevel < 0x4000 := by omega
    have c6 : ¬ info.integrityLevel < 0x5000 := by omega
    simp [c0, c1, c2, c3, c4, c5, c6]
  · intro hsuf
    by_cases h0 : info.integrityLevel = 0
    · have hname : info.IntegrityLevelName = "Untrusted" := by
        unfold TokenInfo_t.IntegrityLevelName
        simp only [SECURITY_MANDATORY_UNTRUSTED_RID]
        rw [if_pos h0]
      rw [hname] at hsuf
      exact absurd hsuf.length_le (by decide)
    · exact IntegrityLevelName_last info h0
        (getLast_of_suffix _ _ 'd' (by decide) hsuf)

/-- C29, at the value 5000, which lies between Low (4096) and Medium (8192). -/
theorem IntegrityLevelName_levels_witness :
    TokenInfo_t.IntegrityLevelName ⟨CSid.default, 0, 5000⟩ = "5000 < Medium" ∧
    TokenInfo_t.IntegrityLevelName ⟨CSid.default, 0, 5000⟩ =
      toString 5000 ++ specIntegritySuffix 5000 :=
  ⟨by decide,
    (IntegrityLevelName_levels ⟨CSid.default, 0, 5000⟩).2.1 (by decide)⟩

/-! ## Lookups without network -/

theorem string_length_eq_zero_iff (s : String) : s.length = 0 ↔ s = "" := by
  constructor
  · intro h
    apply String.ext
    exact List.length_eq_zero.mp h
  · intro h
    rw [h]
    rfl

theorem byteAt_append_left (a b : List Nat) (i : Nat) (h : i < a.length) :
    byteAt (a ++ b) i = byteAt a i := by
  unfold byteAt
  rw [List.getD_append _ _ _ _ h]

/-- On a buffer of at least twelve bytes `TestNtAuthorityRID` reads nothing behind the
buffer. -/
theorem TestNtAuthorityRID_psidMemory (heapAfter sid : List Nat) (dwRid : Nat)
    (h : 12 ≤ sid.length) :
    CSid.TestNtAuthorityRID (CSid.psidMemory heapAfter ⟨some sid⟩) dwRid =
      CSid.TestNtAuthorityRID (some sid) dwRid := by
  have hb : ∀ i, i < 12 → byteAt (sid ++ heapAfter) i = byteAt sid i :=
    fun i hi => byteAt_append_left sid heapAfter i (by omega)
  unfold CSid.psidMemory CSid.TestNtAuthorityRID GetSidIdentifierAuthority GetSidSubAuthority
    dwordAt
  simp only [Nat.mul_zero, Nat.add_zero]
  rw [hb 2 (by omega), hb 3 (by omega), hb 4 (by omega), hb 5 (by omega), hb 6 (by omega),
    hb 7 (by omega), hb 8 (by omega), hb (8 + 1) (by omega), hb (8 + 2) (by omega),
    hb (8 + 3) (by omega)]

/-- The traced conversion returns what `toDomainAndUsername` returns and logs one call of
`LookupAccountSidW`, for the buffer, when the buffer is not null. -/
theorem toDomainAndUsername_traced_some (os : WinApi) (sid : List Nat) (b : Bool)
    (log : List (List Nat)) :
    CSid.toDomainAndUsername.traced os ⟨some sid⟩ b log =
      (CSid.toDomainAndUsername os ⟨some sid⟩ b, log ++ [sid]) := by
  unfold CSid.toDomainAndUsername.traced CSid.toDomainAndUsername CSid.Lookup.traced CSid.Lookup
  simp only []
  cases os.LookupAccountSidW sid with
  | none => rfl
  | some du => rfl

theorem toDomainAndUsername_traced_none (os : WinApi) (b : Bool) (log : List (List Nat)) :
    CSid.toDomainAndUsername.traced os ⟨none⟩ b log =
      (CSid.toDomainAndUsername os ⟨none⟩ b, log) := rfl

/-- C22, the code at the failing input. The SID S-1-5 has no sub-authority, so it is not an
S-1-5-21-* SID, and it is not machine-local; a `CSid` made from it holds a buffer of eight
bytes. When the four bytes `15 00 00 00` lie behind that buffer,
`toDomainAndUserNameIfNoNetworkNeeded` makes no lookup and returns the SID string; with other
bytes there it looks the name up. For a `CSid` whose buffer has at least twelve bytes (a SID
with a sub-authority) the lookup is made if and only if the SID is machine-local or is not
S-1-5-21-*, whatever lies behind the buffer, and the result is the looked-up name when a
lookup was made and gave a non-empty name, and the SID string otherwise. -/
theorem toDomainAndUserNameIfNoNetworkNeeded_zero_sub_authorities :
    (CSid.ofPSID exampleNtAuthorityApi (some exampleSidWithoutSubAuthority)).m_pBuf =
      some exampleNtAuthorityBuffer ∧
    SID.SubAuthorityCount exampleNtAuthorityBuffer = 0 ∧
    CSid.IsMachineLocal exampleMachine ⟨some exampleNtAuthorityBuffer⟩ = false ∧
    CSid.toDomainAndUserNameIfNoNetworkNeeded.traced exampleNtAuthorityApi exampleMachine
      [0x15, 0, 0, 0] ⟨some exampleNtAuthorityBuffer⟩ [] = ("S-1-5", []) ∧
    CSid.toDomainAndUserNameIfNoNetworkNeeded.traced exampleNtAuthorityApi exampleMachine
      [0, 0, 0, 0] ⟨some exampleNtAuthorityBuffer⟩ [] =
        ("NT AUTHORITY", [exampleNtAuthorityBuffer]) ∧
    (∀ (os : WinApi) (dom : DomainApi) (heapAfter sid : List Nat) (log : List (List Nat)),
      12 ≤ sid.length →
      CSid.toDomainAndUserNameIfNoNetworkNeeded.traced os dom heapAfter ⟨some sid⟩ log =
        if CSid.IsMachineLocal dom ⟨some sid⟩ = true ∨
            ¬ (GetSidIdentifierAuthority sid = SECURITY_NT_AUTHORITY ∧
              GetSidSubAuthority sid 0 = 21) then
          (if CSid.toDomainAndUsername os ⟨some sid⟩ false = "" then
              CSid.toSidString os ⟨some sid⟩
            else CSid.toDomainAndUsername os ⟨some sid⟩ false,
            log ++ [sid])
        else (CSid.toSidString os ⟨some sid⟩, log)) ∧
    (∀ (os : WinApi) (dom : DomainApi) (heapAfter : List Nat) (log : List (List Nat)),
      CSid.toDomainAndUserNameIfNoNetworkNeeded.traced os dom heapAfter ⟨none⟩ log =
        ("", log)) := by
  refine ⟨by decide, by decide, by decide, by decide, by decide, ?_, ?_⟩
  · intro os dom heapAfter sid log hlen
    have hiff := (TestNtAuthorityRID_iff sid SECURITY_NT_NON_UNIQUE).2
    have h21 : (GetSidIdentifierAuthority sid = SECURITY_NT_AUTHORITY ∧
        GetSidSubAuthority sid 0 = 21) ↔
        CSid.TestNtAuthorityRID (some sid) SECURITY_NT_NON_UNIQUE = true := by
      rw [hiff]
      unfold GetSidSubAuthority SECURITY_NT_NON_UNIQUE
      rfl
    unfold CSid.toDomainAndUserNameIfNoNetworkNeeded.traced
    rw [TestNtAuthorityRID_psidMemory heapAfter sid _ hlen]
    simp only [h21, toDomainAndUsername_traced_some]
    cases hl : CSid.IsMachineLocal dom ⟨some sid⟩ <;>
      cases ht : CSid.TestNtAuthorityRID (some sid) SECURITY_NT_NON_UNIQUE <;>
      simp [string_length_eq_zero_iff]
  · intro os dom heapAfter log
    rfl

end SecurityDescriptorUtils
